import Mathlib

/-!
# Balloon tracker: uplink encoder and scheduler of `main.cpp`

A shallow embedding of the payload encoder, the fix filter, the uplink
functions, the LoRa event callback and the scheduler tick of `main.cpp`,
followed by theorems about them.

Modelling conventions.

* A finite `double` or `float` value (coordinates, altitude, speed, battery
  voltage, sensor readings) is the rational number it denotes.  The double
  arithmetic of `pack_lat_lon` and the single-precision products of
  `pack_bme280` round every operation to the nearest value of the format, ties
  to even (`roundDouble`, `roundFloat`).  Infinities and NaN are not modelled:
  a result too large for the format is too large for every integer type the
  program converts it to, a case that `oor` covers.  The expression
  `mV / 10.0 + .5` of `battery_byte` is computed over the rationals.
* Unsigned machine integers are natural numbers reduced `% 2 ^ w` wherever the
  source can wrap; the signed counters `ack_req`, `ack_rx` and
  `status_uplinks` are integers (they would need `2 ^ 31` confirmed uplinks to
  overflow).
* `x & 0xFF` is `x % 256` and `x >> k` is `x / 2 ^ k` on natural numbers.
* `millis()` reads a counter that may advance between any two calls:
  `clock k` is the value the `k`-th call returns and `reads` counts the calls.
* `ESP.restart()` does not return: `schedule` and `loop` return a flag that
  says whether the tick ended in it.
* Everything that `main.cpp` takes from other files (the constants of
  `configuration.h`, the radio driver of `ttn.cpp` and LMIC, the conversion of
  an unrepresentable floating value) is a field of `Target`.
-/

namespace BalloonTracker

/-! ## Numeric conversions -/

/-- Truncation toward zero, the rounding of a C++ floating to integer conversion. -/
def truncQ (q : ℚ) : Int :=
  if 0 ≤ q then ⌊q⌋ else ⌈q⌉

/-- Conversion of a floating value to an unsigned integer type of `bits` bits.
The value is truncated toward zero.  When the truncated value is not
representable in the destination type the language leaves the conversion
undefined; `oor bits q` stands for what the target delivers in that case. -/
def toUnsigned (oor : Nat → ℚ → Nat) (bits : Nat) (q : ℚ) : Nat :=
  if 0 ≤ truncQ q ∧ truncQ q < 2 ^ bits then (truncQ q).toNat else oor bits q % 2 ^ bits

/-- An unrepresentable value converts to the nearest representable one. -/
def oorSaturate (bits : Nat) (q : ℚ) : Nat :=
  if q < 0 then 0 else 2 ^ bits - 1

/-- The nearest integer, the even one when two are equally near. -/
def roundEven (q : ℚ) : Int :=
  if q - ⌊q⌋ < 1 / 2 then ⌊q⌋
  else if 1 / 2 < q - ⌊q⌋ then ⌊q⌋ + 1
  else if ⌊q⌋ % 2 = 0 then ⌊q⌋ else ⌊q⌋ + 1

/-- The exponent of the unit in the last place of `q` in the binary
floating-point format with `prec` bits of precision and least normal exponent
`emin`. -/
def ulpExp (prec : Nat) (emin : Int) (q : ℚ) : Int :=
  max (Int.log 2 |q|) emin - ((prec : Int) - 1)

/-- Rounding to the nearest value of a binary floating-point format, ties to
even: the result of one IEEE 754 operation whose exact result is `q`, as long
as it does not overflow. -/
def roundBinary (prec : Nat) (emin : Int) (q : ℚ) : ℚ :=
  roundEven (q / 2 ^ ulpExp prec emin q) * 2 ^ ulpExp prec emin q

/-- Rounding to `double` (binary64). -/
def roundDouble (q : ℚ) : ℚ := roundBinary 53 (-1022) q

/-- Rounding to `float` (binary32). -/
def roundFloat (q : ℚ) : ℚ := roundBinary 24 (-126) q

/-- The transmit buffer `static uint8_t txBuffer[24]`. -/
abbrev Buffer := Fin 24 → Nat

/-- The assignment `txBuffer[i] = v`. -/
def Buffer.write (b : Buffer) (i : Fin 24) (v : Nat) : Buffer :=
  Function.update b i v

/-! ## Payload encoder -/

/-- The double expression `((x + offset) / span) * 16777215` of `pack_lat_lon`:
an addition, a division and a multiplication, each rounded to `double`. -/
def scaleCoord (x offset span : ℚ) : ℚ :=
  roundDouble (roundDouble (roundDouble (x + offset) / span) * 16777215)

/-- The value `LatitudeBinary` of `pack_lat_lon`:
`((lat + 90) / 180.0) * 16777215` converted to `uint32_t`. -/
def LatitudeBinary (oor : Nat → ℚ → Nat) (lat : ℚ) : Nat :=
  toUnsigned oor 32 (scaleCoord lat 90 180)

/-- The value `LongitudeBinary` of `pack_lat_lon`:
`((lon + 180) / 360.0) * 16777215` converted to `uint32_t`. -/
def LongitudeBinary (oor : Nat → ℚ → Nat) (lon : ℚ) : Nat :=
  toUnsigned oor 32 (scaleCoord lon 180 360)

/-- Store latitude and longitude in the first six bytes of the payload. -/
def pack_lat_lon (oor : Nat → ℚ → Nat) (lat lon : ℚ) (b : Buffer) : Buffer :=
  let la := LatitudeBinary oor lat
  let lo := LongitudeBinary oor lon
  (((((b.write 0 ((la / 2 ^ 16) % 256)).write 1 ((la / 2 ^ 8) % 256)).write 2 (la % 256)).write 3
    ((lo / 2 ^ 16) % 256)).write 4 ((lo / 2 ^ 8) % 256)).write 5 (lo % 256)

/-- The battery byte: `uint16_t batteryVoltage = mV / 10.0 + .5` followed by
`(batteryVoltage - 200) & 0xFF`, the subtraction being done in `int`. -/
def battery_byte (oor : Nat → ℚ → Nat) (battVoltage : ℚ) : Nat :=
  let batteryVoltage : Nat := toUnsigned oor 16 (battVoltage / 10 + 1 / 2)
  (((batteryVoltage : Int) - 200) % 256).toNat

/-- The bytes `txBuffer[15..21]` written by `pack_bme280`.  The readings are
`float` values; `readTemperature() * 100` and `readHumidity() * 100` are
single-precision products, converted to `unsigned long` (32 bits). -/
def pack_bme280 (oor : Nat → ℚ → Nat) (bme280_alive : Bool) (temperature pressure humidity : ℚ)
    (b : Buffer) : Buffer :=
  if bme280_alive then
    let bmeTemp := toUnsigned oor 32 (roundFloat (temperature * 100))
    let bmePressure := toUnsigned oor 32 pressure
    let bmeHumidity := toUnsigned oor 32 (roundFloat (humidity * 100))
    ((((((b.write 15 ((bmeTemp / 2 ^ 8) % 256)).write 16 (bmeTemp % 256)).write 17
      ((bmePressure / 2 ^ 16) % 256)).write 18 ((bmePressure / 2 ^ 8) % 256)).write 19
      (bmePressure % 256)).write 20 ((bmeHumidity / 2 ^ 8) % 256)).write 21 (bmeHumidity % 256)
  else
    ((((((b.write 15 0).write 16 0).write 17 0).write 18 0).write 19 0).write 20 0).write 21 0

/-- The bytes `txBuffer[22..23]` written by `pack_ltr390`. -/
def pack_ltr390 (ltr390_alive : Bool) (uvs : Nat) (b : Buffer) : Buffer :=
  if ltr390_alive then
    let uv := uvs
    (b.write 22 ((uv / 2 ^ 8) % 256)).write 23 (uv % 256)
  else
    (b.write 22 0).write 23 0

/-! ## Collaborators and program state -/

/-- What `main.cpp` reads from the TinyGPS++ object `tGPS`: the six `isValid()`
flags and the values the accessors `lat()`, `lng()`, `meters()`, `kmph()`,
`satellites.value()` and `sentencesWithFix()` return. -/
structure Gps where
  locationValid : Bool
  timeValid : Bool
  satellitesValid : Bool
  hdopValid : Bool
  altitudeValid : Bool
  speedValid : Bool
  lat : ℚ
  lng : ℚ
  meters : ℚ
  kmph : ℚ
  satellites : Nat
  sentencesWithFix : Nat

/-- The readings of the BME280 and LTR390 drivers: `readTemperature()`,
`readPressure()`, `readHumidity()` and `readUVS()`. -/
structure Sensors where
  temperature : ℚ
  pressure : ℚ
  humidity : ℚ
  uvs : Nat

/-- The inbound message `ttn_response` hands out: its port, its bytes, and
`beyond`, the byte that lies at the address of `data[0]` when the message is
empty (the array `uint8_t data[len]` then has no element). -/
structure Downlink where
  port : Nat
  data : List Nat
  beyond : Nat

/-- One invocation of `ttn_send`: the bytes, port and confirmed flag handed to
the radio, the value of `ready()` at the moment of the call, and the radio's
answer. -/
structure Tx where
  data : List Nat
  port : Nat
  confirmed : Bool
  ready : Bool
  accepted : Bool
deriving DecidableEq

/-- Everything `main.cpp` takes from other files: the constants of
`configuration.h`, the radio driver over its own state `ρ`, and the result of
converting an unrepresentable floating value. -/
structure Target (ρ : Type) where
  TX_INTERVAL : Nat
  LORAWAN_CONFIRMED_EVERY : Int
  ACK_FAIL_THRESHOLD : Int
  LORAWAN_SF : Nat
  LORAWAN_SF_PING : Nat
  LMIC_queryTxReady : ρ → Bool
  OP_TXRXPEND : ρ → Bool
  ttn_send : ρ → List Nat → Nat → Bool → Bool × ρ
  ttn_get_count : ρ → Nat
  ttn_set_sf : ρ → Nat → ρ
  ttn_response : ρ → Downlink
  oor : Nat → ℚ → Nat

/-- The globals of `main.cpp` and `sensors.h`, the collaborators' current
values, the millisecond counter (`clock k` is the value of the `k`-th call of
`millis()`, `reads` the number of calls made so far), and the record `sent` of
the invocations of `ttn_send`. -/
structure World (ρ : Type) where
  last_send_ms : Nat
  uplink_failed : Bool
  last_send_lat : ℚ
  last_send_lon : ℚ
  last_fix_time : Nat
  transmitted : Bool
  ping : Bool
  ping_requested : Bool
  last_status_ms : Nat
  status_uplinks : Int
  ack_rec : Bool
  tx_interval_s : Nat
  isJoined : Bool
  txBuffer : Buffer
  ack_req : Int
  ack_rx : Int
  seen_joined : Bool
  seen_joining : Bool
  last_fix_count : Nat
  bme280_alive : Bool
  ltr390_alive : Bool
  gps : Gps
  sensors : Sensors
  battVoltage : ℚ
  radio : ρ
  clock : Nat → Nat
  reads : Nat
  sent : List Tx

/-- Return status of an uplink attempt. -/
inductive mapper_uplink_result where
  | MAPPER_UPLINK_SUCCESS
  | MAPPER_UPLINK_BADFIX
  | MAPPER_UPLINK_NOLORA
  | MAPPER_UPLINK_NOTYET
deriving DecidableEq

open mapper_uplink_result

def FPORT_PING : Nat := 1
def FPORT_GPS : Nat := 2
def FPORT_STATUS : Nat := 5
def FPORT_GPSLOST : Nat := 6

section Program

variable {ρ : Type}

/-- One call of `millis()`: an `unsigned long` of 32 bits. -/
def millis (w : World ρ) : Nat × World ρ :=
  (w.clock w.reads % 2 ^ 32, { w with reads := w.reads + 1 })

/-- Subtraction of 32-bit unsigned values. -/
def sub32 (a b : Nat) : Nat :=
  (((a : Int) - (b : Int)) % 2 ^ 32).toNat

/-- The first `length` bytes of the buffer, which is what `ttn_send` is given. -/
def frame (b : Buffer) (length : Nat) : List Nat :=
  (List.ofFn b).take length

def ready (T : Target ρ) (w : World ρ) : Bool :=
  if !w.isJoined then false
  else if !T.LMIC_queryTxReady w.radio then false
  else if T.OP_TXRXPEND w.radio then false
  else true

def send_uplink (T : Target ρ) (w : World ρ) (length fport : Nat) (confirmed ping : Bool) :
    mapper_uplink_result × World ρ :=
  let (now, w) := millis w
  if !ready T w then (MAPPER_UPLINK_NOLORA, w)
  else
    let w := if confirmed then { w with ack_req := w.ack_req + 1 } else w
    let (ok, r) := T.ttn_send w.radio (frame w.txBuffer length) fport confirmed
    let w := { w with
      radio := r
      sent := w.sent ++ [⟨frame w.txBuffer length, fport, confirmed, ready T w, ok⟩] }
    if !ok then (MAPPER_UPLINK_NOLORA, w)
    else
      let w := if !ping then { w with last_send_ms := now } else w
      (MAPPER_UPLINK_SUCCESS, w)

/-- Prepare a packet with GPS and sensor data. -/
def build_full_packet (T : Target ρ) (w : World ρ) : World ρ :=
  let (t, w) := millis w
  let minutes_lost := (sub32 t w.last_fix_time / 1000 / 60) % 2 ^ 16
  let (t, w) := millis w
  let uptime := t / 1000 / 60
  let lat := w.gps.lat
  let lon := w.gps.lng
  let b := pack_lat_lon T.oor lat lon w.txBuffer
  let altitudeGps := toUnsigned T.oor 16 w.gps.meters
  let speed := toUnsigned T.oor 16 w.gps.kmph
  let speed := if speed > 255 then 255 else speed
  let sats := w.gps.satellites % 2 ^ 8
  let b := (b.write 6 ((altitudeGps / 2 ^ 8) % 256)).write 7 (altitudeGps % 256)
  let b := (b.write 8 (speed % 256)).write 9 (battery_byte T.oor w.battVoltage)
  let b := ((b.write 10 (sats % 256)).write 11 ((uptime / 2 ^ 8) % 256)).write 12 (uptime % 256)
  let b := (b.write 13 ((minutes_lost / 2 ^ 8) % 256)).write 14 (minutes_lost % 256)
  let b := pack_bme280 T.oor w.bme280_alive w.sensors.temperature w.sensors.pressure
    w.sensors.humidity b
  let b := pack_ltr390 w.ltr390_alive w.sensors.uvs b
  { w with txBuffer := b }

/-- The status uplink.  Its `bool` result is the conversion of the enumeration
value returned by `send_uplink`, so it is `false` exactly on success. -/
def status_uplink (T : Target ρ) (w : World ρ) : Bool × World ρ :=
  let b := pack_lat_lon T.oor w.last_send_lat w.last_send_lon w.txBuffer
  let (t, w) := millis w
  let uptime := t / 1000 / 60
  let b := (b.write 6 (battery_byte T.oor w.battVoltage)).write 7 (uptime % 256)
  let w := { w with txBuffer := b, status_uplinks := w.status_uplinks + 1 }
  let (t, w) := millis w
  let w := { w with last_status_ms := t }
  let (r, w) := send_uplink T w 8 FPORT_STATUS true false
  (decide (r ≠ MAPPER_UPLINK_SUCCESS), w)

/-- The acknowledgment request of a GPS or GPSLOST frame. -/
def want_ack (T : Target ρ) (w : World ρ) : Bool :=
  decide (T.LORAWAN_CONFIRMED_EVERY > 0) &&
    decide ((T.ttn_get_count w.radio : Int) % T.LORAWAN_CONFIRMED_EVERY = 0)

def gpslost_uplink (T : Target ρ) (w : World ρ) : mapper_uplink_result × World ρ :=
  let confirmed := want_ack T w
  let (t, w) := millis w
  let uptime := t / 1000 / 60
  let (t, w) := millis w
  let minutes_lost := (sub32 t w.last_fix_time / 1000 / 60) % 2 ^ 16
  let b := pack_lat_lon T.oor w.last_send_lat w.last_send_lon w.txBuffer
  let b := ((b.write 6 0).write 7 0).write 8 0
  let b := (b.write 9 (battery_byte T.oor w.battVoltage)).write 10 (w.gps.satellites % 256)
  let b := (b.write 11 ((uptime / 2 ^ 8) % 256)).write 12 (uptime % 256)
  let b := (b.write 13 ((minutes_lost / 2 ^ 8) % 256)).write 14 (minutes_lost % 256)
  let b := pack_bme280 T.oor w.bme280_alive w.sensors.temperature w.sensors.pressure
    w.sensors.humidity b
  let b := pack_ltr390 w.ltr390_alive w.sensors.uvs b
  send_uplink T { w with txBuffer := b } 24 FPORT_GPSLOST confirmed false

/-- Send a packet, if one is warranted. -/
def gps_uplink (T : Target ρ) (w : World ρ) : mapper_uplink_result × World ρ :=
  let (_, w) := millis w
  let now_lat := w.gps.lat
  let now_lon := w.gps.lng
  if !(w.gps.locationValid && w.gps.timeValid && w.gps.satellitesValid && w.gps.hdopValid &&
      w.gps.altitudeValid && w.gps.speedValid) then (MAPPER_UPLINK_BADFIX, w)
  else if w.gps.satellites < 4 then (MAPPER_UPLINK_BADFIX, w)
  else if now_lat = 0 ∨ now_lon = 0 then (MAPPER_UPLINK_BADFIX, w)
  else
    let w := build_full_packet T w
    let confirmed := want_ack T w
    let w := { w with last_send_lat := now_lat, last_send_lon := now_lon }
    send_uplink T w 24 FPORT_GPS confirmed false

def uplink (T : Target ρ) (w : World ρ) : mapper_uplink_result × World ρ :=
  let (result, w) := gps_uplink T w
  if result = MAPPER_UPLINK_BADFIX then gpslost_uplink T w
  else (result, w)

/-- The ping uplink; it ends in `ESP.restart()`, so the caller does not continue. -/
def ping_uplink (T : Target ρ) (w : World ρ) : World ρ :=
  let b :=
    if w.gps.locationValid && w.gps.timeValid && w.gps.satellitesValid && w.gps.hdopValid &&
        w.gps.altitudeValid && w.gps.speedValid && decide (w.gps.satellites ≥ 4) then
      let lat := w.gps.lat
      let lon := w.gps.lng
      let b := pack_lat_lon T.oor lat lon w.txBuffer
      let altitudeGps := toUnsigned T.oor 16 w.gps.meters
      (b.write 6 ((altitudeGps / 2 ^ 8) % 256)).write 7 (altitudeGps % 256)
    else
      let b := pack_lat_lon T.oor w.last_send_lat w.last_send_lon w.txBuffer
      (b.write 6 0).write 7 0
  (send_uplink T { w with txBuffer := b } 8 FPORT_PING false true).2

/-- The event codes `lora_msg_callback` tells apart; every other code is `other`. -/
inductive Event where
  | EV_JOINED
  | EV_JOINING
  | EV_ACK
  | EV_RXCOMPLETE
  | EV_RESPONSE
  | other (code : Nat)
deriving DecidableEq

/-- LoRa message event callback.  `seen_joined` and `seen_joining` are its
static locals. -/
def lora_msg_callback (T : Target ρ) (message : Event) (w : World ρ) : World ρ :=
  let w := if message = Event.EV_JOINED then { w with seen_joined := true } else w
  let w := if message = Event.EV_JOINING then { w with seen_joining := true } else w
  let w :=
    if !w.isJoined && w.seen_joined && w.seen_joining then
      { w with isJoined := true, radio := T.ttn_set_sf w.radio T.LORAWAN_SF }
    else w
  let w :=
    if message = Event.EV_ACK then { w with ack_rx := w.ack_rx + 1, ack_rec := true } else w
  if message = Event.EV_RXCOMPLETE ∨ message = Event.EV_RESPONSE then
    let d := T.ttn_response w.radio
    if d.data.getD 0 d.beyond = 0x01 then { w with ping_requested := true } else w
  else w

/-- What the collaborators deliver during one call of `loop`: the GPS object
after `gps_loop`, the events `ttn_loop` passes to the callback (each with the
radio state at that moment), the radio state when `ttn_loop` returns, the
results of the I2C presence checks and sensor initialisations, and the sensor
and battery readings. -/
structure TickInput (ρ : Type) where
  gps : Gps
  events : List (ρ × Event)
  radio : ρ
  bmePresent : Bool
  bmeInit : Bool
  ltrPresent : Bool
  ltrInit : Bool
  sensors : Sensors
  battVoltage : ℚ

/-- The call `ttn_loop()`: the radio driver runs and reports its events. -/
def ttn_loop (T : Target ρ) (inp : TickInput ρ) (w : World ρ) : World ρ :=
  let w := inp.events.foldl (fun w e => lora_msg_callback T e.2 { w with radio := e.1 }) w
  { w with radio := inp.radio }

/-- The block of `loop` that notes the time of the most recent fix;
`last_fix_count` is its static local. -/
def note_fix (now : Nat) (w : World ρ) : World ρ :=
  let now_fix_count := w.gps.sentencesWithFix
  if now_fix_count ≠ w.last_fix_count then
    { w with last_fix_count := now_fix_count, last_fix_time := now }
  else w

/-- The block of `loop` that checks whether the sensors have failed or come
back. -/
def check_sensors (inp : TickInput ρ) (w : World ρ) : World ρ :=
  let w :=
    if !inp.bmePresent then { w with bme280_alive := false }
    else if !w.bme280_alive then
      (if inp.bmeInit then { w with bme280_alive := true } else w)
    else w
  if !inp.ltrPresent then { w with ltr390_alive := false }
  else if !w.ltr390_alive then
    (if inp.ltrInit then { w with ltr390_alive := true } else w)
  else w

/-- The first half of `loop`, up to the sensor checks: it returns the value
`now` and the state in which the scheduling decisions are taken. -/
def poll (T : Target ρ) (inp : TickInput ρ) (w : World ρ) : Nat × World ρ :=
  let (now, w) := millis w
  let w := { w with gps := inp.gps, sensors := inp.sensors, battVoltage := inp.battVoltage }
  let w := note_fix now w
  let w := ttn_loop T inp w
  let w := check_sensors inp w
  (now, w)

/-- The second half of `loop`: the acknowledgment watchdog and the three
sending decisions.  The boolean is `true` when `ESP.restart()` was called, which
ends the tick. -/
def schedule (T : Target ρ) (now : Nat) (w : World ρ) : World ρ × Bool :=
  if w.ack_req - w.ack_rx ≥ T.ACK_FAIL_THRESHOLD then (w, true)
  else
    let w :=
      if decide (sub32 now w.last_status_ms > 30 * 1000) && !w.ack_rec && ready T w then
        (status_uplink T w).2
      else w
    if !w.ping && ready T w && decide (sub32 now w.last_send_ms > 10 * 1000) &&
        w.ping_requested then
      let w := { w with ping_requested := false }
      let w := { w with ping := true }
      let w := { w with radio := T.ttn_set_sf w.radio T.LORAWAN_SF_PING }
      (ping_uplink T w, true)
    else if !w.ping && w.ack_rec && ready T w then
      if decide (sub32 now w.last_send_ms > (w.tx_interval_s * 1000) % 2 ^ 32) ||
          (!w.transmitted && ready T w) || (w.uplink_failed && ready T w) then
        let (r, w) := uplink T w
        if r = MAPPER_UPLINK_SUCCESS then
          ({ w with transmitted := true, uplink_failed := false }, false)
        else ({ w with uplink_failed := true }, false)
      else (w, false)
    else (w, false)

/-- One scheduler tick. -/
def loop (T : Target ρ) (inp : TickInput ρ) (w : World ρ) : World ρ × Bool :=
  schedule T (poll T inp w).1 (poll T inp w).2

/-- One step of a run that has not restarted: a tick that returns, or an event
handed to the callback. -/
inductive Step (T : Target ρ) : World ρ → World ρ → Prop where
  | tick (inp : TickInput ρ) (w : World ρ) (h : (loop T inp w).2 = false) :
      Step T w (loop T inp w).1
  | event (r : ρ) (message : Event) (w : World ρ) :
      Step T w (lora_msg_callback T message { w with radio := r })

/-- The states a run reaches from `w` without restarting. -/
def Reachable (T : Target ρ) (w w' : World ρ) : Prop :=
  Relation.ReflTransGen (Step T) w w'

end Program

/-! ## Reading the frames -/

/-- The rejection rule of the fix filter in the words of the specification: a
validity flag is false, or fewer than 4 satellites, or a coordinate is exactly
zero. -/
def fixRejected (g : Gps) : Bool :=
  !(g.locationValid && g.timeValid && g.satellitesValid && g.hdopValid && g.altitudeValid &&
      g.speedValid) || decide (g.satellites < 4) || decide (g.lat = 0) || decide (g.lng = 0)

/-- The value of three bytes read as a big-endian number. -/
def be24 (b0 b1 b2 : Nat) : Nat := b0 * 65536 + b1 * 256 + b2

/-- The value of two bytes read as a big-endian number. -/
def be16 (b0 b1 : Nat) : Nat := b0 * 256 + b1

/-- The inverse affine map of the coordinate packing. -/
def decodeCoord (span offset : ℚ) (e : Nat) : ℚ :=
  (e : ℚ) / 0xFFFFFF * span - offset

/-- The invocations of `ttn_send` made on the way from state `w` to state `w'`. -/
def submitted {ρ : Type} (w w' : World ρ) : List Tx :=
  w'.sent.drop w.sent.length

/-- A radio over the one-bit state "idle": it accepts a frame when idle and
is busy afterwards. -/
def steadyRadio : Target Bool where
  TX_INTERVAL := 60
  LORAWAN_CONFIRMED_EVERY := 4
  ACK_FAIL_THRESHOLD := 5
  LORAWAN_SF := 7
  LORAWAN_SF_PING := 12
  LMIC_queryTxReady := fun idle => idle
  OP_TXRXPEND := fun idle => !idle
  ttn_send := fun idle _ _ _ => (idle, false)
  ttn_get_count := fun _ => 8
  ttn_set_sf := fun idle _ => idle
  ttn_response := fun _ => ⟨0, [], 0⟩
  oor := oorSaturate

/-- A radio that refuses every frame and keeps reporting ready. -/
def refusingRadio : Target Unit where
  TX_INTERVAL := 60
  LORAWAN_CONFIRMED_EVERY := 4
  ACK_FAIL_THRESHOLD := 5
  LORAWAN_SF := 7
  LORAWAN_SF_PING := 12
  LMIC_queryTxReady := fun _ => true
  OP_TXRXPEND := fun _ => false
  ttn_send := fun r _ _ _ => (false, r)
  ttn_get_count := fun _ => 8
  ttn_set_sf := fun r _ => r
  ttn_response := fun _ => ⟨0, [], 0⟩
  oor := oorSaturate

/-- A good fix: 48.5 N, 9.25 E, 1234.5 m, 42.5 km/h, 7 satellites. -/
def sampleGps : Gps where
  locationValid := true
  timeValid := true
  satellitesValid := true
  hdopValid := true
  altitudeValid := true
  speedValid := true
  lat := 97 / 2
  lng := 37 / 4
  meters := 2469 / 2
  kmph := 85 / 2
  satellites := 7
  sentencesWithFix := 12

/-- A fix with all flags valid and 5 satellites whose latitude is exactly
zero: 0.0 N, 12.3 E, 100 m. -/
def zeroLatGps : Gps :=
  { sampleGps with lat := 0, lng := 123 / 10, meters := 100, satellites := 5 }

def sampleSensors : Sensors where
  temperature := 43 / 2
  pressure := 101325
  humidity := 40
  uvs := 3

/-- A joined tracker 40 s after boot that awaits its first acknowledgment,
with last known position 48 N, 9 E. -/
def sampleWorld {ρ : Type} (r : ρ) (g : Gps) : World ρ where
  last_send_ms := 0
  uplink_failed := false
  last_send_lat := 48
  last_send_lon := 9
  last_fix_time := 0
  transmitted := false
  ping := false
  ping_requested := false
  last_status_ms := 0
  status_uplinks := 1
  ack_rec := false
  tx_interval_s := 60
  isJoined := true
  txBuffer := fun _ => 0
  ack_req := 1
  ack_rx := 0
  seen_joined := true
  seen_joining := true
  last_fix_count := 12
  bme280_alive := true
  ltr390_alive := true
  gps := g
  sensors := sampleSensors
  battVoltage := 3700
  radio := r
  clock := fun _ => 40000
  reads := 0
  sent := []

/-- The collaborators' deliveries of a quiet tick: the sample fix, no radio
event, both sensors present. -/
def quietInput {ρ : Type} (r : ρ) : TickInput ρ where
  gps := sampleGps
  events := []
  radio := r
  bmePresent := true
  bmeInit := true
  ltrPresent := true
  ltrInit := true
  sensors := sampleSensors
  battVoltage := 3700

/-- The state after the first decision of `loop`, the status uplink. -/
def after_status {ρ : Type} (T : Target ρ) (now : Nat) (w : World ρ) : World ρ :=
  if decide (sub32 now w.last_status_ms > 30 * 1000) && !w.ack_rec && ready T w then
    (status_uplink T w).2
  else w

/-- The condition of the second decision of `loop`, the ping. -/
def ping_due {ρ : Type} (T : Target ρ) (now : Nat) (w : World ρ) : Bool :=
  !w.ping && ready T w && decide (sub32 now w.last_send_ms > 10 * 1000) && w.ping_requested

/-- The two nested conditions of the third decision of `loop`, the periodic
uplink. -/
def periodic_due {ρ : Type} (T : Target ρ) (now : Nat) (w : World ρ) : Bool :=
  (!w.ping && w.ack_rec && ready T w) &&
    (decide (sub32 now w.last_send_ms > (w.tx_interval_s * 1000) % 2 ^ 32) ||
      (!w.transmitted && ready T w) || (w.uplink_failed && ready T w))

/-- What `loop` notes after `uplink()` has returned. -/
def record_uplink {ρ : Type} (p : mapper_uplink_result × World ρ) : World ρ :=
  if p.1 = MAPPER_UPLINK_SUCCESS then { p.2 with transmitted := true, uplink_failed := false }
  else { p.2 with uplink_failed := true }

/-- The state in which `ping_uplink` is called: the request is taken, the ping
is in flight and the spreading factor for the ping is set. -/
def before_ping {ρ : Type} (T : Target ρ) (w : World ρ) : World ρ :=
  { w with
    ping_requested := false
    ping := true
    radio := T.ttn_set_sf w.radio T.LORAWAN_SF_PING }

/-- The number of frames handed to `ttn_send` with the confirmed flag set. -/
def confirmed_handed {ρ : Type} (w : World ρ) : Nat :=
  w.sent.countP (fun tx => tx.confirmed)

/-- The radio reports `EV_ACK` at most once per confirmed frame handed to it:
read along a list of events, with `handed` the number of confirmed frames
handed to `ttn_send` before them and `acked` the number of `EV_ACK` reports
made before them. -/
def acks_for_frames (handed acked : Nat) : List Event → Bool
  | [] => true
  | e :: es =>
    if e = Event.EV_ACK then decide (acked < handed) && acks_for_frames handed (acked + 1) es
    else acks_for_frames handed acked es

/-- One step of a run with a radio that reports `EV_ACK` at most once per
confirmed frame handed to it.  A point of the run is the program state
together with the number of `EV_ACK` reports the radio has made so far.  A
step is a tick, taken to the state in which it ends (by returning or in
`ESP.restart()`), or an event handed to the callback.  The condition on the
radio speaks of the frames handed to `ttn_send` and of the radio's reports,
not of the program's counters. -/
inductive AckStep {ρ : Type} (T : Target ρ) : World ρ × Nat → World ρ × Nat → Prop where
  | tick (inp : TickInput ρ) (w : World ρ) (acked : Nat)
      (hd : acks_for_frames (confirmed_handed w) acked (inp.events.map Prod.snd) = true) :
      AckStep T (w, acked)
        ((loop T inp w).1, acked + (inp.events.map Prod.snd).count Event.EV_ACK)
  | event (r : ρ) (message : Event) (w : World ρ) (acked : Nat)
      (hd : message = Event.EV_ACK → acked < confirmed_handed w) :
      AckStep T (w, acked)
        (lora_msg_callback T message { w with radio := r },
          acked + (if message = Event.EV_ACK then 1 else 0))

/-- The state `w` with the transmit buffer replaced by `b`. -/
def with_buffer {ρ : Type} (w : World ρ) (b : Buffer) : World ρ :=
  { w with txBuffer := b }

/-- Two states that agree in everything but the content of the transmit
buffer. -/
def SameButBuffer {ρ : Type} (w w' : World ρ) : Prop :=
  with_buffer w w'.txBuffer = w'

/-- The state in which `status_uplink` calls `send_uplink`. -/
def status_ready {ρ : Type} (T : Target ρ) (w : World ρ) : World ρ :=
  { w with
    txBuffer := ((pack_lat_lon T.oor w.last_send_lat w.last_send_lon w.txBuffer).write 6
      (battery_byte T.oor w.battVoltage)).write 7 (w.clock w.reads % 2 ^ 32 / 1000 / 60 % 256)
    status_uplinks := w.status_uplinks + 1
    reads := w.reads + 1 + 1
    last_status_ms := w.clock (w.reads + 1) % 2 ^ 32 }

/-- The state in which `gpslost_uplink` calls `send_uplink`. -/
def gpslost_ready {ρ : Type} (T : Target ρ) (w : World ρ) : World ρ :=
  { w with
    reads := w.reads + 1 + 1
    txBuffer :=
      pack_ltr390 w.ltr390_alive w.sensors.uvs
        (pack_bme280 T.oor w.bme280_alive w.sensors.temperature w.sensors.pressure
          w.sensors.humidity
          ((((((((((pack_lat_lon T.oor w.last_send_lat w.last_send_lon w.txBuffer).write 6 0).write
            7 0).write 8 0).write 9 (battery_byte T.oor w.battVoltage)).write 10
            (w.gps.satellites % 256)).write 11
            ((w.clock w.reads % 2 ^ 32 / 1000 / 60) / 2 ^ 8 % 256)).write 12
            ((w.clock w.reads % 2 ^ 32 / 1000 / 60) % 256)).write 13
            ((sub32 (w.clock (w.reads + 1) % 2 ^ 32) w.last_fix_time / 1000 / 60 % 2 ^ 16) /
              2 ^ 8 % 256)).write 14
            ((sub32 (w.clock (w.reads + 1) % 2 ^ 32) w.last_fix_time / 1000 / 60 % 2 ^ 16) %
              256))) }

/-- The state in which `gps_uplink` calls `send_uplink` for an accepted
sample. -/
def gps_ready {ρ : Type} (T : Target ρ) (w : World ρ) : World ρ :=
  { build_full_packet T (millis w).2 with
    last_send_lat := w.gps.lat, last_send_lon := w.gps.lng }

/-- The state in which `ping_uplink` calls `send_uplink`. -/
def ping_ready {ρ : Type} (T : Target ρ) (w : World ρ) : World ρ :=
  { w with
    txBuffer :=
      if (w.gps.locationValid && w.gps.timeValid && w.gps.satellitesValid && w.gps.hdopValid &&
          w.gps.altitudeValid && w.gps.speedValid && decide (w.gps.satellites ≥ 4)) = true then
        ((pack_lat_lon T.oor w.gps.lat w.gps.lng w.txBuffer).write 6
          (toUnsigned T.oor 16 w.gps.meters / 2 ^ 8 % 256)).write 7
          (toUnsigned T.oor 16 w.gps.meters % 256)
      else ((pack_lat_lon T.oor w.last_send_lat w.last_send_lon w.txBuffer).write 6 0).write 7 0 }

/-- Remainder that tells a division by zero apart: `none` when the divisor is
zero. -/
def checked_mod (a b : Int) : Option Int :=
  if b = 0 then none else some (a % b)

/-- The evaluation of `(LORAWAN_CONFIRMED_EVERY > 0) &&
(ttn_get_count() % LORAWAN_CONFIRMED_EVERY == 0)` with the short-circuit `&&`:
the remainder is evaluated only when the left operand is true, and the result
is `none` when that evaluation divides by zero. -/
def want_ack_eval {ρ : Type} (T : Target ρ) (w : World ρ) : Option Bool :=
  if T.LORAWAN_CONFIRMED_EVERY > 0 then
    (checked_mod (T.ttn_get_count w.radio : Int) T.LORAWAN_CONFIRMED_EVERY).map
      (fun r => decide (r = 0))
  else some false

/-- A radio whose state is the pending downlink; it is always ready and
accepts every frame. -/
def downlinkRadio : Target Downlink where
  TX_INTERVAL := 60
  LORAWAN_CONFIRMED_EVERY := 4
  ACK_FAIL_THRESHOLD := 5
  LORAWAN_SF := 7
  LORAWAN_SF_PING := 12
  LMIC_queryTxReady := fun _ => true
  OP_TXRXPEND := fun _ => false
  ttn_send := fun d _ _ _ => (true, d)
  ttn_get_count := fun _ => 8
  ttn_set_sf := fun d _ => d
  ttn_response := fun d => d
  oor := oorSaturate

/-- A radio whose state is the pending downlink; it keeps reporting ready and
refuses every frame. -/
def refusingDownlinkRadio : Target Downlink where
  TX_INTERVAL := 60
  LORAWAN_CONFIRMED_EVERY := 4
  ACK_FAIL_THRESHOLD := 5
  LORAWAN_SF := 7
  LORAWAN_SF_PING := 12
  LMIC_queryTxReady := fun _ => true
  OP_TXRXPEND := fun _ => false
  ttn_send := fun d _ _ _ => (false, d)
  ttn_get_count := fun _ => 8
  ttn_set_sf := fun d _ => d
  ttn_response := fun d => d
  oor := oorSaturate

/-- The sample fix with the location flag not valid. -/
def noFixGps : Gps :=
  { sampleGps with locationValid := false }

/-- The state at boot: every global of `main.cpp` has the value of its
initialiser, nothing has been received from the GPS and nothing handed to the
radio. -/
def initialWorld {ρ : Type} (T : Target ρ) (r : ρ) : World ρ where
  last_send_ms := 0
  uplink_failed := false
  last_send_lat := 0
  last_send_lon := 0
  last_fix_time := 0
  transmitted := false
  ping := false
  ping_requested := false
  last_status_ms := 0
  status_uplinks := 0
  ack_rec := false
  tx_interval_s := T.TX_INTERVAL
  isJoined := false
  txBuffer := fun _ => 0
  ack_req := 0
  ack_rx := 0
  seen_joined := false
  seen_joining := false
  last_fix_count := 0
  bme280_alive := false
  ltr390_alive := false
  gps := ⟨false, false, false, false, false, false, 0, 0, 0, 0, 0, 0⟩
  sensors := ⟨0, 0, 0, 0⟩
  battVoltage := 3700
  radio := r
  clock := fun _ => 0
  reads := 0
  sent := []

/-- No downlink pending. -/
def noDownlink : Downlink := ⟨0, [], 0⟩

/-- The downlink `[0x01]` on port 3. -/
def pingDownlink : Downlink := ⟨3, [1], 0⟩

/-! ## Conversion lemmas -/

theorem truncQ_of_nonneg {q : ℚ} (h : 0 ≤ q) : truncQ q = ⌊q⌋ := by
  simp [truncQ, h]

/-- A value whose truncation is representable converts to its floor,
whatever the target does with unrepresentable values. -/
theorem toUnsigned_of_floor (oor : Nat → ℚ → Nat) (bits n : Nat) (q : ℚ)
    (hn : n < 2 ^ bits) (h0 : (n : ℚ) ≤ q) (h1 : q < n + 1) : toUnsigned oor bits q = n := by
  have hq : (0 : ℚ) ≤ q := le_trans (Nat.cast_nonneg n) h0
  have hfl : ⌊q⌋ = (n : Int) := by
    rw [Int.floor_eq_iff]
    exact ⟨by exact_mod_cast h0, by exact_mod_cast h1⟩
  have hlt : ((n : Int)) < 2 ^ bits := by exact_mod_cast hn
  simp [toUnsigned, truncQ_of_nonneg hq, hfl, hlt]

theorem toUnsigned_natFloor (oor : Nat → ℚ → Nat) (bits : Nat) (q : ℚ)
    (h0 : 0 ≤ q) (h1 : q < 2 ^ bits) : toUnsigned oor bits q = ⌊q⌋₊ := by
  apply toUnsigned_of_floor
  · have : (⌊q⌋₊ : ℚ) < 2 ^ bits := lt_of_le_of_lt (Nat.floor_le h0) h1
    exact_mod_cast this
  · exact Nat.floor_le h0
  · exact Nat.lt_floor_add_one q

theorem be24_split (e : Nat) (h : e < 2 ^ 24) :
    be24 (e / 2 ^ 16 % 256) (e / 2 ^ 8 % 256) (e % 256) = e := by
  unfold be24; omega

theorem be16_split (e : Nat) : be16 (e / 2 ^ 8 % 256) (e % 256) = e % 65536 := by
  unfold be16; omega

/-! ## Rounding lemmas -/

theorem roundEven_intCast (z : Int) : roundEven (z : ℚ) = z := by
  unfold roundEven
  simp

theorem roundEven_err (q : ℚ) : |(roundEven q : ℚ) - q| ≤ 1 / 2 := by
  have h0 := Int.floor_le q
  have h1 := Int.lt_floor_add_one q
  unfold roundEven
  rw [abs_le]
  split_ifs with a b c
  · constructor <;> linarith
  · push_cast; constructor <;> linarith
  · push_neg at a b; constructor <;> linarith
  · push_neg at a b; push_cast; constructor <;> linarith

theorem roundEven_le {q : ℚ} {z : Int} (h : q ≤ z) : roundEven q ≤ z := by
  rcases eq_or_lt_of_le h with h | h
  · rw [h, roundEven_intCast]
  · have hf : ⌊q⌋ < z := Int.floor_lt.mpr h
    unfold roundEven
    split_ifs <;> omega

theorem le_roundEven {q : ℚ} {z : Int} (h : (z : ℚ) ≤ q) : z ≤ roundEven q := by
  have hf : z ≤ ⌊q⌋ := Int.le_floor.mpr h
  unfold roundEven
  split_ifs <;> omega

theorem ulpExp_le_of_lt (prec : Nat) (emin : Int) (q : ℚ) (E : Int) (hq : q ≠ 0) (hE : emin ≤ E)
    (h : |q| < 2 ^ (E + 1)) : ulpExp prec emin q ≤ E - ((prec : Int) - 1) := by
  unfold ulpExp
  have h1 : Int.log 2 |q| < E + 1 :=
    (Int.lt_zpow_iff_log_lt (by norm_num) (abs_pos.mpr hq)).mp (by simpa using h)
  have h2 : max (Int.log 2 |q|) emin ≤ E := max_le (by omega) hE
  omega

theorem roundBinary_zero (prec : Nat) (emin : Int) : roundBinary prec emin 0 = 0 := by
  unfold roundBinary
  simp [roundEven]

theorem roundBinary_err (prec : Nat) (emin : Int) (q : ℚ) (E : Int) (hE : emin ≤ E)
    (h : |q| < 2 ^ (E + 1)) : |roundBinary prec emin q - q| ≤ 2 ^ (E - prec) := by
  by_cases hq : q = 0
  · subst hq
    rw [roundBinary_zero]
    simp
    positivity
  · have hg := ulpExp_le_of_lt prec emin q E hq hE h
    have hpos : (0 : ℚ) < 2 ^ ulpExp prec emin q := by positivity
    have he : roundBinary prec emin q - q =
        ((roundEven (q / 2 ^ ulpExp prec emin q) : ℚ) - q / 2 ^ ulpExp prec emin q) *
          2 ^ ulpExp prec emin q := by
      unfold roundBinary
      field_simp
    rw [he, abs_mul, abs_of_pos hpos]
    have h2 : (2 : ℚ) ^ ulpExp prec emin q ≤ 2 ^ (E - prec + 1) :=
      zpow_le_zpow_right₀ (by norm_num) (by omega)
    have h3 : (2 : ℚ) ^ (E - prec + 1) = 2 ^ (E - prec) * 2 := by
      rw [zpow_add_one₀ (by norm_num)]
    have h4 := roundEven_err (q / 2 ^ ulpExp prec emin q)
    have h5 : (0 : ℚ) < 2 ^ (E - prec) := by positivity
    calc |(roundEven (q / 2 ^ ulpExp prec emin q) : ℚ) - q / 2 ^ ulpExp prec emin q| *
          2 ^ ulpExp prec emin q
        ≤ 1 / 2 * (2 ^ (E - prec) * 2) := by
          rw [← h3]
          exact mul_le_mul h4 h2 hpos.le (by norm_num)
      _ = 2 ^ (E - prec) := by ring

theorem grid_of_rep (prec : Nat) (emin : Int) (q B : ℚ) (m t : Int) (hB : B = m * 2 ^ t)
    (hm : |m| < 2 ^ prec) (ht : emin - ((prec : Int) - 1) ≤ t) (hq : q ≠ 0) (habs : |q| ≤ |B|) :
    ∃ k : Int, B = k * 2 ^ ulpExp prec emin q := by
  have hlt : |q| < 2 ^ ((prec + t - 1 : Int) + 1) := by
    have h1 : |B| < 2 ^ ((prec : Int) + t) := by
      rw [hB, abs_mul, abs_of_pos (by positivity : (0 : ℚ) < 2 ^ t), zpow_add₀ (by norm_num)]
      apply mul_lt_mul_of_pos_right _ (by positivity)
      have : ((|m| : Int) : ℚ) < ((2 ^ prec : Int) : ℚ) := by exact_mod_cast hm
      simpa using this
    have h2 : ((prec : Int) + t - 1 + 1) = prec + t := by ring
    rw [h2]
    exact lt_of_le_of_lt habs h1
  have hg := ulpExp_le_of_lt prec emin q (prec + t - 1) hq (by omega) hlt
  have hd : 0 ≤ t - ulpExp prec emin q := by omega
  refine ⟨m * 2 ^ (t - ulpExp prec emin q).toNat, ?_⟩
  have h3 : (2 : ℚ) ^ t = 2 ^ (t - ulpExp prec emin q).toNat * 2 ^ ulpExp prec emin q := by
    rw [← zpow_natCast, Int.toNat_of_nonneg hd, ← zpow_add₀ (by norm_num)]
    congr 1
    ring
  rw [hB, h3]
  push_cast
  ring

theorem roundBinary_of_grid (prec : Nat) (emin : Int) (q : ℚ) (k : Int)
    (h : q = k * 2 ^ ulpExp prec emin q) : roundBinary prec emin q = q := by
  have hpos : (0 : ℚ) < 2 ^ ulpExp prec emin q := by positivity
  have : q / 2 ^ ulpExp prec emin q = k := by
    rw [div_eq_iff hpos.ne']
    exact h
  unfold roundBinary
  rw [this, roundEven_intCast]
  exact h.symm

/-- A value with at most `prec` significant bits is its own rounding. -/
theorem roundBinary_of_rep (prec : Nat) (emin : Int) (m t : Int) (hm : |m| < 2 ^ prec)
    (ht : emin - ((prec : Int) - 1) ≤ t) :
    roundBinary prec emin (m * 2 ^ t) = m * 2 ^ t := by
  by_cases hq : (m * 2 ^ t : ℚ) = 0
  · rw [hq, roundBinary_zero]
  · obtain ⟨k, hk⟩ := grid_of_rep prec emin _ _ m t rfl hm ht hq le_rfl
    exact roundBinary_of_grid prec emin _ k hk

theorem roundBinary_nonneg (prec : Nat) (emin : Int) (q : ℚ) (h : 0 ≤ q) :
    0 ≤ roundBinary prec emin q := by
  unfold roundBinary
  apply mul_nonneg _ (by positivity)
  have : ((0 : Int) : ℚ) ≤ q / 2 ^ ulpExp prec emin q := by
    push_cast; positivity
  exact_mod_cast le_roundEven this

theorem roundBinary_nonpos (prec : Nat) (emin : Int) (q : ℚ) (h : q ≤ 0) :
    roundBinary prec emin q ≤ 0 := by
  unfold roundBinary
  apply mul_nonpos_of_nonpos_of_nonneg _ (by positivity)
  have : q / 2 ^ ulpExp prec emin q ≤ ((0 : Int) : ℚ) := by
    push_cast
    exact div_nonpos_of_nonpos_of_nonneg h (by positivity)
  exact_mod_cast roundEven_le this

/-- Rounding does not cross a representable value that is at least as large in
magnitude. -/
theorem roundBinary_le_of_le (prec : Nat) (emin : Int) (q : ℚ) (m t : Int) (hm : |m| < 2 ^ prec)
    (ht : emin - ((prec : Int) - 1) ≤ t) (h0 : (0 : ℚ) ≤ m * 2 ^ t) (h : q ≤ m * 2 ^ t) :
    roundBinary prec emin q ≤ m * 2 ^ t := by
  rcases le_or_lt q 0 with hq | hq
  · exact le_trans (roundBinary_nonpos prec emin q hq) h0
  · obtain ⟨k, hk⟩ := grid_of_rep prec emin q _ m t rfl hm ht hq.ne'
      (by rw [abs_of_pos hq, abs_of_nonneg h0]; exact h)
    have hpos : (0 : ℚ) < 2 ^ ulpExp prec emin q := by positivity
    have h1 : q / 2 ^ ulpExp prec emin q ≤ k := by
      rw [div_le_iff₀ hpos, ← hk]; exact h
    rw [hk]
    unfold roundBinary
    apply mul_le_mul_of_nonneg_right _ hpos.le
    exact_mod_cast roundEven_le h1

/-- A value within half a unit of an integer rounds to it. -/
theorem roundEven_eq_of_near (q : ℚ) (z : Int) (h : |q - z| < 1 / 2) : roundEven q = z := by
  have h1 := roundEven_err q
  have h2 : |((roundEven q - z : Int) : ℚ)| < 1 := by
    push_cast
    rw [abs_lt] at h ⊢
    rw [abs_le] at h1
    constructor <;> linarith
  have h3 : |roundEven q - z| < 1 := by exact_mod_cast h2
  have h4 := Int.abs_lt_one_iff.mp h3
  omega

/-- The rounding of a value whose binade is known. -/
theorem roundBinary_eq (prec : Nat) (emin : Int) (q : ℚ) (e z : Int) (he0 : 2 ^ e ≤ |q|)
    (he1 : |q| < 2 ^ (e + 1)) (hemin : emin ≤ e)
    (hz : |q / 2 ^ (e - ((prec : Int) - 1)) - z| < 1 / 2) :
    roundBinary prec emin q = z * 2 ^ (e - ((prec : Int) - 1)) := by
  have hpos : 0 < |q| := lt_of_lt_of_le (by positivity) he0
  have h1 : e ≤ Int.log 2 |q| :=
    (Int.zpow_le_iff_le_log (by norm_num) hpos).mp (by simpa using he0)
  have h2 : Int.log 2 |q| < e + 1 :=
    (Int.lt_zpow_iff_log_lt (by norm_num) hpos).mp (by simpa using he1)
  have hu : ulpExp prec emin q = e - ((prec : Int) - 1) := by
    unfold ulpExp
    have : Int.log 2 |q| = e := by omega
    rw [this, max_eq_left hemin]
  unfold roundBinary
  rw [hu, roundEven_eq_of_near _ z hz]

theorem roundDouble_err (q : ℚ) (E : Int) (hE : -1022 ≤ E) (h : |q| < 2 ^ (E + 1)) :
    |roundDouble q - q| ≤ 2 ^ (E - 53) :=
  roundBinary_err 53 (-1022) q E hE h

theorem roundDouble_of_rep (q : ℚ) (m t : Int) (hq : q = m * 2 ^ t) (hm : |m| < 2 ^ 53)
    (ht : -1074 ≤ t) : roundDouble q = q := by
  rw [hq]
  exact roundBinary_of_rep 53 (-1022) m t hm (by omega)

theorem roundFloat_of_rep (q : ℚ) (m t : Int) (hq : q = m * 2 ^ t) (hm : |m| < 2 ^ 24)
    (ht : -149 ≤ t) : roundFloat q = q := by
  rw [hq]
  exact roundBinary_of_rep 24 (-126) m t hm (by omega)

/-- For a coordinate inside its span the double expression
`((x + offset) / span) * 16777215` yields a value in `[0, 0xFFFFFF]` that
differs from the exact scaled value by at most `2 ^ (-27)`. -/
theorem scaleCoord_spec (x offset span : ℚ) (m t : Int) (hs : span = m * 2 ^ t)
    (hm : |m| < 2 ^ 53) (ht : -1074 ≤ t) (h180 : 180 ≤ span) (h360 : span ≤ 360)
    (h0 : -offset ≤ x) (h1 : x ≤ span - offset) :
    0 ≤ scaleCoord x offset span ∧ scaleCoord x offset span ≤ 16777215 ∧
    |scaleCoord x offset span - (x + offset) / span * 16777215| ≤ 1 / 2 ^ 27 := by
  unfold scaleCoord
  have hsp : (0 : ℚ) < span := by linarith
  have a0 : 0 ≤ roundDouble (x + offset) := roundBinary_nonneg _ _ _ (by linarith)
  have a1 : roundDouble (x + offset) ≤ span := by
    rw [hs]
    exact roundBinary_le_of_le 53 (-1022) _ m t hm (by omega) (by rw [← hs]; exact hsp.le)
      (by rw [← hs]; linarith)
  have ae : |roundDouble (x + offset) - (x + offset)| ≤ 1 / 2 ^ 45 := by
    have := roundDouble_err (x + offset) 8 (by norm_num)
      (by rw [abs_of_nonneg (by linarith)]; norm_num; linarith)
    norm_num at this ⊢
    exact this
  have b0 : 0 ≤ roundDouble (roundDouble (x + offset) / span) :=
    roundBinary_nonneg _ _ _ (div_nonneg a0 hsp.le)
  have hq1 : roundDouble (x + offset) / span ≤ 1 := by rw [div_le_one hsp]; exact a1
  have b1 : roundDouble (roundDouble (x + offset) / span) ≤ 1 := by
    have := roundBinary_le_of_le 53 (-1022) (roundDouble (x + offset) / span) 1 0 (by norm_num)
      (by norm_num) (by norm_num) (by simpa using hq1)
    simpa using this
  have be : |roundDouble (roundDouble (x + offset) / span) - roundDouble (x + offset) / span| ≤
      1 / 2 ^ 53 := by
    have := roundDouble_err (roundDouble (x + offset) / span) 0 (by norm_num)
      (by rw [abs_of_nonneg (div_nonneg a0 hsp.le)]; norm_num; linarith)
    norm_num at this ⊢
    exact this
  have hq2 : roundDouble (roundDouble (x + offset) / span) * 16777215 ≤ 16777215 := by linarith
  have hq3 : 0 ≤ roundDouble (roundDouble (x + offset) / span) * 16777215 := by positivity
  have c0 := roundBinary_nonneg 53 (-1022) _ hq3
  have c1 : roundDouble (roundDouble (roundDouble (x + offset) / span) * 16777215) ≤ 16777215 := by
    have := roundBinary_le_of_le 53 (-1022)
      (roundDouble (roundDouble (x + offset) / span) * 16777215) 16777215 0 (by norm_num)
      (by norm_num) (by norm_num) (by simpa using hq2)
    simpa using this
  have ce : |roundDouble (roundDouble (roundDouble (x + offset) / span) * 16777215) -
      roundDouble (roundDouble (x + offset) / span) * 16777215| ≤ 1 / 2 ^ 30 := by
    have := roundDouble_err (roundDouble (roundDouble (x + offset) / span) * 16777215) 23
      (by norm_num) (by rw [abs_of_nonneg hq3]; norm_num; linarith)
    norm_num at this ⊢
    exact this
  refine ⟨c0, c1, ?_⟩
  generalize roundDouble (roundDouble (roundDouble (x + offset) / span) * 16777215) = c at *
  generalize roundDouble (roundDouble (x + offset) / span) = b at *
  generalize roundDouble (x + offset) = a at *
  have key : c - (x + offset) / span * 16777215 =
      (c - b * 16777215) + 16777215 * (b - a / span) + 16777215 * ((a - (x + offset)) / span) := by
    field_simp
    ring
  have hd : |(a - (x + offset)) / span| ≤ 1 / 2 ^ 45 / 180 := by
    rw [abs_div, abs_of_pos hsp]
    exact div_le_div₀ (by norm_num) ae (by norm_num) h180
  rw [key]
  rw [abs_le] at ce be hd ⊢
  constructor <;> norm_num at * <;> linarith

/-- The truncation of a non-negative value that is within `d` of `x`. -/
theorem floor_near (c x d : ℚ) (h0 : 0 ≤ c) (he : |c - x| ≤ d) :
    x - 1 - d < (⌊c⌋₊ : ℚ) ∧ (⌊c⌋₊ : ℚ) ≤ x + d := by
  have h1 := Nat.floor_le h0
  have h2 := Nat.lt_floor_add_one c
  rw [abs_le] at he
  constructor <;> linarith

theorem floor_eq_of_near (c x d : ℚ) (n : Nat) (h0 : 0 ≤ c) (he : |c - x| ≤ d)
    (hn0 : (n : ℚ) + d ≤ x) (hn1 : x + d < n + 1) : ⌊c⌋₊ = n := by
  rw [abs_le] at he
  rw [Nat.floor_eq_iff h0]
  constructor <;> linarith

theorem LatitudeBinary_eq (oor : Nat → ℚ → Nat) (lat : ℚ) (h0 : -90 ≤ lat) (h1 : lat ≤ 90) :
    LatitudeBinary oor lat = ⌊scaleCoord lat 90 180⌋₊ ∧ LatitudeBinary oor lat < 2 ^ 24 ∧
      0 ≤ scaleCoord lat 90 180 ∧
      |scaleCoord lat 90 180 - (lat + 90) / 180 * 0xFFFFFF| ≤ 1 / 2 ^ 27 := by
  obtain ⟨ha, hb, he⟩ := scaleCoord_spec lat 90 180 45 2 (by norm_num) (by norm_num)
    (by norm_num) (by norm_num) (by norm_num) h0 (by linarith)
  have h := toUnsigned_natFloor oor 32 _ ha (lt_of_le_of_lt hb (by norm_num))
  have hlt : ⌊scaleCoord lat 90 180⌋₊ < 2 ^ 24 := by
    have : ⌊scaleCoord lat 90 180⌋₊ ≤ 16777215 := by
      apply Nat.floor_le_of_le; exact_mod_cast hb
    omega
  unfold LatitudeBinary
  rw [h]
  exact ⟨rfl, hlt, ha, by norm_num at he ⊢; exact he⟩

theorem LongitudeBinary_eq (oor : Nat → ℚ → Nat) (lon : ℚ) (h0 : -180 ≤ lon) (h1 : lon ≤ 180) :
    LongitudeBinary oor lon = ⌊scaleCoord lon 180 360⌋₊ ∧ LongitudeBinary oor lon < 2 ^ 24 ∧
      0 ≤ scaleCoord lon 180 360 ∧
      |scaleCoord lon 180 360 - (lon + 180) / 360 * 0xFFFFFF| ≤ 1 / 2 ^ 27 := by
  obtain ⟨ha, hb, he⟩ := scaleCoord_spec lon 180 360 45 3 (by norm_num) (by norm_num)
    (by norm_num) (by norm_num) (by norm_num) h0 (by linarith)
  have h := toUnsigned_natFloor oor 32 _ ha (lt_of_le_of_lt hb (by norm_num))
  have hlt : ⌊scaleCoord lon 180 360⌋₊ < 2 ^ 24 := by
    have : ⌊scaleCoord lon 180 360⌋₊ ≤ 16777215 := by
      apply Nat.floor_le_of_le; exact_mod_cast hb
    omega
  unfold LongitudeBinary
  rw [h]
  exact ⟨rfl, hlt, ha, by norm_num at he ⊢; exact he⟩

/-- The packed latitude when the exact scaled value is not within `2 ^ (-27)`
of an integer: its floor. -/
theorem LatitudeBinary_near (oor : Nat → ℚ → Nat) (lat : ℚ) (n : Nat) (h0 : -90 ≤ lat)
    (h1 : lat ≤ 90) (hn0 : (n : ℚ) + 1 / 2 ^ 27 ≤ (lat + 90) / 180 * 0xFFFFFF)
    (hn1 : (lat + 90) / 180 * 0xFFFFFF + 1 / 2 ^ 27 < n + 1) :
    LatitudeBinary oor lat = n ∧ LatitudeBinary oor lat < 2 ^ 24 := by
  obtain ⟨e, hlt, hc, he⟩ := LatitudeBinary_eq oor lat h0 h1
  refine ⟨?_, hlt⟩
  rw [e]
  exact floor_eq_of_near _ _ _ n hc he hn0 hn1

/-- The six coordinate bytes, whatever the rest of the buffer holds. -/
theorem pack_lat_lon_bytes (oor : Nat → ℚ → Nat) (lat lon : ℚ) (b : Buffer) :
    pack_lat_lon oor lat lon b 0 = LatitudeBinary oor lat / 2 ^ 16 % 256 ∧
    pack_lat_lon oor lat lon b 1 = LatitudeBinary oor lat / 2 ^ 8 % 256 ∧
    pack_lat_lon oor lat lon b 2 = LatitudeBinary oor lat % 256 ∧
    pack_lat_lon oor lat lon b 3 = LongitudeBinary oor lon / 2 ^ 16 % 256 ∧
    pack_lat_lon oor lat lon b 4 = LongitudeBinary oor lon / 2 ^ 8 % 256 ∧
    pack_lat_lon oor lat lon b 5 = LongitudeBinary oor lon % 256 := by
  simp [pack_lat_lon, Buffer.write, Function.update_apply]

/-- C1 (amended): for latitude in [-90, 90] and longitude in [-180, 180],
`pack_lat_lon` writes into bytes 0-2 the big-endian 24-bit truncation of the
value that the double expression `((lat + 90) / 180.0) * 16777215` takes, and
into bytes 3-5 that of `((lon + 180) / 360.0) * 16777215`, latitude first.  The
double value differs from the exact `(x + offset) / span * 0xFFFFFF` by at most
`2 ^ (-27)`, and it is truncated, not rounded to nearest: the stored value `e`
satisfies `exact - 1 - 2 ^ (-27) < e ≤ exact + 2 ^ (-27)`. -/
theorem pack_lat_lon_floor (oor : Nat → ℚ → Nat) (lat lon : ℚ) (b : Buffer)
    (hlat : -90 ≤ lat ∧ lat ≤ 90) (hlon : -180 ≤ lon ∧ lon ≤ 180) :
    (pack_lat_lon oor lat lon b 0 < 256 ∧ pack_lat_lon oor lat lon b 1 < 256 ∧
      pack_lat_lon oor lat lon b 2 < 256 ∧
      be24 (pack_lat_lon oor lat lon b 0) (pack_lat_lon oor lat lon b 1)
        (pack_lat_lon oor lat lon b 2) = ⌊scaleCoord lat 90 180⌋₊ ∧
      |scaleCoord lat 90 180 - (lat + 90) / 180 * 0xFFFFFF| ≤ 1 / 2 ^ 27 ∧
      (lat + 90) / 180 * 0xFFFFFF - 1 - 1 / 2 ^ 27 <
        (be24 (pack_lat_lon oor lat lon b 0) (pack_lat_lon oor lat lon b 1)
          (pack_lat_lon oor lat lon b 2) : ℚ) ∧
      (be24 (pack_lat_lon oor lat lon b 0) (pack_lat_lon oor lat lon b 1)
          (pack_lat_lon oor lat lon b 2) : ℚ) ≤ (lat + 90) / 180 * 0xFFFFFF + 1 / 2 ^ 27) ∧
    (pack_lat_lon oor lat lon b 3 < 256 ∧ pack_lat_lon oor lat lon b 4 < 256 ∧
      pack_lat_lon oor lat lon b 5 < 256 ∧
      be24 (pack_lat_lon oor lat lon b 3) (pack_lat_lon oor lat lon b 4)
        (pack_lat_lon oor lat lon b 5) = ⌊scaleCoord lon 180 360⌋₊ ∧
      |scaleCoord lon 180 360 - (lon + 180) / 360 * 0xFFFFFF| ≤ 1 / 2 ^ 27 ∧
      (lon + 180) / 360 * 0xFFFFFF - 1 - 1 / 2 ^ 27 <
        (be24 (pack_lat_lon oor lat lon b 3) (pack_lat_lon oor lat lon b 4)
          (pack_lat_lon oor lat lon b 5) : ℚ) ∧
      (be24 (pack_lat_lon oor lat lon b 3) (pack_lat_lon oor lat lon b 4)
          (pack_lat_lon oor lat lon b 5) : ℚ) ≤ (lon + 180) / 360 * 0xFFFFFF + 1 / 2 ^ 27) := by
  obtain ⟨h0, h1, h2, h3, h4, h5⟩ := pack_lat_lon_bytes oor lat lon b
  obtain ⟨ea, la, ca, da⟩ := LatitudeBinary_eq oor lat hlat.1 hlat.2
  obtain ⟨eo, lo, co, do_⟩ := LongitudeBinary_eq oor lon hlon.1 hlon.2
  obtain ⟨fa1, fa2⟩ := floor_near _ _ _ ca da
  obtain ⟨fo1, fo2⟩ := floor_near _ _ _ co do_
  rw [h0, h1, h2, h3, h4, h5, be24_split _ la, be24_split _ lo, ea, eo]
  refine ⟨⟨?_, ?_, ?_, rfl, da, fa1, fa2⟩, ⟨?_, ?_, ?_, rfl, do_, fo1, fo2⟩⟩ <;>
    exact Nat.mod_lt _ (by norm_num)

/-- Witness of `pack_lat_lon_floor` at latitude 48.5, longitude 9.25. -/
theorem pack_lat_lon_floor_witness :
    ((-90 ≤ (97 / 2 : ℚ) ∧ (97 / 2 : ℚ) ≤ 90) ∧ (-180 ≤ (37 / 4 : ℚ) ∧ (37 / 4 : ℚ) ≤ 180)) ∧
    be24 (pack_lat_lon oorSaturate (97 / 2) (37 / 4) (fun _ => 0) 0)
        (pack_lat_lon oorSaturate (97 / 2) (37 / 4) (fun _ => 0) 1)
        (pack_lat_lon oorSaturate (97 / 2) (37 / 4) (fun _ => 0) 2) =
      ⌊scaleCoord (97 / 2) 90 180⌋₊ ∧
    (be24 (pack_lat_lon oorSaturate (97 / 2) (37 / 4) (fun _ => 0) 0)
        (pack_lat_lon oorSaturate (97 / 2) (37 / 4) (fun _ => 0) 1)
        (pack_lat_lon oorSaturate (97 / 2) (37 / 4) (fun _ => 0) 2) : ℚ) ≤
      ((97 / 2 : ℚ) + 90) / 180 * 0xFFFFFF + 1 / 2 ^ 27 :=
  ⟨⟨by norm_num, by norm_num⟩,
    (pack_lat_lon_floor oorSaturate (97 / 2) (37 / 4) (fun _ => 0) (by norm_num)
      (by norm_num)).1.2.2.2.1,
    (pack_lat_lon_floor oorSaturate (97 / 2) (37 / 4) (fun _ => 0) (by norm_num)
      (by norm_num)).1.2.2.2.2.2.2⟩

/-- C1 (as stated) fails at latitude -45: the scaled value is 4194303.75 (every
double operation is exact there), the bytes 0-2 hold 4194303 and rounding to
nearest gives 4194304. -/
theorem pack_lat_lon_not_round :
    be24 (pack_lat_lon oorSaturate (-45) 12 (fun _ => 0) 0)
        (pack_lat_lon oorSaturate (-45) 12 (fun _ => 0) 1)
        (pack_lat_lon oorSaturate (-45) 12 (fun _ => 0) 2) = 4194303 ∧
      round (((-45 : ℚ) + 90) / 180 * 0xFFFFFF) = 4194304 := by
  constructor
  · obtain ⟨h0, h1, h2, -⟩ := pack_lat_lon_bytes oorSaturate (-45) 12 (fun _ => 0)
    obtain ⟨ea, la⟩ := LatitudeBinary_near oorSaturate (-45) 4194303 (by norm_num) (by norm_num)
      (by norm_num) (by norm_num)
    rw [h0, h1, h2, be24_split _ la, ea]
  · rw [round_eq, Int.floor_eq_iff]
    norm_num

/-- The stored value is the truncation of the double value, which need not be
the floor of the exact scaled value.  At the latitude
`1670534361208727 / 2 ^ 45` (the double nearest to 47.47944220778001) the
exact scaled value lies just below 12814012, the three double operations yield
12814012 exactly, and that is what is stored. -/
theorem pack_lat_lon_double_sample (oor : Nat → ℚ → Nat) :
    LatitudeBinary oor (1670534361208727 / 2 ^ 45) = 12814012 ∧
    ⌊((1670534361208727 / 2 ^ 45 : ℚ) + 90) / 180 * 0xFFFFFF⌋₊ = 12814011 := by
  constructor
  · have ha : roundDouble ((1670534361208727 / 2 ^ 45 : ℚ) + 90) =
        4837127849203607 / 2 ^ 45 := by
      rw [roundDouble_of_rep _ 4837127849203607 (-45) (by norm_num) (by norm_num) (by norm_num)]
      norm_num
    have hb : roundDouble ((4837127849203607 / 2 ^ 45 : ℚ) / 180) =
        859933839858419 / 2 ^ 50 := by
      have := roundBinary_eq 53 (-1022) ((4837127849203607 / 2 ^ 45 : ℚ) / 180) (-1)
        6879470718867352 (by norm_num [abs_of_pos]) (by norm_num [abs_of_pos]) (by norm_num)
        (by norm_num [abs_lt])
      unfold roundDouble
      rw [this]
      norm_num
    have hc : roundDouble ((859933839858419 / 2 ^ 50 : ℚ) * 16777215) = 12814012 := by
      have := roundBinary_eq 53 (-1022) ((859933839858419 / 2 ^ 50 : ℚ) * 16777215) 23
        6879470308818944 (by norm_num [abs_of_pos]) (by norm_num [abs_of_pos]) (by norm_num)
        (by norm_num [abs_lt])
      unfold roundDouble
      rw [this]
      norm_num
    unfold LatitudeBinary scaleCoord
    rw [ha, hb, hc]
    exact toUnsigned_of_floor oor 32 12814012 _ (by norm_num) (by norm_num) (by norm_num)
  · rw [Nat.floor_eq_iff (by norm_num)]
    norm_num

/-- On the grid `k / 2 ^ 24` of the unit interval the truncated scaled value is
`k - 1` (and `0` for `k = 0`). -/
theorem floor_grid (k : Nat) (hk : k ≤ 2 ^ 24) :
    ⌊(k : ℚ) / 2 ^ 24 * 16777215⌋₊ = k - 1 := by
  rcases Nat.eq_zero_or_pos k with h | h
  · subst h; simp
  · obtain ⟨m, rfl⟩ : ∃ m, k = m + 1 := ⟨k - 1, by omega⟩
    have hm : (m : ℚ) + 1 ≤ 2 ^ 24 := by exact_mod_cast hk
    have hm0 : (0 : ℚ) ≤ m := Nat.cast_nonneg m
    rw [Nat.floor_eq_iff (by positivity)]
    simp only [Nat.add_sub_cancel, Nat.cast_add, Nat.cast_one]
    constructor
    · rw [div_mul_eq_mul_div, le_div_iff₀ (by norm_num)]
      nlinarith
    · rw [div_mul_eq_mul_div, div_lt_iff₀ (by norm_num)]
      nlinarith

/-- On the grid points `-offset + k * span / 2 ^ 24` with span `45 * 2 ^ j` the
three double operations are exact. -/
theorem scaleCoord_grid (offset span : ℚ) (j k : Nat) (hj : j ≤ 3) (hs : span = 45 * 2 ^ j)
    (hk : k ≤ 2 ^ 24) :
    scaleCoord (-offset + k * span / 2 ^ 24) offset span = (k : ℚ) / 2 ^ 24 * 16777215 := by
  have hkz : ((k : Int)) ≤ 2 ^ 24 := by exact_mod_cast hk
  have hk0 : (0 : Int) ≤ k := Int.natCast_nonneg k
  have hsp : span ≠ 0 := by rw [hs]; positivity
  have zp : (2 : ℚ) ^ (-24 : Int) = 1 / 2 ^ 24 := by norm_num
  have h1 : roundDouble (-offset + k * span / 2 ^ 24 + offset) = k * span / 2 ^ 24 := by
    have e : -offset + (k : ℚ) * span / 2 ^ 24 + offset = k * span / 2 ^ 24 := by ring
    rw [e]
    apply roundDouble_of_rep _ (45 * 2 ^ j * k) (-24)
    · rw [zp, hs]; push_cast; ring
    · rw [abs_of_nonneg (by positivity)]
      have : (2 : Int) ^ j ≤ 2 ^ 3 := pow_le_pow_right₀ (by norm_num) hj
      nlinarith
    · norm_num
  have h2 : roundDouble ((k : ℚ) * span / 2 ^ 24 / span) = k / 2 ^ 24 := by
    have e : (k : ℚ) * span / 2 ^ 24 / span = k / 2 ^ 24 := by field_simp; ring
    rw [e]
    apply roundDouble_of_rep _ k (-24)
    · rw [zp]; push_cast; ring
    · rw [abs_of_nonneg hk0]
      omega
    · norm_num
  have h3 : roundDouble ((k : ℚ) / 2 ^ 24 * 16777215) = k / 2 ^ 24 * 16777215 := by
    apply roundDouble_of_rep _ (k * 16777215) (-24)
    · rw [zp]; push_cast; ring
    · rw [abs_of_nonneg (by positivity)]
      omega
    · norm_num
  unfold scaleCoord
  rw [h1, h2, h3]

/-- Decoding the truncated value of a grid point is within one step of it. -/
theorem decode_grid (span offset : ℚ) (hs : 0 < span) (k : Nat) (hk : k ≤ 2 ^ 24) :
    |decodeCoord span offset (k - 1 : Nat) - (-offset + k * span / 2 ^ 24)| ≤ span / 2 ^ 24 := by
  unfold decodeCoord
  rcases Nat.eq_zero_or_pos k with h | h
  · subst h
    simp
    positivity
  · obtain ⟨m, rfl⟩ : ∃ m, k = m + 1 := ⟨k - 1, by omega⟩
    have hm : (m : ℚ) + 1 ≤ 2 ^ 24 := by exact_mod_cast hk
    have hm0 : (0 : ℚ) ≤ m := Nat.cast_nonneg m
    simp only [Nat.add_sub_cancel, Nat.cast_add, Nat.cast_one]
    have key : (m : ℚ) / 0xFFFFFF * span - offset - (-offset + (m + 1) * span / 2 ^ 24) =
        -(span * ((2 ^ 24 - (m + 1)) / (2 ^ 24 * 16777215))) := by
      field_simp; ring
    rw [key, abs_neg, abs_of_nonneg]
    · have h1 : ((2 : ℚ) ^ 24 - (m + 1)) / (2 ^ 24 * 16777215) ≤ 1 / 2 ^ 24 := by
        rw [div_le_div_iff₀ (by norm_num) (by norm_num)]
        nlinarith
      calc span * ((2 ^ 24 - ((m : ℚ) + 1)) / (2 ^ 24 * 16777215))
          ≤ span * (1 / 2 ^ 24) := mul_le_mul_of_nonneg_left h1 hs.le
        _ = span / 2 ^ 24 := by ring
    · apply mul_nonneg hs.le
      apply div_nonneg <;> [linarith; norm_num]

/-- C2: for grid points `lat = -90 + k * 180 / 2 ^ 24` and
`lon = -180 + j * 360 / 2 ^ 24` with `k, j ≤ 2 ^ 24`, decoding the 24-bit values
that `pack_lat_lon` stores in bytes 0-2 and 3-5 by the inverse affine map
`e / 0xFFFFFF * span - offset` gives values within one quantization step
`span / 2 ^ 24` of the coordinates. -/
theorem pack_lat_lon_roundtrip (oor : Nat → ℚ → Nat) (b : Buffer) (k j : Nat)
    (hk : k ≤ 2 ^ 24) (hj : j ≤ 2 ^ 24) :
    |decodeCoord 180 90
        (be24 (pack_lat_lon oor (-90 + k * 180 / 2 ^ 24) (-180 + j * 360 / 2 ^ 24) b 0)
          (pack_lat_lon oor (-90 + k * 180 / 2 ^ 24) (-180 + j * 360 / 2 ^ 24) b 1)
          (pack_lat_lon oor (-90 + k * 180 / 2 ^ 24) (-180 + j * 360 / 2 ^ 24) b 2)) -
        (-90 + k * 180 / 2 ^ 24)| ≤ 180 / 2 ^ 24 ∧
    |decodeCoord 360 180
        (be24 (pack_lat_lon oor (-90 + k * 180 / 2 ^ 24) (-180 + j * 360 / 2 ^ 24) b 3)
          (pack_lat_lon oor (-90 + k * 180 / 2 ^ 24) (-180 + j * 360 / 2 ^ 24) b 4)
          (pack_lat_lon oor (-90 + k * 180 / 2 ^ 24) (-180 + j * 360 / 2 ^ 24) b 5)) -
        (-180 + j * 360 / 2 ^ 24)| ≤ 360 / 2 ^ 24 := by
  have hkq : (k : ℚ) ≤ 2 ^ 24 := by exact_mod_cast hk
  have hjq : (j : ℚ) ≤ 2 ^ 24 := by exact_mod_cast hj
  have hk0 : (0 : ℚ) ≤ k := Nat.cast_nonneg k
  have hj0 : (0 : ℚ) ≤ j := Nat.cast_nonneg j
  have hlat : -90 ≤ (-90 + k * 180 / 2 ^ 24 : ℚ) ∧ (-90 + k * 180 / 2 ^ 24 : ℚ) ≤ 90 := by
    constructor
    · have : (0 : ℚ) ≤ k * 180 / 2 ^ 24 := by positivity
      linarith
    · have : (k : ℚ) * 180 / 2 ^ 24 ≤ 180 := by
        rw [div_le_iff₀ (by norm_num)]; nlinarith
      linarith
  have hlon : -180 ≤ (-180 + j * 360 / 2 ^ 24 : ℚ) ∧ (-180 + j * 360 / 2 ^ 24 : ℚ) ≤ 180 := by
    constructor
    · have : (0 : ℚ) ≤ j * 360 / 2 ^ 24 := by positivity
      linarith
    · have : (j : ℚ) * 360 / 2 ^ 24 ≤ 360 := by
        rw [div_le_iff₀ (by norm_num)]; nlinarith
      linarith
  obtain ⟨h0, h1, h2, h3, h4, h5⟩ :=
    pack_lat_lon_bytes oor (-90 + k * 180 / 2 ^ 24) (-180 + j * 360 / 2 ^ 24) b
  obtain ⟨ea, la, -, -⟩ := LatitudeBinary_eq oor _ hlat.1 hlat.2
  obtain ⟨eo, lo, -, -⟩ := LongitudeBinary_eq oor _ hlon.1 hlon.2
  rw [h0, h1, h2, h3, h4, h5, be24_split _ la, be24_split _ lo, ea, eo]
  have e1 : scaleCoord (-90 + (k : ℚ) * 180 / 2 ^ 24) 90 180 = (k : ℚ) / 2 ^ 24 * 16777215 :=
    scaleCoord_grid 90 180 2 k (by norm_num) (by norm_num) hk
  have e2 : scaleCoord (-180 + (j : ℚ) * 360 / 2 ^ 24) 180 360 = (j : ℚ) / 2 ^ 24 * 16777215 :=
    scaleCoord_grid 180 360 3 j (by norm_num) (by norm_num) hj
  rw [e1, e2, floor_grid k hk, floor_grid j hj]
  exact ⟨decode_grid 180 90 (by norm_num) k hk, decode_grid 360 180 (by norm_num) j hj⟩

/-- Witness of `pack_lat_lon_roundtrip` at the grid points `k = 1` and
`j = 2 ^ 24`. -/
theorem pack_lat_lon_roundtrip_witness :
    ((1 : Nat) ≤ 2 ^ 24 ∧ (2 ^ 24 : Nat) ≤ 2 ^ 24) ∧
    |decodeCoord 180 90
        (be24
          (pack_lat_lon oorSaturate (-90 + ((1 : Nat) : ℚ) * 180 / 2 ^ 24)
            (-180 + ((2 ^ 24 : Nat) : ℚ) * 360 / 2 ^ 24) (fun _ => 0) 0)
          (pack_lat_lon oorSaturate (-90 + ((1 : Nat) : ℚ) * 180 / 2 ^ 24)
            (-180 + ((2 ^ 24 : Nat) : ℚ) * 360 / 2 ^ 24) (fun _ => 0) 1)
          (pack_lat_lon oorSaturate (-90 + ((1 : Nat) : ℚ) * 180 / 2 ^ 24)
            (-180 + ((2 ^ 24 : Nat) : ℚ) * 360 / 2 ^ 24) (fun _ => 0) 2)) -
        (-90 + ((1 : Nat) : ℚ) * 180 / 2 ^ 24)| ≤ 180 / 2 ^ 24 :=
  ⟨by norm_num,
    (pack_lat_lon_roundtrip oorSaturate (fun _ => 0) 1 (2 ^ 24) (by norm_num) (by norm_num)).1⟩

/-! ## Battery byte -/

/-- For a non-negative reading whose rounded centivolt value fits 16 bits the
conversion of `mV / 10.0 + .5` is `round (mV / 10)`. -/
theorem batteryVoltage_eq (oor : Nat → ℚ → Nat) (m : ℚ) (h0 : 0 ≤ m)
    (h1 : round (m / 10) < 65536) :
    (toUnsigned oor 16 (m / 10 + 1 / 2) : Int) = round (m / 10) := by
  have hq : (0 : ℚ) ≤ m / 10 + 1 / 2 := by positivity
  have hfl : 0 ≤ ⌊m / 10 + 1 / 2⌋ := Int.floor_nonneg.mpr hq
  rw [round_eq] at h1 ⊢
  have h := toUnsigned_of_floor oor 16 ⌊m / 10 + 1 / 2⌋.toNat (m / 10 + 1 / 2)
    (by omega)
    (by
      have : ((⌊m / 10 + 1 / 2⌋.toNat : Int) : ℚ) ≤ m / 10 + 1 / 2 := by
        rw [Int.toNat_of_nonneg hfl]; exact Int.floor_le _
      exact_mod_cast this)
    (by
      have : m / 10 + 1 / 2 < ((⌊m / 10 + 1 / 2⌋.toNat : Int) : ℚ) + 1 := by
        rw [Int.toNat_of_nonneg hfl]; exact Int.lt_floor_add_one _
      exact_mod_cast this)
  rw [h, Int.toNat_of_nonneg hfl]

theorem battery_byte_eq (oor : Nat → ℚ → Nat) (m : ℚ) (h0 : 0 ≤ m)
    (h1 : round (m / 10) < 65536) :
    (battery_byte oor m : Int) = (round (m / 10) - 200) % 256 := by
  unfold battery_byte
  simp only
  rw [Int.toNat_of_nonneg (Int.emod_nonneg _ (by norm_num)), batteryVoltage_eq oor m h0 h1]

theorem round_range (m : ℚ) (h0 : 2000 ≤ m) (h1 : m ≤ 4550) :
    200 ≤ round (m / 10) ∧ round (m / 10) ≤ 455 := by
  rw [round_eq]
  constructor
  · rw [Int.le_floor]
    push_cast
    linarith
  · have : ⌊m / 10 + 1 / 2⌋ < 456 := by
      rw [Int.floor_lt]
      push_cast
      linarith
    omega

/-- C3: for a non-negative reading of `m` millivolts with
`round (m / 10) < 65536`, `battery_byte` returns `(round (m / 10) - 200) mod 256`
(also outside 2000..4550 mV, where the byte aliases); it is 0 at 2000 mV, 255
at 4550 mV, and non-decreasing in `m` for `2000 ≤ m ≤ 4550`. -/
theorem battery_byte_spec (oor : Nat → ℚ → Nat) :
    (∀ m : ℚ, 0 ≤ m → round (m / 10) < 65536 →
      (battery_byte oor m : Int) = (round (m / 10) - 200) % 256) ∧
    battery_byte oor 2000 = 0 ∧ battery_byte oor 4550 = 255 ∧
    (∀ m m' : ℚ, 2000 ≤ m → m ≤ m' → m' ≤ 4550 →
      battery_byte oor m ≤ battery_byte oor m') := by
  have val : ∀ m : ℚ, 2000 ≤ m → m ≤ 4550 →
      (battery_byte oor m : Int) = round (m / 10) - 200 := by
    intro m h0 h1
    obtain ⟨ha, hb⟩ := round_range m h0 h1
    rw [battery_byte_eq oor m (by linarith) (by omega)]
    omega
  refine ⟨fun m h0 h1 => battery_byte_eq oor m h0 h1, ?_, ?_, ?_⟩
  · have h := val 2000 le_rfl (by norm_num)
    have hr : round ((2000 : ℚ) / 10) = 200 := by
      rw [round_eq, Int.floor_eq_iff]; norm_num
    rw [hr] at h
    omega
  · have h := val 4550 (by norm_num) le_rfl
    have hr : round ((4550 : ℚ) / 10) = 455 := by
      rw [round_eq, Int.floor_eq_iff]; norm_num
    rw [hr] at h
    omega
  · intro m m' h0 hle h1
    have hm := val m h0 (le_trans hle h1)
    have hm' := val m' (le_trans h0 hle) h1
    have hmono : round (m / 10) ≤ round (m' / 10) := by
      rw [round_eq, round_eq]
      apply Int.floor_mono
      linarith
    omega

/-- Witness of `battery_byte_spec`: a reading of 1500 mV, below the offset,
aliases to byte 206, and 3700 mV and 4100 mV are in order. -/
theorem battery_byte_spec_witness :
    ((0 : ℚ) ≤ 1500 ∧ round ((1500 : ℚ) / 10) < 65536 ∧
      (battery_byte oorSaturate 1500 : Int) = (round ((1500 : ℚ) / 10) - 200) % 256) ∧
    ((2000 : ℚ) ≤ 3700 ∧ (3700 : ℚ) ≤ 4100 ∧ (4100 : ℚ) ≤ 4550 ∧
      battery_byte oorSaturate 3700 ≤ battery_byte oorSaturate 4100) :=
  have hr : round ((1500 : ℚ) / 10) < 65536 := by
    have : round ((1500 : ℚ) / 10) = 150 := by
      rw [round_eq, Int.floor_eq_iff]; norm_num
    rw [this]; norm_num
  ⟨⟨by norm_num, hr, (battery_byte_spec oorSaturate).1 1500 (by norm_num) hr⟩,
    by norm_num, by norm_num, by norm_num,
    (battery_byte_spec oorSaturate).2.2.2 3700 4100 (by norm_num) (by norm_num) (by norm_num)⟩

/-! ## Sending -/

section Sending

variable {ρ : Type}

theorem ready_millis (T : Target ρ) (w : World ρ) : ready T (millis w).2 = ready T w := rfl

/-- What `send_uplink` adds to the record of `ttn_send` invocations: nothing
when the radio is not ready, and otherwise one entry, made while `ready()` held. -/
theorem send_uplink_sent (T : Target ρ) (w : World ρ) (length fport : Nat)
    (confirmed ping : Bool) :
    (send_uplink T w length fport confirmed ping).2.sent =
      w.sent ++ (if ready T w then
        [⟨frame w.txBuffer length, fport, confirmed, true,
          (T.ttn_send w.radio (frame w.txBuffer length) fport confirmed).1⟩] else []) := by
  unfold send_uplink
  by_cases hr : ready T w = true
  · have hr' : ready T (millis w).2 = true := hr
    cases confirmed <;> cases ping <;>
      cases hok : (T.ttn_send w.radio (frame w.txBuffer length) fport _).1 <;>
      simp_all [millis, ready]
  · have hr' : ready T (millis w).2 = false := by simpa using hr
    simp_all [millis]

theorem send_uplink_result (T : Target ρ) (w : World ρ) (length fport : Nat)
    (confirmed ping : Bool) :
    (send_uplink T w length fport confirmed ping).1 ≠ MAPPER_UPLINK_BADFIX := by
  unfold send_uplink
  simp only
  split_ifs <;> simp

/-- The fields `send_uplink` leaves alone. -/
theorem send_uplink_frame (T : Target ρ) (w : World ρ) (length fport : Nat)
    (confirmed ping : Bool) :
    (send_uplink T w length fport confirmed ping).2.gps = w.gps ∧
    (send_uplink T w length fport confirmed ping).2.txBuffer = w.txBuffer ∧
    (send_uplink T w length fport confirmed ping).2.last_send_lat = w.last_send_lat ∧
    (send_uplink T w length fport confirmed ping).2.last_send_lon = w.last_send_lon ∧
    (send_uplink T w length fport confirmed ping).2.ack_rec = w.ack_rec ∧
    (send_uplink T w length fport confirmed ping).2.ack_rx = w.ack_rx ∧
    (send_uplink T w length fport confirmed ping).2.isJoined = w.isJoined ∧
    (send_uplink T w length fport confirmed ping).2.ping = w.ping ∧
    (send_uplink T w length fport confirmed ping).2.ping_requested = w.ping_requested := by
  unfold send_uplink
  simp only
  split_ifs <;> simp [millis]

/-- The verdict of the fix filter inside `gps_uplink`. -/
theorem gps_uplink_verdict (T : Target ρ) (w : World ρ) :
    (gps_uplink T w).1 = MAPPER_UPLINK_BADFIX ↔ fixRejected w.gps = true := by
  unfold gps_uplink fixRejected
  simp only [millis]
  split_ifs with h1 h2 h3
  · simp_all
  · simp_all
  · simp only [true_iff]
    rcases h3 with h3 | h3 <;> simp [h3]
  · have hs := send_uplink_result T
      { build_full_packet T { w with reads := w.reads + 1 } with
        last_send_lat := w.gps.lat, last_send_lon := w.gps.lng } 24 FPORT_GPS
      (want_ack T (build_full_packet T { w with reads := w.reads + 1 })) false
    push_neg at h3
    simp_all

theorem build_full_packet_gps (T : Target ρ) (w : World ρ) :
    (build_full_packet T w).gps = w.gps := by
  simp [build_full_packet, millis]

theorem gps_uplink_gps (T : Target ρ) (w : World ρ) : (gps_uplink T w).2.gps = w.gps := by
  unfold gps_uplink
  simp only [millis]
  split_ifs
  · rfl
  · rfl
  · rfl
  · rw [(send_uplink_frame T _ 24 FPORT_GPS _ false).1]
    simp [build_full_packet_gps]

theorem gpslost_uplink_sent (T : Target ρ) (w : World ρ) :
    (gpslost_uplink T w).2.sent =
      w.sent ++ (if ready T w then
        [⟨frame (gpslost_uplink T w).2.txBuffer 24, FPORT_GPSLOST, want_ack T w, true,
          (T.ttn_send w.radio (frame (gpslost_uplink T w).2.txBuffer 24) FPORT_GPSLOST
            (want_ack T w)).1⟩] else []) := by
  unfold gpslost_uplink
  simp only [millis]
  rw [send_uplink_sent, (send_uplink_frame _ _ _ _ _ _).2.1]
  rfl

/-- A rejected sample: `gps_uplink` returns after its call of `millis()`. -/
theorem gps_uplink_reject (T : Target ρ) (w : World ρ) (h : fixRejected w.gps = true) :
    gps_uplink T w = (MAPPER_UPLINK_BADFIX, (millis w).2) := by
  unfold fixRejected at h
  unfold gps_uplink
  simp only [millis]
  split_ifs with h1 h2 h3
  · rfl
  · rfl
  · rfl
  · push_neg at h3
    simp_all

/-- An accepted sample: `gps_uplink` builds the full packet, notes the
position and hands the buffer to `send_uplink`. -/
theorem gps_uplink_accept (T : Target ρ) (w : World ρ) (h : fixRejected w.gps = false) :
    gps_uplink T w =
      send_uplink T
        { build_full_packet T (millis w).2 with
          last_send_lat := w.gps.lat, last_send_lon := w.gps.lng } 24 FPORT_GPS
        (want_ack T (build_full_packet T (millis w).2)) false := by
  unfold fixRejected at h
  unfold gps_uplink
  simp only [millis]
  split_ifs with h1 h2 h3
  · simp_all
  · simp_all
  · rcases h3 with h3 | h3 <;> simp_all
  · rfl

theorem build_full_packet_frame (T : Target ρ) (w : World ρ) :
    (build_full_packet T w).radio = w.radio ∧ (build_full_packet T w).isJoined = w.isJoined ∧
    (build_full_packet T w).sent = w.sent ∧ (build_full_packet T w).gps = w.gps := by
  simp [build_full_packet, millis]

theorem gps_uplink_sent (T : Target ρ) (w : World ρ) :
    (gps_uplink T w).2.sent =
      w.sent ++ (if fixRejected w.gps = false ∧ ready T w = true then
        [⟨frame (gps_uplink T w).2.txBuffer 24, FPORT_GPS, want_ack T w, true,
          (T.ttn_send w.radio (frame (gps_uplink T w).2.txBuffer 24) FPORT_GPS
            (want_ack T w)).1⟩] else []) := by
  by_cases hrej : fixRejected w.gps = true
  · rw [gps_uplink_reject T w hrej]
    simp [hrej, millis]
  · have hrej' : fixRejected w.gps = false := by simpa using hrej
    obtain ⟨hr, hj, hs, -⟩ := build_full_packet_frame T (millis w).2
    rw [gps_uplink_accept T w hrej', send_uplink_sent, (send_uplink_frame _ _ _ _ _ _).2.1]
    simp only [hrej', true_and]
    simp only [millis] at hr hj hs ⊢
    simp only [ready, want_ack, hr, hj, hs]

theorem uplink_reject (T : Target ρ) (w : World ρ) (h : fixRejected w.gps = true) :
    uplink T w = gpslost_uplink T (millis w).2 := by
  unfold uplink
  rw [gps_uplink_reject T w h]
  simp

theorem uplink_accept (T : Target ρ) (w : World ρ) (h : fixRejected w.gps = false) :
    uplink T w = gps_uplink T w := by
  have hv : (gps_uplink T w).1 ≠ MAPPER_UPLINK_BADFIX := by
    intro hb
    rw [(gps_uplink_verdict T w).mp hb] at h
    exact absurd h (by decide)
  unfold uplink
  simp only [hv, if_false]

/-- What `uplink` hands to the radio: at most one frame, on the GPSLOST port
when the sample is rejected and on the GPS port when it is accepted. -/
theorem uplink_sent (T : Target ρ) (w : World ρ) :
    ∃ new : List Tx, (uplink T w).2.sent = w.sent ++ new ∧ new.length ≤ 1 ∧
      (ready T w = true → new.length = 1) ∧
      ∀ tx ∈ new, tx.ready = true ∧ tx.data = frame (uplink T w).2.txBuffer 24 ∧
        tx.confirmed = want_ack T w ∧
        tx.port = if fixRejected w.gps = true then FPORT_GPSLOST else FPORT_GPS := by
  by_cases hrej : fixRejected w.gps = true
  · rw [uplink_reject T w hrej, gpslost_uplink_sent]
    have hw : want_ack T (millis w).2 = want_ack T w := rfl
    refine ⟨_, rfl, ?_, ?_, ?_⟩
    · split_ifs <;> simp
    · intro hr
      rw [ready_millis, if_pos hr]; rfl
    · intro tx htx
      rw [ready_millis] at htx
      split_ifs at htx with hr
      · simp only [List.mem_singleton] at htx
        subst htx
        simp [hrej, hw]
      · simp at htx
  · have hrej' : fixRejected w.gps = false := by simpa using hrej
    rw [uplink_accept T w hrej', gps_uplink_sent]
    refine ⟨_, rfl, ?_, ?_, ?_⟩
    · split_ifs <;> simp
    · intro hr
      rw [if_pos ⟨hrej', hr⟩]; rfl
    · intro tx htx
      split_ifs at htx with hr
      · simp only [List.mem_singleton] at htx
        subst htx
        simp [hrej']
      · simp at htx

/-- The rejection rule, one condition at a time. -/
theorem fixRejected_iff (g : Gps) :
    fixRejected g = true ↔
      (g.locationValid = false ∨ g.timeValid = false ∨ g.satellitesValid = false ∨
        g.hdopValid = false ∨ g.altitudeValid = false ∨ g.speedValid = false) ∨
      g.satellites < 4 ∨ g.lat = 0 ∨ g.lng = 0 := by
  unfold fixRejected
  cases g.locationValid <;> cases g.timeValid <;> cases g.satellitesValid <;>
    cases g.hdopValid <;> cases g.altitudeValid <;> cases g.speedValid <;> simp [or_assoc]

/-- C4: `gps_uplink` returns `MAPPER_UPLINK_BADFIX` if and only if one of the
six validity flags is false, or the satellite count is below 4, or the latitude
or the longitude is exactly zero, and `uplink` then hands the radio a GPSLOST
frame instead of a GPS frame.  The verdict depends on the sample alone, so a
second evaluation of the unmodified sample gives the same verdict.  A sample
with 3 satellites is rejected, and so is one with latitude 0, longitude 12.3,
5 satellites and all flags valid. -/
theorem gps_uplink_badfix_iff (T : Target ρ) (w : World ρ) :
    ((gps_uplink T w).1 = MAPPER_UPLINK_BADFIX ↔
      (w.gps.locationValid = false ∨ w.gps.timeValid = false ∨ w.gps.satellitesValid = false ∨
        w.gps.hdopValid = false ∨ w.gps.altitudeValid = false ∨ w.gps.speedValid = false) ∨
      w.gps.satellites < 4 ∨ w.gps.lat = 0 ∨ w.gps.lng = 0) ∧
    (∃ new : List Tx, (uplink T w).2.sent = w.sent ++ new ∧
      ∀ tx ∈ new, tx.port =
        if (gps_uplink T w).1 = MAPPER_UPLINK_BADFIX then FPORT_GPSLOST else FPORT_GPS) ∧
    (∀ (T' : Target ρ) (w' : World ρ), w'.gps = w.gps →
      ((gps_uplink T' w').1 = MAPPER_UPLINK_BADFIX ↔
        (gps_uplink T w).1 = MAPPER_UPLINK_BADFIX)) ∧
    ((gps_uplink T w).2.gps = w.gps ∧
      ((gps_uplink T (gps_uplink T w).2).1 = MAPPER_UPLINK_BADFIX ↔
        (gps_uplink T w).1 = MAPPER_UPLINK_BADFIX)) ∧
    (w.gps.satellites = 3 → (gps_uplink T w).1 = MAPPER_UPLINK_BADFIX) ∧
    (w.gps.lat = 0 → w.gps.lng = 123 / 10 → w.gps.satellites = 5 →
      (gps_uplink T w).1 = MAPPER_UPLINK_BADFIX) := by
  have hv := gps_uplink_verdict T w
  refine ⟨hv.trans (fixRejected_iff _), ?_, ?_, ⟨gps_uplink_gps T w, ?_⟩, ?_, ?_⟩
  · obtain ⟨new, h1, -, -, h2⟩ := uplink_sent T w
    refine ⟨new, h1, fun tx htx => ?_⟩
    rw [(h2 tx htx).2.2.2]
    by_cases hr : fixRejected w.gps = true
    · rw [if_pos hr, if_pos (hv.mpr hr)]
    · rw [if_neg hr, if_neg (fun h => hr (hv.mp h))]
  · intro T' w' hg
    rw [gps_uplink_verdict T' w', hg, hv]
  · rw [gps_uplink_verdict T (gps_uplink T w).2, gps_uplink_gps, hv]
  · intro h3
    rw [hv, fixRejected_iff]
    right; left; omega
  · intro h0 _ _
    rw [hv, fixRejected_iff]
    right; right; left; exact h0

/-- Witness of `gps_uplink_badfix_iff`: the sample with latitude 0, longitude
12.3, 5 satellites and all flags valid is rejected. -/
theorem gps_uplink_badfix_iff_witness :
    ((sampleWorld true zeroLatGps).gps.lat = 0 ∧
      (sampleWorld true zeroLatGps).gps.lng = 123 / 10 ∧
      (sampleWorld true zeroLatGps).gps.satellites = 5) ∧
    (gps_uplink steadyRadio (sampleWorld true zeroLatGps)).1 = MAPPER_UPLINK_BADFIX :=
  ⟨⟨rfl, rfl, rfl⟩,
    (gps_uplink_badfix_iff steadyRadio (sampleWorld true zeroLatGps)).2.2.2.2.2 rfl rfl rfl⟩

end Sending

/-! ## Frame layouts -/

section Layout

variable {ρ : Type}

/-- `pack_bme280` writes bytes 15-21 only. -/
theorem pack_bme280_other (oor : Nat → ℚ → Nat) (alive : Bool) (t p h : ℚ) (b : Buffer)
    (i : Fin 24) (hi : i.val < 15 ∨ 21 < i.val) : pack_bme280 oor alive t p h b i = b i := by
  have h15 : i ≠ 15 := by rintro rfl; exact absurd hi (by decide)
  have h16 : i ≠ 16 := by rintro rfl; exact absurd hi (by decide)
  have h17 : i ≠ 17 := by rintro rfl; exact absurd hi (by decide)
  have h18 : i ≠ 18 := by rintro rfl; exact absurd hi (by decide)
  have h19 : i ≠ 19 := by rintro rfl; exact absurd hi (by decide)
  have h20 : i ≠ 20 := by rintro rfl; exact absurd hi (by decide)
  have h21 : i ≠ 21 := by rintro rfl; exact absurd hi (by decide)
  unfold pack_bme280
  split_ifs <;> simp [Buffer.write, Function.update_apply, h15, h16, h17, h18, h19, h20, h21]

/-- `pack_ltr390` writes bytes 22-23 only. -/
theorem pack_ltr390_other (alive : Bool) (uvs : Nat) (b : Buffer) (i : Fin 24)
    (hi : i.val < 22) : pack_ltr390 alive uvs b i = b i := by
  have h22 : i ≠ 22 := by rintro rfl; exact absurd hi (by decide)
  have h23 : i ≠ 23 := by rintro rfl; exact absurd hi (by decide)
  unfold pack_ltr390
  split_ifs <;> simp [Buffer.write, Function.update_apply, h22, h23]

/-- `pack_lat_lon` writes bytes 0-5 only. -/
theorem pack_lat_lon_other (oor : Nat → ℚ → Nat) (lat lon : ℚ) (b : Buffer) (i : Fin 24)
    (hi : 5 < i.val) : pack_lat_lon oor lat lon b i = b i := by
  have h0 : i ≠ 0 := by rintro rfl; exact absurd hi (by decide)
  have h1 : i ≠ 1 := by rintro rfl; exact absurd hi (by decide)
  have h2 : i ≠ 2 := by rintro rfl; exact absurd hi (by decide)
  have h3 : i ≠ 3 := by rintro rfl; exact absurd hi (by decide)
  have h4 : i ≠ 4 := by rintro rfl; exact absurd hi (by decide)
  have h5 : i ≠ 5 := by rintro rfl; exact absurd hi (by decide)
  simp [pack_lat_lon, Buffer.write, Function.update_apply, h0, h1, h2, h3, h4, h5]

theorem frame_length (b : Buffer) (n : Nat) (h : n ≤ 24) : (frame b n).length = n := by
  simp [frame, h]

/-- Bytes 6-14 of the buffer `build_full_packet` leaves, in terms of the two
readings of `millis()` it takes. -/
theorem build_full_packet_bytes (T : Target ρ) (w : World ρ) :
    (build_full_packet T w).txBuffer 6 = toUnsigned T.oor 16 w.gps.meters / 2 ^ 8 % 256 ∧
    (build_full_packet T w).txBuffer 7 = toUnsigned T.oor 16 w.gps.meters % 256 ∧
    (build_full_packet T w).txBuffer 8 =
      (if toUnsigned T.oor 16 w.gps.kmph > 255 then 255
        else toUnsigned T.oor 16 w.gps.kmph) % 256 ∧
    (build_full_packet T w).txBuffer 9 = battery_byte T.oor w.battVoltage ∧
    (build_full_packet T w).txBuffer 10 = w.gps.satellites % 2 ^ 8 % 256 ∧
    (build_full_packet T w).txBuffer 11 =
      (w.clock (w.reads + 1) % 2 ^ 32 / 1000 / 60) / 2 ^ 8 % 256 ∧
    (build_full_packet T w).txBuffer 12 = (w.clock (w.reads + 1) % 2 ^ 32 / 1000 / 60) % 256 ∧
    (build_full_packet T w).txBuffer 13 =
      (sub32 (w.clock w.reads % 2 ^ 32) w.last_fix_time / 1000 / 60 % 2 ^ 16) / 2 ^ 8 % 256 ∧
    (build_full_packet T w).txBuffer 14 =
      (sub32 (w.clock w.reads % 2 ^ 32) w.last_fix_time / 1000 / 60 % 2 ^ 16) % 256 := by
  simp only [build_full_packet, millis]
  refine ⟨?_, ?_, ?_, ?_, ?_, ?_, ?_, ?_, ?_⟩ <;>
    rw [pack_ltr390_other _ _ _ _ (by decide), pack_bme280_other _ _ _ _ _ _ _ (by decide)] <;>
    simp [Buffer.write, Function.update_apply]

theorem gps_uplink_buffer (T : Target ρ) (w : World ρ) (h : fixRejected w.gps = false) :
    (gps_uplink T w).2.txBuffer = (build_full_packet T (millis w).2).txBuffer := by
  rw [gps_uplink_accept T w h, (send_uplink_frame _ _ _ _ _ _).2.1]

/-- C5: for an accepted fix with altitude in [0, 65536) m and ground speed in
[0, 65536) km/h, the buffer `gps_uplink` ends with is the one
`build_full_packet` wrote, and in it bytes 6-7 are big-endian `floor(altitude)`,
byte 8 is `min(floor(speed), 255)`, byte 9 is the battery byte, byte 10 is the
satellite count mod 256, bytes 11-12 are big-endian `(millis / 60000) mod 65536`
for the reading of `millis()` taken for the uptime, and bytes 13-14 are
big-endian whole minutes since `last_fix_time` mod 65536 for the reading taken
for it; `gps_uplink` hands these 24 bytes to the radio on port 2 (when the radio
is ready; otherwise nothing is handed over). -/
theorem gps_frame_layout (T : Target ρ) (w : World ρ) (hacc : fixRejected w.gps = false)
    (ha : 0 ≤ w.gps.meters ∧ w.gps.meters < 65536)
    (hs : 0 ≤ w.gps.kmph ∧ w.gps.kmph < 65536) :
    (gps_uplink T w).2.txBuffer = (build_full_packet T (millis w).2).txBuffer ∧
    ((gps_uplink T w).2.txBuffer 6 < 256 ∧ (gps_uplink T w).2.txBuffer 7 < 256 ∧
      be16 ((gps_uplink T w).2.txBuffer 6) ((gps_uplink T w).2.txBuffer 7) = ⌊w.gps.meters⌋₊) ∧
    (gps_uplink T w).2.txBuffer 8 = min ⌊w.gps.kmph⌋₊ 255 ∧
    (gps_uplink T w).2.txBuffer 9 = battery_byte T.oor w.battVoltage ∧
    (gps_uplink T w).2.txBuffer 10 = w.gps.satellites % 256 ∧
    ((gps_uplink T w).2.txBuffer 11 < 256 ∧ (gps_uplink T w).2.txBuffer 12 < 256 ∧
      be16 ((gps_uplink T w).2.txBuffer 11) ((gps_uplink T w).2.txBuffer 12) =
        (w.clock (w.reads + 2) % 2 ^ 32 / 60000) % 65536) ∧
    ((gps_uplink T w).2.txBuffer 13 < 256 ∧ (gps_uplink T w).2.txBuffer 14 < 256 ∧
      be16 ((gps_uplink T w).2.txBuffer 13) ((gps_uplink T w).2.txBuffer 14) =
        (sub32 (w.clock (w.reads + 1) % 2 ^ 32) w.last_fix_time / 60000) % 65536) ∧
    (frame (gps_uplink T w).2.txBuffer 24).length = 24 ∧
    (∃ ok : Bool, (gps_uplink T w).2.sent =
      w.sent ++ (if ready T w then
        [⟨frame (gps_uplink T w).2.txBuffer 24, 2, want_ack T w, true, ok⟩] else [])) := by
  have hm : ⌊w.gps.meters⌋₊ < 65536 := by
    have : (⌊w.gps.meters⌋₊ : ℚ) < 65536 := lt_of_le_of_lt (Nat.floor_le ha.1) ha.2
    exact_mod_cast this
  have hk : ⌊w.gps.kmph⌋₊ < 65536 := by
    have : (⌊w.gps.kmph⌋₊ : ℚ) < 65536 := lt_of_le_of_lt (Nat.floor_le hs.1) hs.2
    exact_mod_cast this
  have ea := toUnsigned_natFloor T.oor 16 w.gps.meters ha.1 (by norm_num; exact ha.2)
  have es := toUnsigned_natFloor T.oor 16 w.gps.kmph hs.1 (by norm_num; exact hs.2)
  obtain ⟨b6, b7, b8, b9, b10, b11, b12, b13, b14⟩ := build_full_packet_bytes T (millis w).2
  have hbuf := gps_uplink_buffer T w hacc
  simp only [millis] at b6 b7 b8 b9 b10 b11 b12 b13 b14 hbuf
  rw [ea] at b6 b7
  rw [es] at b8
  refine ⟨gps_uplink_buffer T w hacc, ?_, ?_, ?_, ?_, ?_, ?_, frame_length _ _ le_rfl, ?_⟩
  · rw [hbuf, b6, b7, be16_split]
    refine ⟨Nat.mod_lt _ (by norm_num), Nat.mod_lt _ (by norm_num), by omega⟩
  · rw [hbuf, b8]
    split_ifs <;> omega
  · rw [hbuf, b9]
  · rw [hbuf, b10]; omega
  · rw [hbuf, b11, b12, be16_split]
    refine ⟨Nat.mod_lt _ (by norm_num), Nat.mod_lt _ (by norm_num), ?_⟩
    rw [Nat.div_div_eq_div_mul]
  · rw [hbuf, b13, b14, be16_split]
    refine ⟨Nat.mod_lt _ (by norm_num), Nat.mod_lt _ (by norm_num), ?_⟩
    rw [Nat.div_div_eq_div_mul]
    norm_num
  · refine ⟨(T.ttn_send w.radio (frame (gps_uplink T w).2.txBuffer 24) FPORT_GPS
      (want_ack T w)).1, ?_⟩
    rw [gps_uplink_sent]
    simp only [hacc, true_and]
    rfl

/-- Witness of `gps_frame_layout`: the sample fix on an idle radio. -/
theorem gps_frame_layout_witness :
    (fixRejected (sampleWorld true sampleGps).gps = false ∧
      (0 ≤ (sampleWorld true sampleGps).gps.meters ∧
        (sampleWorld true sampleGps).gps.meters < 65536) ∧
      (0 ≤ (sampleWorld true sampleGps).gps.kmph ∧
        (sampleWorld true sampleGps).gps.kmph < 65536)) ∧
    (gps_uplink steadyRadio (sampleWorld true sampleGps)).2.txBuffer 8 =
      min ⌊(sampleWorld true sampleGps).gps.kmph⌋₊ 255 :=
  have h1 : fixRejected (sampleWorld true sampleGps).gps = false := by
    simp [fixRejected, sampleWorld, sampleGps]
  have h2 : 0 ≤ (sampleWorld true sampleGps).gps.meters ∧
      (sampleWorld true sampleGps).gps.meters < 65536 := by
    norm_num [sampleWorld, sampleGps]
  have h3 : 0 ≤ (sampleWorld true sampleGps).gps.kmph ∧
      (sampleWorld true sampleGps).gps.kmph < 65536 := by
    norm_num [sampleWorld, sampleGps]
  ⟨⟨h1, h2, h3⟩, (gps_frame_layout steadyRadio (sampleWorld true sampleGps) h1 h2 h3).2.2.1⟩

/-! ### Sensor block -/

/-- The bytes 15-23 as `pack_bme280` followed by `pack_ltr390` leave them. -/
theorem sensor_block_bytes (oor : Nat → ℚ → Nat) (ba la : Bool) (t p h : ℚ) (uvs : Nat)
    (b : Buffer) :
    (ba = false →
      pack_ltr390 la uvs (pack_bme280 oor ba t p h b) 15 = 0 ∧
      pack_ltr390 la uvs (pack_bme280 oor ba t p h b) 16 = 0 ∧
      pack_ltr390 la uvs (pack_bme280 oor ba t p h b) 17 = 0 ∧
      pack_ltr390 la uvs (pack_bme280 oor ba t p h b) 18 = 0 ∧
      pack_ltr390 la uvs (pack_bme280 oor ba t p h b) 19 = 0 ∧
      pack_ltr390 la uvs (pack_bme280 oor ba t p h b) 20 = 0 ∧
      pack_ltr390 la uvs (pack_bme280 oor ba t p h b) 21 = 0) ∧
    (ba = true →
      pack_ltr390 la uvs (pack_bme280 oor ba t p h b) 15 =
        toUnsigned oor 32 (roundFloat (t * 100)) / 2 ^ 8 % 256 ∧
      pack_ltr390 la uvs (pack_bme280 oor ba t p h b) 16 =
        toUnsigned oor 32 (roundFloat (t * 100)) % 256 ∧
      pack_ltr390 la uvs (pack_bme280 oor ba t p h b) 17 = toUnsigned oor 32 p / 2 ^ 16 % 256 ∧
      pack_ltr390 la uvs (pack_bme280 oor ba t p h b) 18 = toUnsigned oor 32 p / 2 ^ 8 % 256 ∧
      pack_ltr390 la uvs (pack_bme280 oor ba t p h b) 19 = toUnsigned oor 32 p % 256 ∧
      pack_ltr390 la uvs (pack_bme280 oor ba t p h b) 20 =
        toUnsigned oor 32 (roundFloat (h * 100)) / 2 ^ 8 % 256 ∧
      pack_ltr390 la uvs (pack_bme280 oor ba t p h b) 21 =
        toUnsigned oor 32 (roundFloat (h * 100)) % 256) ∧
    (la = false →
      pack_ltr390 la uvs (pack_bme280 oor ba t p h b) 22 = 0 ∧
      pack_ltr390 la uvs (pack_bme280 oor ba t p h b) 23 = 0) ∧
    (la = true →
      pack_ltr390 la uvs (pack_bme280 oor ba t p h b) 22 = uvs / 2 ^ 8 % 256 ∧
      pack_ltr390 la uvs (pack_bme280 oor ba t p h b) 23 = uvs % 256) := by
  refine ⟨?_, ?_, ?_, ?_⟩
  · rintro rfl
    refine ⟨?_, ?_, ?_, ?_, ?_, ?_, ?_⟩ <;> rw [pack_ltr390_other _ _ _ _ (by decide)] <;>
      simp [pack_bme280, Buffer.write, Function.update_apply]
  · rintro rfl
    refine ⟨?_, ?_, ?_, ?_, ?_, ?_, ?_⟩ <;> rw [pack_ltr390_other _ _ _ _ (by decide)] <;>
      simp [pack_bme280, Buffer.write, Function.update_apply]
  · rintro rfl
    constructor <;> simp [pack_ltr390, Buffer.write, Function.update_apply]
  · rintro rfl
    constructor <;> simp [pack_ltr390, Buffer.write, Function.update_apply]

theorem roundFloat_neg_hundred : roundFloat ((-1 : ℚ) * 100) = -100 := by
  rw [roundFloat_of_rep _ (-100) 0 (by norm_num) (by norm_num) (by norm_num)]
  norm_num

theorem truncQ_neg_hundred : truncQ (-100 : ℚ) = -100 := by
  unfold truncQ
  rw [if_neg (by norm_num), Int.ceil_eq_iff]
  norm_num

/-- The assumption on the target in `sensor_block_layout` is needed: where the
conversion of a negative value saturates instead, the reading of -1 degree
leaves 0 in bytes 15-16. -/
theorem sensor_block_saturating_target :
    be16 (pack_ltr390 true 3 (pack_bme280 oorSaturate true (-1) 101325 40 (fun _ => 0)) 15)
        (pack_ltr390 true 3 (pack_bme280 oorSaturate true (-1) 101325 40 (fun _ => 0)) 16) =
      0 := by
  obtain ⟨b15, b16, -⟩ :=
    (sensor_block_bytes oorSaturate true true (-1) 101325 40 3 (fun _ => 0)).2.1 rfl
  have hu : toUnsigned oorSaturate 32 (roundFloat ((-1 : ℚ) * 100)) = 0 := by
    unfold toUnsigned
    rw [roundFloat_neg_hundred, truncQ_neg_hundred]
    simp [oorSaturate]
  rw [b15, b16, hu]
  decide

/-- The product is the single-precision one.  The `float` nearest to 0.29 is
`9730785 / 2 ^ 25`; its exact product with 100 is 28.99999917, which rounds to
the `float` 29, so bytes 15-16 hold 29 and not the truncation 28 of the exact
product. -/
theorem sensor_block_float_sample (oor : Nat → ℚ → Nat) :
    be16
      (pack_ltr390 true 3 (pack_bme280 oor true (9730785 / 2 ^ 25) 101325 40 (fun _ => 0)) 15)
      (pack_ltr390 true 3 (pack_bme280 oor true (9730785 / 2 ^ 25) 101325 40 (fun _ => 0)) 16) =
      29 ∧
    truncQ ((9730785 / 2 ^ 25 : ℚ) * 100) = 28 := by
  constructor
  · obtain ⟨b15, b16, -⟩ :=
      (sensor_block_bytes oor true true (9730785 / 2 ^ 25) 101325 40 3 (fun _ => 0)).2.1 rfl
    have hp : roundFloat ((9730785 / 2 ^ 25 : ℚ) * 100) = 29 := by
      have := roundBinary_eq 24 (-126) ((9730785 / 2 ^ 25 : ℚ) * 100) 4 15204352
        (by norm_num [abs_of_pos]) (by norm_num [abs_of_pos]) (by norm_num)
        (by norm_num [abs_lt])
      unfold roundFloat
      rw [this]
      norm_num
    have hu : toUnsigned oor 32 (roundFloat ((9730785 / 2 ^ 25 : ℚ) * 100)) = 29 := by
      rw [hp]
      exact toUnsigned_of_floor oor 32 29 _ (by norm_num) (by norm_num) (by norm_num)
    rw [b15, b16, hu]
    decide
  · rw [truncQ_of_nonneg (by norm_num), Int.floor_eq_iff]
    norm_num

/-! ### GPSLOST frame -/

/-- Bytes 15-23 after `pack_bme280` and `pack_ltr390` do not depend on what
the buffer held before. -/
theorem sensor_block_indep (oor : Nat → ℚ → Nat) (ba la : Bool) (t p h : ℚ) (uvs : Nat)
    (b b' : Buffer) (i : Fin 24) (hi : 15 ≤ i.val) :
    pack_ltr390 la uvs (pack_bme280 oor ba t p h b) i =
      pack_ltr390 la uvs (pack_bme280 oor ba t p h b') i := by
  fin_cases i <;> first
    | exact absurd hi (by decide)
    | (cases ba <;> cases la <;>
        simp [pack_ltr390, pack_bme280, Buffer.write, Function.update_apply])

/-- The buffer `gpslost_uplink` leaves, in terms of its two readings of
`millis()`. -/
theorem gpslost_uplink_buffer (T : Target ρ) (w : World ρ) :
    (gpslost_uplink T w).2.txBuffer =
      pack_ltr390 w.ltr390_alive w.sensors.uvs
        (pack_bme280 T.oor w.bme280_alive w.sensors.temperature w.sensors.pressure
          w.sensors.humidity
          ((((((((((pack_lat_lon T.oor w.last_send_lat w.last_send_lon w.txBuffer).write 6 0).write
            7 0).write 8 0).write 9 (battery_byte T.oor w.battVoltage)).write 10
            (w.gps.satellites % 256)).write 11
            ((w.clock w.reads % 2 ^ 32 / 1000 / 60) / 2 ^ 8 % 256)).write 12
            ((w.clock w.reads % 2 ^ 32 / 1000 / 60) % 256)).write 13
            ((sub32 (w.clock (w.reads + 1) % 2 ^ 32) w.last_fix_time / 1000 / 60 % 2 ^ 16) /
              2 ^ 8 % 256)).write 14
            ((sub32 (w.clock (w.reads + 1) % 2 ^ 32) w.last_fix_time / 1000 / 60 % 2 ^ 16) %
              256))) := by
  unfold gpslost_uplink
  simp only [millis]
  rw [(send_uplink_frame _ _ _ _ _ _).2.1]

/-- The buffer `build_full_packet` leaves is a sensor block over some buffer. -/
theorem build_full_packet_sensor_block (T : Target ρ) (w : World ρ) :
    ∃ b : Buffer, (build_full_packet T w).txBuffer =
      pack_ltr390 w.ltr390_alive w.sensors.uvs
        (pack_bme280 T.oor w.bme280_alive w.sensors.temperature w.sensors.pressure
          w.sensors.humidity b) := by
  simp only [build_full_packet, millis]
  exact ⟨_, rfl⟩

/-- C7: `gpslost_uplink` builds a 24-byte frame for port 6 whose bytes 0-5 are
`pack_lat_lon` of the last known position, whose bytes 6-8 are 0, and whose
bytes 9-23 equal, byte for byte, the bytes 9-23 `build_full_packet` writes in
any state `w'` with the same battery reading, satellite count,
`last_fix_time`, sensor liveness and readings, and the same clock readings for
the uptime and for the fix age (in particular, the same clock value
throughout). -/
theorem gpslost_frame_layout (T : Target ρ) (w w' : World ρ)
    (hbatt : w'.battVoltage = w.battVoltage) (hsat : w'.gps.satellites = w.gps.satellites)
    (hfix : w'.last_fix_time = w.last_fix_time) (hsens : w'.sensors = w.sensors)
    (hbme : w'.bme280_alive = w.bme280_alive) (hltr : w'.ltr390_alive = w.ltr390_alive)
    (hup : w'.clock (w'.reads + 1) % 2 ^ 32 = w.clock w.reads % 2 ^ 32)
    (hlost : w'.clock w'.reads % 2 ^ 32 = w.clock (w.reads + 1) % 2 ^ 32) :
    (∀ i : Fin 24, i.val ≤ 5 →
      (gpslost_uplink T w).2.txBuffer i =
        pack_lat_lon T.oor w.last_send_lat w.last_send_lon w.txBuffer i) ∧
    (gpslost_uplink T w).2.txBuffer 6 = 0 ∧
    (gpslost_uplink T w).2.txBuffer 7 = 0 ∧
    (gpslost_uplink T w).2.txBuffer 8 = 0 ∧
    (∀ i : Fin 24, 9 ≤ i.val →
      (gpslost_uplink T w).2.txBuffer i = (build_full_packet T w').txBuffer i) ∧
    (frame (gpslost_uplink T w).2.txBuffer 24).length = 24 ∧
    (∃ ok : Bool, (gpslost_uplink T w).2.sent =
      w.sent ++ (if ready T w then
        [⟨frame (gpslost_uplink T w).2.txBuffer 24, 6, want_ack T w, true, ok⟩] else [])) := by
  have hB := gpslost_uplink_buffer T w
  refine ⟨?_, ?_, ?_, ?_, ?_, frame_length _ _ le_rfl, ?_⟩
  · intro i hi
    rw [hB, pack_ltr390_other _ _ _ _ (by omega), pack_bme280_other _ _ _ _ _ _ _ (by omega)]
    fin_cases i <;> first
      | exact absurd hi (by decide)
      | simp [Buffer.write, Function.update_apply]
  · rw [hB, pack_ltr390_other _ _ _ _ (by decide), pack_bme280_other _ _ _ _ _ _ _ (by decide)]
    simp [Buffer.write, Function.update_apply]
  · rw [hB, pack_ltr390_other _ _ _ _ (by decide), pack_bme280_other _ _ _ _ _ _ _ (by decide)]
    simp [Buffer.write, Function.update_apply]
  · rw [hB, pack_ltr390_other _ _ _ _ (by decide), pack_bme280_other _ _ _ _ _ _ _ (by decide)]
    simp [Buffer.write, Function.update_apply]
  · intro i hi
    by_cases h15 : 15 ≤ i.val
    · obtain ⟨b', hb'⟩ := build_full_packet_sensor_block T w'
      rw [hB, hb', hsens, hbme, hltr]
      exact sensor_block_indep _ _ _ _ _ _ _ _ _ i h15
    · obtain ⟨-, -, -, b9, b10, b11, b12, b13, b14⟩ := build_full_packet_bytes T w'
      rw [hbatt] at b9
      rw [hsat] at b10
      rw [hup] at b11 b12
      rw [hlost, hfix] at b13 b14
      rw [hB, pack_ltr390_other _ _ _ _ (by omega), pack_bme280_other _ _ _ _ _ _ _ (by omega)]
      have hi' : i = 9 ∨ i = 10 ∨ i = 11 ∨ i = 12 ∨ i = 13 ∨ i = 14 := by
        fin_cases i <;> first
          | exact absurd hi (by decide)
          | exact absurd (show 15 ≤ _ by decide) h15
          | simp
      rcases hi' with rfl | rfl | rfl | rfl | rfl | rfl
      · rw [b9]; simp [Buffer.write, Function.update_apply]
      · rw [b10]; simp [Buffer.write, Function.update_apply]
      · rw [b11]; simp [Buffer.write, Function.update_apply]
      · rw [b12]; simp [Buffer.write, Function.update_apply]
      · rw [b13]; simp [Buffer.write, Function.update_apply]
      · rw [b14]; simp [Buffer.write, Function.update_apply]
  · refine ⟨(T.ttn_send w.radio (frame (gpslost_uplink T w).2.txBuffer 24) FPORT_GPSLOST
      (want_ack T w)).1, ?_⟩
    rw [gpslost_uplink_sent]
    rfl

/-- Witness of `gpslost_frame_layout`: the sample state with the zero-latitude
fix, compared with `build_full_packet` in the same state. -/
theorem gpslost_frame_layout_witness :
    ((sampleWorld true zeroLatGps).battVoltage = (sampleWorld true zeroLatGps).battVoltage ∧
      (sampleWorld true zeroLatGps).clock ((sampleWorld true zeroLatGps).reads + 1) % 2 ^ 32 =
        (sampleWorld true zeroLatGps).clock (sampleWorld true zeroLatGps).reads % 2 ^ 32) ∧
    (gpslost_uplink steadyRadio (sampleWorld true zeroLatGps)).2.txBuffer 8 = 0 ∧
    (∀ i : Fin 24, 9 ≤ i.val →
      (gpslost_uplink steadyRadio (sampleWorld true zeroLatGps)).2.txBuffer i =
        (build_full_packet steadyRadio (sampleWorld true zeroLatGps)).txBuffer i) :=
  ⟨⟨rfl, rfl⟩,
    (gpslost_frame_layout steadyRadio (sampleWorld true zeroLatGps)
      (sampleWorld true zeroLatGps) rfl rfl rfl rfl rfl rfl rfl rfl).2.2.2.1,
    (gpslost_frame_layout steadyRadio (sampleWorld true zeroLatGps)
      (sampleWorld true zeroLatGps) rfl rfl rfl rfl rfl rfl rfl rfl).2.2.2.2.1⟩

/-! ### PING frame -/

/-- The buffer `ping_uplink` leaves: the current sample when the six flags are
valid and at least 4 satellites are in view, the last known position and a zero
altitude otherwise.  The coordinates are not compared with zero. -/
theorem ping_uplink_buffer (T : Target ρ) (w : World ρ) :
    (ping_uplink T w).txBuffer =
      if (w.gps.locationValid && w.gps.timeValid && w.gps.satellitesValid && w.gps.hdopValid &&
          w.gps.altitudeValid && w.gps.speedValid && decide (w.gps.satellites ≥ 4)) = true then
        ((pack_lat_lon T.oor w.gps.lat w.gps.lng w.txBuffer).write 6
          (toUnsigned T.oor 16 w.gps.meters / 2 ^ 8 % 256)).write 7
          (toUnsigned T.oor 16 w.gps.meters % 256)
      else ((pack_lat_lon T.oor w.last_send_lat w.last_send_lon w.txBuffer).write 6 0).write 7 0 := by
  unfold ping_uplink
  rw [(send_uplink_frame _ _ _ _ _ _).2.1]

/-- C8 at the failing input: the fix filter rejects the sample 0.0 N, 12.3 E,
100 m, 5 satellites, all flags valid, and the last known position is 48 N, 9 E
(packed latitude 12862531); the PING frame nevertheless carries the current
sample: bytes 0-2 hold 8388607, the packed latitude 0.0, and bytes 6-7 hold the
altitude 100 instead of 0. -/
theorem ping_uplink_zero_latitude :
    fixRejected (sampleWorld true zeroLatGps).gps = true ∧
    be24 ((ping_uplink steadyRadio (sampleWorld true zeroLatGps)).txBuffer 0)
      ((ping_uplink steadyRadio (sampleWorld true zeroLatGps)).txBuffer 1)
      ((ping_uplink steadyRadio (sampleWorld true zeroLatGps)).txBuffer 2) = 8388607 ∧
    be24
      (pack_lat_lon steadyRadio.oor (sampleWorld true zeroLatGps).last_send_lat
        (sampleWorld true zeroLatGps).last_send_lon (fun _ => 0) 0)
      (pack_lat_lon steadyRadio.oor (sampleWorld true zeroLatGps).last_send_lat
        (sampleWorld true zeroLatGps).last_send_lon (fun _ => 0) 1)
      (pack_lat_lon steadyRadio.oor (sampleWorld true zeroLatGps).last_send_lat
        (sampleWorld true zeroLatGps).last_send_lon (fun _ => 0) 2) = 12862531 ∧
    be16 ((ping_uplink steadyRadio (sampleWorld true zeroLatGps)).txBuffer 6)
      ((ping_uplink steadyRadio (sampleWorld true zeroLatGps)).txBuffer 7) = 100 := by
  have hcond : ((sampleWorld true zeroLatGps).gps.locationValid &&
      (sampleWorld true zeroLatGps).gps.timeValid &&
      (sampleWorld true zeroLatGps).gps.satellitesValid &&
      (sampleWorld true zeroLatGps).gps.hdopValid &&
      (sampleWorld true zeroLatGps).gps.altitudeValid &&
      (sampleWorld true zeroLatGps).gps.speedValid &&
      decide ((sampleWorld true zeroLatGps).gps.satellites ≥ 4)) = true := by
    simp [sampleWorld, zeroLatGps, sampleGps]
  have hbuf := ping_uplink_buffer steadyRadio (sampleWorld true zeroLatGps)
  rw [if_pos hcond] at hbuf
  have halt : toUnsigned steadyRadio.oor 16 (sampleWorld true zeroLatGps).gps.meters = 100 :=
    toUnsigned_of_floor _ 16 100 _ (by norm_num) (by norm_num [sampleWorld, zeroLatGps])
      (by norm_num [sampleWorld, zeroLatGps])
  refine ⟨?_, ?_, ?_, ?_⟩
  · simp [fixRejected, sampleWorld, zeroLatGps, sampleGps]
  · obtain ⟨h0, h1, h2, -⟩ := pack_lat_lon_bytes steadyRadio.oor
      (sampleWorld true zeroLatGps).gps.lat (sampleWorld true zeroLatGps).gps.lng
      (sampleWorld true zeroLatGps).txBuffer
    obtain ⟨ea, la⟩ := LatitudeBinary_near steadyRadio.oor
      (sampleWorld true zeroLatGps).gps.lat 8388607
      (by norm_num [sampleWorld, zeroLatGps]) (by norm_num [sampleWorld, zeroLatGps])
      (by norm_num [sampleWorld, zeroLatGps]) (by norm_num [sampleWorld, zeroLatGps])
    rw [hbuf]
    simp only [Buffer.write, Function.update_apply]
    simp only [Fin.reduceEq, if_false]
    rw [h0, h1, h2, be24_split _ la, ea]
  · obtain ⟨h0, h1, h2, -⟩ := pack_lat_lon_bytes steadyRadio.oor
      (sampleWorld true zeroLatGps).last_send_lat (sampleWorld true zeroLatGps).last_send_lon
      (fun _ => 0)
    obtain ⟨ea, la⟩ := LatitudeBinary_near steadyRadio.oor
      (sampleWorld true zeroLatGps).last_send_lat 12862531
      (by norm_num [sampleWorld]) (by norm_num [sampleWorld])
      (by norm_num [sampleWorld]) (by norm_num [sampleWorld])
    rw [h0, h1, h2, be24_split _ la, ea]
  · rw [hbuf]
    simp only [Buffer.write, Function.update_apply]
    simp only [Fin.reduceEq, if_false, if_true]
    rw [halt]
    decide

end Layout

/-! ## The scheduler tick -/

section Scheduler

variable {ρ : Type}

theorem submitted_append (w w' : World ρ) (new : List Tx) (h : w'.sent = w.sent ++ new) :
    submitted w w' = new := by
  simp [submitted, h]

/-- What `status_uplink` hands to the radio and which fields it keeps. -/
theorem status_uplink_sent (T : Target ρ) (w : World ρ) :
    (status_uplink T w).2.sent =
      w.sent ++ (if ready T w then
        [⟨frame (status_uplink T w).2.txBuffer 8, FPORT_STATUS, true, true,
          (T.ttn_send w.radio (frame (status_uplink T w).2.txBuffer 8) FPORT_STATUS true).1⟩]
        else []) ∧
    (status_uplink T w).2.ack_rec = w.ack_rec ∧
    (status_uplink T w).2.ping = w.ping ∧
    (status_uplink T w).2.ping_requested = w.ping_requested ∧
    (status_uplink T w).2.isJoined = w.isJoined := by
  unfold status_uplink
  simp only [millis]
  obtain ⟨-, hb, -, -, ha, -, hj, hp, hq⟩ := send_uplink_frame T
    { w with
      txBuffer := ((pack_lat_lon T.oor w.last_send_lat w.last_send_lon w.txBuffer).write 6
        (battery_byte T.oor w.battVoltage)).write 7 (w.clock w.reads % 2 ^ 32 / 1000 / 60 % 256)
      status_uplinks := w.status_uplinks + 1
      reads := w.reads + 1 + 1
      last_status_ms := w.clock (w.reads + 1) % 2 ^ 32 } 8 FPORT_STATUS true false
  refine ⟨?_, ha, hp, hq, hj⟩
  rw [send_uplink_sent, hb]
  rfl

/-- What `ping_uplink` hands to the radio. -/
theorem ping_uplink_sent (T : Target ρ) (w : World ρ) :
    (ping_uplink T w).sent =
      w.sent ++ (if ready T w then
        [⟨frame (ping_uplink T w).txBuffer 8, FPORT_PING, false, true,
          (T.ttn_send w.radio (frame (ping_uplink T w).txBuffer 8) FPORT_PING false).1⟩]
        else []) ∧
    (ping_uplink T w).ack_rec = w.ack_rec := by
  unfold ping_uplink
  constructor
  · rw [send_uplink_sent, (send_uplink_frame _ _ _ _ _ _).2.1]
    rfl
  · rw [(send_uplink_frame _ _ _ _ _ _).2.2.2.2.1]

theorem build_full_packet_ack_rec (T : Target ρ) (w : World ρ) :
    (build_full_packet T w).ack_rec = w.ack_rec := by
  simp [build_full_packet, millis]

theorem uplink_ack_rec (T : Target ρ) (w : World ρ) : (uplink T w).2.ack_rec = w.ack_rec := by
  by_cases hrej : fixRejected w.gps = true
  · rw [uplink_reject T w hrej]
    unfold gpslost_uplink
    simp only [millis]
    rw [(send_uplink_frame _ _ _ _ _ _).2.2.2.2.1]
  · have hrej' : fixRejected w.gps = false := by simpa using hrej
    rw [uplink_accept T w hrej', gps_uplink_accept T w hrej',
      (send_uplink_frame _ _ _ _ _ _).2.2.2.2.1]
    exact build_full_packet_ack_rec T _

/-- The callback hands nothing to the radio and never clears `ack_rec`. -/
theorem lora_msg_callback_frame (T : Target ρ) (message : Event) (w : World ρ) :
    (lora_msg_callback T message w).sent = w.sent ∧
    (w.ack_rec = true → (lora_msg_callback T message w).ack_rec = true) := by
  constructor
  · cases message <;>
      simp only [lora_msg_callback, reduceCtorEq, if_true, if_false, or_false, or_true,
        or_self] <;>
      split_ifs <;> rfl
  · intro h
    cases message <;>
      simp only [lora_msg_callback, reduceCtorEq, if_true, if_false, or_false, or_true,
        or_self] <;>
      split_ifs <;> exact h

theorem ttn_loop_frame (T : Target ρ) (inp : TickInput ρ) (w : World ρ) :
    (ttn_loop T inp w).sent = w.sent ∧
    (w.ack_rec = true → (ttn_loop T inp w).ack_rec = true) := by
  unfold ttn_loop
  simp only
  generalize inp.events = es
  induction es generalizing w with
  | nil => exact ⟨rfl, id⟩
  | cons e es ih =>
    simp only [List.foldl_cons]
    obtain ⟨h1, h2⟩ := ih (lora_msg_callback T e.2 { w with radio := e.1 })
    obtain ⟨g1, g2⟩ := lora_msg_callback_frame T e.2 { w with radio := e.1 }
    exact ⟨h1.trans g1, fun h => h2 (g2 h)⟩

theorem note_fix_frame (now : Nat) (w : World ρ) :
    (note_fix now w).sent = w.sent ∧ (note_fix now w).ack_rec = w.ack_rec := by
  unfold note_fix
  simp only
  split_ifs <;> exact ⟨rfl, rfl⟩

theorem check_sensors_frame (inp : TickInput ρ) (w : World ρ) :
    (check_sensors inp w).sent = w.sent ∧ (check_sensors inp w).ack_rec = w.ack_rec := by
  unfold check_sensors
  simp only
  split_ifs <;> exact ⟨rfl, rfl⟩

/-- The first half of a tick hands nothing to the radio and never clears
`ack_rec`. -/
theorem poll_frame (T : Target ρ) (inp : TickInput ρ) (w : World ρ) :
    (poll T inp w).2.sent = w.sent ∧ (w.ack_rec = true → (poll T inp w).2.ack_rec = true) := by
  unfold poll
  simp only [millis]
  constructor
  · rw [(check_sensors_frame _ _).1, (ttn_loop_frame _ _ _).1, (note_fix_frame _ _).1]
  · intro h
    rw [(check_sensors_frame _ _).2]
    apply (ttn_loop_frame _ _ _).2
    rw [(note_fix_frame _ _).2]
    exact h

/-- The frames `ping_uplink` hands to the radio: at most one, on port 1. -/
theorem ping_uplink_new (T : Target ρ) (w : World ρ) :
    ∃ r : List Tx, (ping_uplink T w).sent = w.sent ++ r ∧ (∀ tx ∈ r, tx.ready = true) ∧
      (r = [] ∨ ∃ tx, r = [tx] ∧ tx.port = 1) ∧ (ping_uplink T w).ack_rec = w.ack_rec := by
  obtain ⟨hp, hpa⟩ := ping_uplink_sent T w
  refine ⟨_, hp, ?_, ?_, hpa⟩
  · intro tx h
    split_ifs at h
    · simp only [List.mem_singleton] at h; subst h; rfl
    · simp at h
  · split_ifs
    · exact Or.inr ⟨_, rfl, rfl⟩
    · exact Or.inl rfl

/-- The frames one call of `schedule` hands to the radio: a status part `s`
and a rest `r` (a ping or a periodic uplink), each at most one frame. -/
theorem schedule_sent (T : Target ρ) (now : Nat) (w : World ρ) :
    ∃ s r : List Tx, (schedule T now w).1.sent = w.sent ++ (s ++ r) ∧
      (∀ tx ∈ s ++ r, tx.ready = true) ∧
      (s = [] ∨ ∃ tx, s = [tx] ∧ tx.port = 5 ∧ tx.confirmed = true ∧ tx.data.length = 8) ∧
      (s ≠ [] ↔ (¬ w.ack_req - w.ack_rx ≥ T.ACK_FAIL_THRESHOLD ∧
        sub32 now w.last_status_ms > 30000 ∧ w.ack_rec = false ∧ ready T w = true)) ∧
      (r = [] ∨ ∃ tx, r = [tx] ∧
        (tx.port = 1 ∨ (w.ack_rec = true ∧ (tx.port = 2 ∨ tx.port = 6)))) ∧
      (schedule T now w).1.ack_rec = w.ack_rec := by
  unfold schedule
  by_cases hwd : w.ack_req - w.ack_rx ≥ T.ACK_FAIL_THRESHOLD
  · rw [if_pos hwd]
    exact ⟨[], [], by simp, by simp, Or.inl rfl, by simp [hwd], Or.inl rfl, rfl⟩
  rw [if_neg hwd]
  -- the status decision
  obtain ⟨s, w1, hw1, hs, hsr, hsform, hsiff, hack1⟩ :
      ∃ (s : List Tx) (w1 : World ρ),
        (if (decide (sub32 now w.last_status_ms > 30 * 1000) && !w.ack_rec && ready T w) = true
          then (status_uplink T w).2 else w) = w1 ∧
        w1.sent = w.sent ++ s ∧ (∀ tx ∈ s, tx.ready = true) ∧
        (s = [] ∨ ∃ tx, s = [tx] ∧ tx.port = 5 ∧ tx.confirmed = true ∧ tx.data.length = 8) ∧
        (s ≠ [] ↔ (sub32 now w.last_status_ms > 30000 ∧ w.ack_rec = false ∧
          ready T w = true)) ∧
        w1.ack_rec = w.ack_rec := by
    by_cases hst : (decide (sub32 now w.last_status_ms > 30 * 1000) && !w.ack_rec &&
        ready T w) = true
    · rw [if_pos hst]
      obtain ⟨h1, h2, -⟩ := status_uplink_sent T w
      simp only [Bool.and_eq_true, decide_eq_true_eq, Bool.not_eq_true'] at hst
      rw [if_pos hst.2] at h1
      refine ⟨_, _, rfl, h1, by simp, Or.inr ⟨_, rfl, rfl, rfl, frame_length _ _ (by norm_num)⟩,
        ?_, h2⟩
      simp only [ne_eq, List.cons_ne_self, not_false_eq_true, true_iff, reduceCtorEq]
      exact ⟨by simpa using hst.1.1, hst.1.2, hst.2⟩
    · rw [if_neg hst]
      refine ⟨[], w, rfl, by simp, by simp, Or.inl rfl, ?_, rfl⟩
      simp only [ne_eq, not_true_eq_false, false_iff]
      intro h
      apply hst
      simp only [Bool.and_eq_true, decide_eq_true_eq, Bool.not_eq_true']
      exact ⟨⟨by simpa using h.1, h.2.1⟩, h.2.2⟩
  simp only [hw1]
  have hsiff' : s ≠ [] ↔ (¬ w.ack_req - w.ack_rx ≥ T.ACK_FAIL_THRESHOLD ∧
      sub32 now w.last_status_ms > 30000 ∧ w.ack_rec = false ∧ ready T w = true) := by
    rw [hsiff]; exact ⟨fun h => ⟨hwd, h⟩, fun h => h.2⟩
  -- the ping decision
  by_cases hping : (!w1.ping && ready T w1 && decide (sub32 now w1.last_send_ms > 10 * 1000) &&
      w1.ping_requested) = true
  · rw [if_pos hping]
    obtain ⟨r, hp, hpr, hpform, hpa⟩ := ping_uplink_new T
      { w1 with ping_requested := false, ping := true,
                radio := T.ttn_set_sf w1.radio T.LORAWAN_SF_PING }
    refine ⟨s, r, ?_, ?_, hsform, hsiff', ?_, hpa.trans hack1⟩
    · rw [hp]
      simp only [hs, List.append_assoc]
    · intro tx htx
      rcases List.mem_append.mp htx with h | h
      · exact hsr tx h
      · exact hpr tx h
    · rcases hpform with h | ⟨tx, h1, h2⟩
      · exact Or.inl h
      · exact Or.inr ⟨tx, h1, Or.inl h2⟩
  rw [if_neg hping]
  -- the periodic decision
  by_cases hper : (!w1.ping && w1.ack_rec && ready T w1) = true
  · rw [if_pos hper]
    have hack : w.ack_rec = true := by
      simp only [Bool.and_eq_true] at hper
      rw [← hack1]; exact hper.1.2
    by_cases hdue : (decide (sub32 now w1.last_send_ms > w1.tx_interval_s * 1000 % 2 ^ 32) ||
        (!w1.transmitted && ready T w1) || (w1.uplink_failed && ready T w1)) = true
    · rw [if_pos hdue]
      obtain ⟨new, hn, hlen, -, hform⟩ := uplink_sent T w1
      have hua := uplink_ack_rec T w1
      have hres : ∀ w2 : World ρ, w2.sent = (uplink T w1).2.sent →
          w2.ack_rec = (uplink T w1).2.ack_rec →
          ∃ s r : List Tx, w2.sent = w.sent ++ (s ++ r) ∧
            (∀ tx ∈ s ++ r, tx.ready = true) ∧
            (s = [] ∨ ∃ tx, s = [tx] ∧ tx.port = 5 ∧ tx.confirmed = true ∧
              tx.data.length = 8) ∧
            (s ≠ [] ↔ (¬ w.ack_req - w.ack_rx ≥ T.ACK_FAIL_THRESHOLD ∧
              sub32 now w.last_status_ms > 30000 ∧ w.ack_rec = false ∧ ready T w = true)) ∧
            (r = [] ∨ ∃ tx, r = [tx] ∧
              (tx.port = 1 ∨ (w.ack_rec = true ∧ (tx.port = 2 ∨ tx.port = 6)))) ∧
            w2.ack_rec = w.ack_rec := by
        intro w2 h2s h2a
        refine ⟨s, new, ?_, ?_, hsform, hsiff', ?_, by rw [h2a, hua, hack1]⟩
        · rw [h2s, hn, hs, List.append_assoc]
        · intro tx htx
          rcases List.mem_append.mp htx with h | h
          · exact hsr tx h
          · exact (hform tx h).1
        · match new, hlen, hform with
          | [], _, _ => exact Or.inl rfl
          | [tx], _, hform =>
            refine Or.inr ⟨tx, rfl, Or.inr ⟨hack, ?_⟩⟩
            have := (hform tx (by simp)).2.2.2
            split_ifs at this
            · exact Or.inr this
            · exact Or.inl this
          | _ :: _ :: _, hlen, _ => simp at hlen
      rcases hup : uplink T w1 with ⟨res, w2⟩
      rw [hup] at hres
      simp only
      split_ifs
      · exact hres _ rfl rfl
      · exact hres _ rfl rfl
    · rw [if_neg hdue]
      exact ⟨s, [], by simp [hs], by simpa using hsr, hsform, hsiff', Or.inl rfl, hack1⟩
  · rw [if_neg hper]
    exact ⟨s, [], by simp [hs], by simpa using hsr, hsform, hsiff', Or.inl rfl, hack1⟩

/-- The frames one tick hands to the radio, in terms of the state `poll`
leaves. -/
theorem loop_sent (T : Target ρ) (inp : TickInput ρ) (w : World ρ) :
    ∃ s r : List Tx, submitted w (loop T inp w).1 = s ++ r ∧
      (loop T inp w).1.sent = w.sent ++ (s ++ r) ∧
      (∀ tx ∈ s ++ r, tx.ready = true) ∧
      (s = [] ∨ ∃ tx, s = [tx] ∧ tx.port = 5 ∧ tx.confirmed = true ∧ tx.data.length = 8) ∧
      (s ≠ [] ↔ (¬ (poll T inp w).2.ack_req - (poll T inp w).2.ack_rx ≥ T.ACK_FAIL_THRESHOLD ∧
        sub32 (poll T inp w).1 (poll T inp w).2.last_status_ms > 30000 ∧
        (poll T inp w).2.ack_rec = false ∧ ready T (poll T inp w).2 = true)) ∧
      (r = [] ∨ ∃ tx, r = [tx] ∧
        (tx.port = 1 ∨ ((poll T inp w).2.ack_rec = true ∧ (tx.port = 2 ∨ tx.port = 6)))) ∧
      (loop T inp w).1.ack_rec = (poll T inp w).2.ack_rec := by
  obtain ⟨s, r, h1, h2, h3, h4, h5, h6⟩ := schedule_sent T (poll T inp w).1 (poll T inp w).2
  rw [(poll_frame T inp w).1] at h1
  exact ⟨s, r, submitted_append _ _ _ h1, h1, h2, h3, h4, h5, h6⟩

/-- C9 (amended): in one scheduler tick, from every state and for every
behaviour of the radio, every invocation of `ttn_send` happens while `ready()`
is true, and `ttn_send` is invoked at most once, except in a tick that submits a
STATUS frame and after it, the radio still reporting ready, a PING frame: such
a tick invokes it twice, on ports 5 and 1 in this order. -/
theorem loop_send_count (T : Target ρ) (inp : TickInput ρ) (w : World ρ) :
    (loop T inp w).1.sent = w.sent ++ submitted w (loop T inp w).1 ∧
    (∀ tx ∈ submitted w (loop T inp w).1, tx.ready = true) ∧
    ((submitted w (loop T inp w).1).length ≤ 1 ∨
      (submitted w (loop T inp w).1).map Tx.port = [5, 1]) := by
  obtain ⟨s, r, h0, h1, h2, h3, h4, h5, -⟩ := loop_sent T inp w
  rw [h0]
  refine ⟨h1, h2, ?_⟩
  rcases h3 with hs | ⟨tx, hs, hp, -, -⟩
  · subst hs
    rcases h5 with hr | ⟨tx, hr, -⟩ <;> subst hr <;> left <;> simp
  · rcases h5 with hr | ⟨tx', hr, hp'⟩
    · subst hr; subst hs; left; simp
    · right
      have hne : s ≠ [] := by rw [hs]; simp
      have hack := (h4.mp hne).2.2.1
      rcases hp' with h | ⟨h, -⟩
      · subst hs; subst hr
        simp [hp, h]
      · rw [hack] at h
        exact absurd h (by decide)

/-- C9 (as stated) fails with a radio that refuses every frame and keeps
reporting ready: in a tick 40 s after boot, with no acknowledgment yet, a
STATUS frame due and a ping requested, `ttn_send` is invoked twice, first on
port 5 and then on port 1. -/
theorem loop_sends_twice :
    (submitted { sampleWorld () sampleGps with ping_requested := true }
        (loop refusingRadio (quietInput ())
          { sampleWorld () sampleGps with ping_requested := true }).1).map Tx.port = [5, 1] ∧
    (submitted { sampleWorld () sampleGps with ping_requested := true }
        (loop refusingRadio (quietInput ())
          { sampleWorld () sampleGps with ping_requested := true }).1).length = 2 := by
  constructor <;> rfl

/-- A STATUS frame is among the frames of a tick exactly when the status part
of `loop_sent` is not empty. -/
theorem status_submitted_iff (T : Target ρ) (inp : TickInput ρ) (w : World ρ) :
    (∃ tx ∈ submitted w (loop T inp w).1, tx.port = 5) ↔
      (¬ (poll T inp w).2.ack_req - (poll T inp w).2.ack_rx ≥ T.ACK_FAIL_THRESHOLD ∧
        sub32 (poll T inp w).1 (poll T inp w).2.last_status_ms > 30000 ∧
        (poll T inp w).2.ack_rec = false ∧ ready T (poll T inp w).2 = true) := by
  obtain ⟨s, r, h0, -, -, h3, h4, h5, -⟩ := loop_sent T inp w
  rw [h0, ← h4]
  constructor
  · rintro ⟨tx, htx, hp⟩
    rcases List.mem_append.mp htx with h | h
    · intro hs; rw [hs] at h; simp at h
    · intro hs
      rcases h5 with hr | ⟨tx', hr, hp'⟩
      · rw [hr] at h; simp at h
      · rw [hr] at h
        simp only [List.mem_singleton] at h
        subst h
        rcases hp' with h1 | ⟨hack, h2 | h2⟩
        · rw [h1] at hp; exact absurd hp (by decide)
        · rw [h2] at hp; exact absurd hp (by decide)
        · rw [h2] at hp; exact absurd hp (by decide)
  · intro hs
    rcases h3 with h | ⟨tx, h, hp, -, -⟩
    · exact absurd h hs
    · exact ⟨tx, by rw [h]; simp, hp⟩

/-- Every port-5 frame of a tick is 8 bytes long and asks for an
acknowledgment. -/
theorem status_frame_shape (T : Target ρ) (inp : TickInput ρ) (w : World ρ) (tx : Tx)
    (htx : tx ∈ submitted w (loop T inp w).1) (hp : tx.port = 5) :
    tx.data.length = 8 ∧ tx.confirmed = true := by
  obtain ⟨s, r, h0, -, -, h3, -, h5, -⟩ := loop_sent T inp w
  rw [h0] at htx
  rcases List.mem_append.mp htx with h | h
  · rcases h3 with hs | ⟨tx', hs, -, hc, hl⟩
    · rw [hs] at h; simp at h
    · rw [hs] at h
      simp only [List.mem_singleton] at h
      subst h
      exact ⟨hl, hc⟩
  · rcases h5 with hr | ⟨tx', hr, hp'⟩
    · rw [hr] at h; simp at h
    · rw [hr] at h
      simp only [List.mem_singleton] at h
      subst h
      rcases hp' with h1 | ⟨-, h2 | h2⟩
      · rw [h1] at hp; exact absurd hp (by decide)
      · rw [h2] at hp; exact absurd hp (by decide)
      · rw [h2] at hp; exact absurd hp (by decide)

/-- Once an acknowledgment has been received, `ack_rec` stays true along every
run. -/
theorem ack_rec_stable (T : Target ρ) (w w' : World ρ) (h : w.ack_rec = true)
    (hr : Reachable T w w') : w'.ack_rec = true := by
  induction hr with
  | refl => exact h
  | @tail b c _ hstep ih =>
    cases hstep with
    | tick inp _ _ =>
      obtain ⟨s, r, -, -, -, -, -, -, hack⟩ := loop_sent T inp b
      rw [hack]
      exact (poll_frame T inp b).2 ih
    | event r message _ =>
      exact (lora_msg_callback_frame T message _).2 ih

/-- C10: in a tick that the acknowledgment watchdog does not cut short, a
STATUS frame (8 bytes, port 5, acknowledgment requested) is handed to the radio
if and only if no acknowledgment has been received, more than 30 000 ms have
elapsed since `last_status_ms` (32-bit difference of `now` and
`last_status_ms`), and the radio is ready, all taken in the state in which the
tick decides.  With `last_status_ms = 0` a tick at 29 000 ms sends no STATUS and,
with no acknowledgment and the radio ready, a tick at 31 000 ms sends one.  In
every state a run reaches after an acknowledgment has been received, no tick
sends a STATUS frame. -/
theorem status_uplink_schedule (T : Target ρ) :
    (∀ (inp : TickInput ρ) (w : World ρ),
      ¬ (poll T inp w).2.ack_req - (poll T inp w).2.ack_rx ≥ T.ACK_FAIL_THRESHOLD →
      ((∃ tx ∈ submitted w (loop T inp w).1, tx.port = 5) ↔
        ((poll T inp w).2.ack_rec = false ∧
          sub32 (poll T inp w).1 (poll T inp w).2.last_status_ms > 30000 ∧
          ready T (poll T inp w).2 = true))) ∧
    (∀ (inp : TickInput ρ) (w : World ρ), ∀ tx ∈ submitted w (loop T inp w).1,
      tx.port = 5 → tx.data.length = 8 ∧ tx.confirmed = true) ∧
    (∀ (inp : TickInput ρ) (w : World ρ),
      (poll T inp w).2.last_status_ms = 0 → (poll T inp w).1 = 29000 →
      ¬ ∃ tx ∈ submitted w (loop T inp w).1, tx.port = 5) ∧
    (∀ (inp : TickInput ρ) (w : World ρ),
      ¬ (poll T inp w).2.ack_req - (poll T inp w).2.ack_rx ≥ T.ACK_FAIL_THRESHOLD →
      (poll T inp w).2.ack_rec = false → ready T (poll T inp w).2 = true →
      (poll T inp w).2.last_status_ms = 0 → (poll T inp w).1 = 31000 →
      ∃ tx ∈ submitted w (loop T inp w).1, tx.port = 5) ∧
    (∀ w w' : World ρ, w.ack_rec = true → Reachable T w w' →
      ∀ (inp : TickInput ρ), ∀ tx ∈ submitted w' (loop T inp w').1, tx.port ≠ 5) := by
  refine ⟨?_, ?_, ?_, ?_, ?_⟩
  · intro inp w hwd
    rw [status_submitted_iff]
    constructor
    · rintro ⟨-, h1, h2, h3⟩; exact ⟨h2, h1, h3⟩
    · rintro ⟨h2, h1, h3⟩; exact ⟨hwd, h1, h2, h3⟩
  · intro inp w tx htx hp
    exact status_frame_shape T inp w tx htx hp
  · intro inp w hl hn
    rw [status_submitted_iff, hl, hn]
    rintro ⟨-, h, -⟩
    exact absurd h (by decide)
  · intro inp w hwd hack hr hl hn
    rw [status_submitted_iff, hl, hn]
    exact ⟨hwd, by decide, hack, hr⟩
  · intro w w' hack hreach inp tx htx hp
    have hack' := (poll_frame T inp w').2 (ack_rec_stable T w w' hack hreach)
    have := (status_submitted_iff T inp w').mp ⟨tx, htx, hp⟩
    rw [hack'] at this
    exact absurd this.2.2.1 (by decide)

/-- Witness of `status_uplink_schedule`: 31 s after the last status uplink, with
no acknowledgment and an idle radio, the tick sends a STATUS frame. -/
theorem status_uplink_schedule_witness :
    (¬ (poll steadyRadio (quietInput true) { sampleWorld true sampleGps with clock := fun _ => 31000 }).2.ack_req -
        (poll steadyRadio (quietInput true) { sampleWorld true sampleGps with clock := fun _ => 31000 }).2.ack_rx ≥ steadyRadio.ACK_FAIL_THRESHOLD ∧
      (poll steadyRadio (quietInput true) { sampleWorld true sampleGps with clock := fun _ => 31000 }).2.ack_rec = false ∧
      ready steadyRadio (poll steadyRadio (quietInput true) { sampleWorld true sampleGps with clock := fun _ => 31000 }).2 = true ∧
      (poll steadyRadio (quietInput true) { sampleWorld true sampleGps with clock := fun _ => 31000 }).2.last_status_ms = 0 ∧
      (poll steadyRadio (quietInput true) { sampleWorld true sampleGps with clock := fun _ => 31000 }).1 = 31000) ∧
    ∃ tx ∈ submitted { sampleWorld true sampleGps with clock := fun _ => 31000 }
        (loop steadyRadio (quietInput true) { sampleWorld true sampleGps with clock := fun _ => 31000 }).1, tx.port = 5 :=
  ⟨⟨by decide, rfl, rfl, rfl, rfl⟩,
    (status_uplink_schedule steadyRadio).2.2.2.1 (quietInput true) { sampleWorld true sampleGps with clock := fun _ => 31000 }
      (by decide) rfl rfl rfl rfl⟩

end Scheduler

/-! ## Bookkeeping of `send_uplink` -/

section Bookkeeping

variable {ρ : Type}

/-- The state `send_uplink` leaves, field by field. -/
theorem send_uplink_eq (T : Target ρ) (w : World ρ) (length fport : Nat)
    (confirmed ping : Bool) :
    send_uplink T w length fport confirmed ping =
      if ready T w = true then
        ((if (T.ttn_send w.radio (frame w.txBuffer length) fport confirmed).1 = true then
            MAPPER_UPLINK_SUCCESS else MAPPER_UPLINK_NOLORA),
          { w with
            reads := w.reads + 1
            ack_req := if confirmed = true then w.ack_req + 1 else w.ack_req
            radio := (T.ttn_send w.radio (frame w.txBuffer length) fport confirmed).2
            sent := w.sent ++ [⟨frame w.txBuffer length, fport, confirmed, true,
              (T.ttn_send w.radio (frame w.txBuffer length) fport confirmed).1⟩]
            last_send_ms :=
              if (T.ttn_send w.radio (frame w.txBuffer length) fport confirmed).1 = true ∧
                  ping = false then w.clock w.reads % 2 ^ 32 else w.last_send_ms })
      else (MAPPER_UPLINK_NOLORA, { w with reads := w.reads + 1 }) := by
  unfold send_uplink
  by_cases hr : ready T w = true
  · have hr' : ready T (millis w).2 = true := hr
    cases confirmed <;> cases ping <;>
      cases hok : (T.ttn_send w.radio (frame w.txBuffer length) fport _).1 <;>
      simp_all [millis, ready]
  · have hr' : ready T (millis w).2 = false := by simpa using hr
    simp_all [millis]

/-- How `send_uplink` moves `ack_req`: the counter is raised before `ttn_send`
is called, so it grows whenever the radio is ready and an acknowledgment is
asked for, whatever the radio answers. -/
theorem send_uplink_ack_req (T : Target ρ) (w : World ρ) (length fport : Nat)
    (confirmed ping : Bool) :
    (send_uplink T w length fport confirmed ping).2.ack_req =
      w.ack_req + (if ready T w = true ∧ confirmed = true then 1 else 0) := by
  rw [send_uplink_eq]
  by_cases hr : ready T w = true <;> cases confirmed <;> simp [hr]

/-- The result of `send_uplink` is success exactly when the radio was ready
and accepted the frame. -/
theorem send_uplink_success_iff (T : Target ρ) (w : World ρ) (length fport : Nat)
    (confirmed ping : Bool) :
    (send_uplink T w length fport confirmed ping).1 = MAPPER_UPLINK_SUCCESS ↔
      ready T w = true ∧
        (T.ttn_send w.radio (frame w.txBuffer length) fport confirmed).1 = true := by
  rw [send_uplink_eq]
  by_cases hr : ready T w = true
  · by_cases hok : (T.ttn_send w.radio (frame w.txBuffer length) fport confirmed).1 = true <;>
      simp [hr, hok]
  · simp [hr]

/-- C19 at the failing input: a confirmed frame handed to a ready radio that
refuses it.  The result is `MAPPER_UPLINK_NOLORA`, the frame is not sent, and
`ack_req` has nevertheless gone from 1 to 2. -/
theorem send_uplink_refused_counts :
    (sampleWorld () sampleGps).ack_req = 1 ∧
    ready refusingRadio (sampleWorld () sampleGps) = true ∧
    (send_uplink refusingRadio (sampleWorld () sampleGps) 8 FPORT_STATUS true false).1 =
      MAPPER_UPLINK_NOLORA ∧
    (send_uplink refusingRadio (sampleWorld () sampleGps) 8 FPORT_STATUS true false).2.ack_req =
      2 := by
  refine ⟨rfl, rfl, rfl, rfl⟩

end Bookkeeping

/-! ## Last known position -/

section Position

variable {ρ : Type}

theorem build_full_packet_position (T : Target ρ) (w : World ρ) :
    (build_full_packet T w).last_send_lat = w.last_send_lat ∧
    (build_full_packet T w).last_send_lon = w.last_send_lon := by
  simp [build_full_packet, millis]

theorem status_uplink_position (T : Target ρ) (w : World ρ) :
    (status_uplink T w).2.last_send_lat = w.last_send_lat ∧
    (status_uplink T w).2.last_send_lon = w.last_send_lon := by
  unfold status_uplink
  simp only [millis]
  exact ⟨(send_uplink_frame _ _ _ _ _ _).2.2.1, (send_uplink_frame _ _ _ _ _ _).2.2.2.1⟩

theorem gpslost_uplink_position (T : Target ρ) (w : World ρ) :
    (gpslost_uplink T w).2.last_send_lat = w.last_send_lat ∧
    (gpslost_uplink T w).2.last_send_lon = w.last_send_lon := by
  unfold gpslost_uplink
  simp only [millis]
  exact ⟨(send_uplink_frame _ _ _ _ _ _).2.2.1, (send_uplink_frame _ _ _ _ _ _).2.2.2.1⟩

theorem ping_uplink_position (T : Target ρ) (w : World ρ) :
    (ping_uplink T w).last_send_lat = w.last_send_lat ∧
    (ping_uplink T w).last_send_lon = w.last_send_lon := by
  unfold ping_uplink
  exact ⟨(send_uplink_frame _ _ _ _ _ _).2.2.1, (send_uplink_frame _ _ _ _ _ _).2.2.2.1⟩

theorem lora_msg_callback_position (T : Target ρ) (message : Event) (w : World ρ) :
    (lora_msg_callback T message w).last_send_lat = w.last_send_lat ∧
    (lora_msg_callback T message w).last_send_lon = w.last_send_lon := by
  constructor <;>
    cases message <;>
      simp only [lora_msg_callback, reduceCtorEq, if_true, if_false, or_false, or_true,
        or_self] <;>
      split_ifs <;> rfl

/-- C17: after `uplink()` the last known position is the current sample's
latitude and longitude if the fix filter accepted the sample, whatever
`send_uplink` then returned, and it is unchanged if the filter rejected the
sample; `status_uplink`, `gpslost_uplink`, `ping_uplink`, `send_uplink` and
`lora_msg_callback` leave it unchanged. -/
theorem last_known_position (T : Target ρ) (w : World ρ) :
    (fixRejected w.gps = false →
      (uplink T w).2.last_send_lat = w.gps.lat ∧ (uplink T w).2.last_send_lon = w.gps.lng) ∧
    (fixRejected w.gps = true →
      (uplink T w).2.last_send_lat = w.last_send_lat ∧
        (uplink T w).2.last_send_lon = w.last_send_lon) ∧
    ((status_uplink T w).2.last_send_lat = w.last_send_lat ∧
      (status_uplink T w).2.last_send_lon = w.last_send_lon) ∧
    ((gpslost_uplink T w).2.last_send_lat = w.last_send_lat ∧
      (gpslost_uplink T w).2.last_send_lon = w.last_send_lon) ∧
    ((ping_uplink T w).last_send_lat = w.last_send_lat ∧
      (ping_uplink T w).last_send_lon = w.last_send_lon) ∧
    (∀ (length fport : Nat) (confirmed ping : Bool),
      (send_uplink T w length fport confirmed ping).2.last_send_lat = w.last_send_lat ∧
        (send_uplink T w length fport confirmed ping).2.last_send_lon = w.last_send_lon) ∧
    (∀ message : Event,
      (lora_msg_callback T message w).last_send_lat = w.last_send_lat ∧
        (lora_msg_callback T message w).last_send_lon = w.last_send_lon) := by
  refine ⟨?_, ?_, status_uplink_position T w, gpslost_uplink_position T w,
    ping_uplink_position T w, ?_, fun m => lora_msg_callback_position T m w⟩
  · intro h
    rw [uplink_accept T w h, gps_uplink_accept T w h]
    exact ⟨(send_uplink_frame _ _ _ _ _ _).2.2.1, (send_uplink_frame _ _ _ _ _ _).2.2.2.1⟩
  · intro h
    rw [uplink_reject T w h]
    exact gpslost_uplink_position T (millis w).2
  · intro length fport confirmed ping
    exact ⟨(send_uplink_frame _ _ _ _ _ _).2.2.1, (send_uplink_frame _ _ _ _ _ _).2.2.2.1⟩

/-- Witness of `last_known_position`: the sample fix is accepted and becomes
the last known position although the radio refuses the frame; the
zero-latitude fix is rejected and leaves 48 N, 9 E in place. -/
theorem last_known_position_witness :
    (fixRejected (sampleWorld () sampleGps).gps = false ∧
      (uplink refusingRadio (sampleWorld () sampleGps)).1 = MAPPER_UPLINK_NOLORA ∧
      (uplink refusingRadio (sampleWorld () sampleGps)).2.last_send_lat = 97 / 2 ∧
      (uplink refusingRadio (sampleWorld () sampleGps)).2.last_send_lon = 37 / 4) ∧
    (fixRejected (sampleWorld () zeroLatGps).gps = true ∧
      (uplink refusingRadio (sampleWorld () zeroLatGps)).2.last_send_lat = 48 ∧
      (uplink refusingRadio (sampleWorld () zeroLatGps)).2.last_send_lon = 9) :=
  have h1 : fixRejected (sampleWorld () sampleGps).gps = false := by
    simp [fixRejected, sampleWorld, sampleGps]
  have h2 : fixRejected (sampleWorld () zeroLatGps).gps = true := by
    simp [fixRejected, sampleWorld, zeroLatGps, sampleGps]
  have hres : (uplink refusingRadio (sampleWorld () sampleGps)).1 = MAPPER_UPLINK_NOLORA := by
    rw [uplink_accept _ _ h1, gps_uplink_accept _ _ h1, send_uplink_eq]
    have hr : ready refusingRadio
        { build_full_packet refusingRadio (millis (sampleWorld () sampleGps)).2 with
          last_send_lat := (sampleWorld () sampleGps).gps.lat
          last_send_lon := (sampleWorld () sampleGps).gps.lng } = true := by
      simp only [ready, (build_full_packet_frame _ _).1, (build_full_packet_frame _ _).2.1]
      rfl
    rw [if_pos hr]
    rfl
  ⟨⟨h1, hres, (last_known_position refusingRadio (sampleWorld () sampleGps)).1 h1⟩,
    ⟨h2, (last_known_position refusingRadio (sampleWorld () zeroLatGps)).2.1 h2⟩⟩

end Position

/-! ## Acknowledgment requests -/

section Cadence

variable {ρ : Type}

theorem want_ack_iff (T : Target ρ) (w : World ρ) :
    want_ack T w = true ↔
      T.LORAWAN_CONFIRMED_EVERY > 0 ∧
        (T.ttn_get_count w.radio : Int) % T.LORAWAN_CONFIRMED_EVERY = 0 := by
  simp [want_ack]

/-- The short-circuit evaluation never divides by zero and gives `want_ack`. -/
theorem want_ack_eval_eq (T : Target ρ) (w : World ρ) :
    want_ack_eval T w = some (want_ack T w) := by
  unfold want_ack_eval want_ack checked_mod
  by_cases h : T.LORAWAN_CONFIRMED_EVERY > 0
  · have h0 : T.LORAWAN_CONFIRMED_EVERY ≠ 0 := by omega
    simp [h, h0]
  · simp [h]

/-- The frames of `gps_uplink`: port 2, acknowledgment as `want_ack` says. -/
theorem gps_uplink_confirmed (T : Target ρ) (w : World ρ) :
    ∀ tx ∈ submitted w (gps_uplink T w).2, tx.port = 2 ∧ tx.confirmed = want_ack T w := by
  intro tx htx
  rw [submitted_append _ _ _ (gps_uplink_sent T w)] at htx
  split_ifs at htx
  · simp only [List.mem_singleton] at htx
    subst htx
    exact ⟨rfl, rfl⟩
  · simp at htx

/-- The frames of `gpslost_uplink`: port 6, acknowledgment as `want_ack` says. -/
theorem gpslost_uplink_confirmed (T : Target ρ) (w : World ρ) :
    ∀ tx ∈ submitted w (gpslost_uplink T w).2, tx.port = 6 ∧ tx.confirmed = want_ack T w := by
  intro tx htx
  rw [submitted_append _ _ _ (gpslost_uplink_sent T w)] at htx
  split_ifs at htx
  · simp only [List.mem_singleton] at htx
    subst htx
    exact ⟨rfl, rfl⟩
  · simp at htx

/-- The frames of `status_uplink`: port 5, acknowledgment always requested. -/
theorem status_uplink_confirmed (T : Target ρ) (w : World ρ) :
    ∀ tx ∈ submitted w (status_uplink T w).2, tx.port = 5 ∧ tx.confirmed = true := by
  intro tx htx
  rw [submitted_append _ _ _ (status_uplink_sent T w).1] at htx
  split_ifs at htx
  · simp only [List.mem_singleton] at htx
    subst htx
    exact ⟨rfl, rfl⟩
  · simp at htx

/-- The frames of `ping_uplink`: port 1, no acknowledgment requested. -/
theorem ping_uplink_confirmed (T : Target ρ) (w : World ρ) :
    ∀ tx ∈ submitted w (ping_uplink T w), tx.port = 1 ∧ tx.confirmed = false := by
  intro tx htx
  rw [submitted_append _ _ _ (ping_uplink_sent T w).1] at htx
  split_ifs at htx
  · simp only [List.mem_singleton] at htx
    subst htx
    exact ⟨rfl, rfl⟩
  · simp at htx

/-- C13: with `c = ttn_get_count()` and `N = LORAWAN_CONFIRMED_EVERY`, a GPS or
GPSLOST frame requests acknowledgment if and only if `N > 0` and
`c mod N = 0`; with `N = 0` none does, and the evaluation of the condition
never divides by zero.  Every STATUS frame requests acknowledgment and no PING
frame does. -/
theorem confirmed_cadence (T : Target ρ) (w : World ρ) :
    (∀ tx ∈ submitted w (gps_uplink T w).2, tx.port = 2 ∧
      (tx.confirmed = true ↔ T.LORAWAN_CONFIRMED_EVERY > 0 ∧
        (T.ttn_get_count w.radio : Int) % T.LORAWAN_CONFIRMED_EVERY = 0)) ∧
    (∀ tx ∈ submitted w (gpslost_uplink T w).2, tx.port = 6 ∧
      (tx.confirmed = true ↔ T.LORAWAN_CONFIRMED_EVERY > 0 ∧
        (T.ttn_get_count w.radio : Int) % T.LORAWAN_CONFIRMED_EVERY = 0)) ∧
    (∀ tx ∈ submitted w (uplink T w).2, (tx.port = 2 ∨ tx.port = 6) ∧
      (tx.confirmed = true ↔ T.LORAWAN_CONFIRMED_EVERY > 0 ∧
        (T.ttn_get_count w.radio : Int) % T.LORAWAN_CONFIRMED_EVERY = 0)) ∧
    (T.LORAWAN_CONFIRMED_EVERY = 0 →
      (∀ tx ∈ submitted w (uplink T w).2, tx.confirmed = false)) ∧
    want_ack_eval T w = some (want_ack T w) ∧
    (∀ tx ∈ submitted w (status_uplink T w).2, tx.port = 5 ∧ tx.confirmed = true) ∧
    (∀ tx ∈ submitted w (ping_uplink T w), tx.port = 1 ∧ tx.confirmed = false) := by
  have hup : ∀ tx ∈ submitted w (uplink T w).2,
      (tx.port = 2 ∨ tx.port = 6) ∧ tx.confirmed = want_ack T w := by
    intro tx htx
    obtain ⟨new, hn, -, -, hform⟩ := uplink_sent T w
    rw [submitted_append _ _ _ hn] at htx
    obtain ⟨-, -, hc, hp⟩ := hform tx htx
    refine ⟨?_, hc⟩
    split_ifs at hp
    · exact Or.inr hp
    · exact Or.inl hp
  refine ⟨?_, ?_, ?_, ?_, want_ack_eval_eq T w, status_uplink_confirmed T w,
    ping_uplink_confirmed T w⟩
  · intro tx htx
    obtain ⟨hp, hc⟩ := gps_uplink_confirmed T w tx htx
    exact ⟨hp, by rw [hc]; exact want_ack_iff T w⟩
  · intro tx htx
    obtain ⟨hp, hc⟩ := gpslost_uplink_confirmed T w tx htx
    exact ⟨hp, by rw [hc]; exact want_ack_iff T w⟩
  · intro tx htx
    obtain ⟨hp, hc⟩ := hup tx htx
    exact ⟨hp, by rw [hc]; exact want_ack_iff T w⟩
  · intro h0 tx htx
    obtain ⟨-, hc⟩ := hup tx htx
    rw [hc]
    simp [want_ack, h0]

/-- Witness of `confirmed_cadence`: with the cadence set to 0 the GPS frame of
the sample fix asks for no acknowledgment. -/
theorem confirmed_cadence_witness :
    ({ steadyRadio with LORAWAN_CONFIRMED_EVERY := 0 } : Target Bool).LORAWAN_CONFIRMED_EVERY = 0 ∧
    (submitted (sampleWorld true sampleGps)
      (uplink { steadyRadio with LORAWAN_CONFIRMED_EVERY := 0 }
        (sampleWorld true sampleGps)).2).length = 1 ∧
    ∀ tx ∈ submitted (sampleWorld true sampleGps)
      (uplink { steadyRadio with LORAWAN_CONFIRMED_EVERY := 0 } (sampleWorld true sampleGps)).2,
      tx.confirmed = false :=
  have hlen : (submitted (sampleWorld true sampleGps)
      (uplink { steadyRadio with LORAWAN_CONFIRMED_EVERY := 0 }
        (sampleWorld true sampleGps)).2).length = 1 := by
    obtain ⟨new, hn, -, h1, -⟩ := uplink_sent { steadyRadio with LORAWAN_CONFIRMED_EVERY := 0 }
      (sampleWorld true sampleGps)
    rw [submitted_append _ _ _ hn]
    exact h1 rfl
  ⟨rfl, hlen,
    (confirmed_cadence { steadyRadio with LORAWAN_CONFIRMED_EVERY := 0 }
      (sampleWorld true sampleGps)).2.2.2.1 rfl⟩

end Cadence

/-! ## Downlink commands -/

section DownlinkCommands

variable {ρ : Type}

/-- On a receive event the callback keeps the scheduling state, but for
`ping_requested`, which it sets when the byte it reads at `data[0]` is 0x01:
the first byte of the payload, or the byte `beyond` when the payload is empty. -/
theorem lora_msg_callback_receive (T : Target ρ) (message : Event) (w : World ρ)
    (hm : message = Event.EV_RXCOMPLETE ∨ message = Event.EV_RESPONSE) :
    (lora_msg_callback T message w).ping_requested =
      (if (T.ttn_response (lora_msg_callback T message w).radio).data.getD 0
          (T.ttn_response (lora_msg_callback T message w).radio).beyond = 1
        then true else w.ping_requested) ∧
    (lora_msg_callback T message w).last_send_ms = w.last_send_ms ∧
    (lora_msg_callback T message w).last_status_ms = w.last_status_ms ∧
    (lora_msg_callback T message w).last_fix_time = w.last_fix_time ∧
    (lora_msg_callback T message w).transmitted = w.transmitted ∧
    (lora_msg_callback T message w).uplink_failed = w.uplink_failed ∧
    (lora_msg_callback T message w).ack_rec = w.ack_rec ∧
    (lora_msg_callback T message w).ping = w.ping ∧
    (lora_msg_callback T message w).ack_req = w.ack_req ∧
    (lora_msg_callback T message w).ack_rx = w.ack_rx := by
  rcases hm with rfl | rfl <;>
    simp only [lora_msg_callback, reduceCtorEq, if_true, if_false, or_false, or_true,
      or_self, true_or] <;>
    split_ifs <;> simp_all

/-- C16 at the failing input: a receive event with an empty payload on port 3,
while the byte that lies where `data[0]` is read happens to be 0x01.  The
payload has no first byte, `ping_requested` was false, and the callback sets it
to true: the decision is taken on a byte outside the payload. -/
theorem lora_msg_callback_empty_payload :
    (downlinkRadio.ttn_response
      (sampleWorld (⟨3, [], 1⟩ : Downlink) sampleGps).radio).data = [] ∧
    (sampleWorld (⟨3, [], 1⟩ : Downlink) sampleGps).ping_requested = false ∧
    (lora_msg_callback downlinkRadio Event.EV_RXCOMPLETE
      (sampleWorld (⟨3, [], 1⟩ : Downlink) sampleGps)).ping_requested = true ∧
    (lora_msg_callback downlinkRadio Event.EV_RXCOMPLETE
      (sampleWorld (⟨3, [], 0⟩ : Downlink) sampleGps)).ping_requested = false := by
  refine ⟨rfl, rfl, rfl, rfl⟩

end DownlinkCommands

/-! ## The decisions of a tick -/

section Decisions

variable {ρ : Type}

/-- The four ways through `schedule`. -/
theorem schedule_eq (T : Target ρ) (now : Nat) (w : World ρ) :
    schedule T now w =
      if w.ack_req - w.ack_rx ≥ T.ACK_FAIL_THRESHOLD then (w, true)
      else if ping_due T now (after_status T now w) = true then
        (ping_uplink T (before_ping T (after_status T now w)), true)
      else if periodic_due T now (after_status T now w) = true then
        (record_uplink (uplink T (after_status T now w)), false)
      else (after_status T now w, false) := by
  unfold schedule after_status ping_due periodic_due record_uplink before_ping
  simp only
  generalize (if (decide (sub32 now w.last_status_ms > 30 * 1000) && !w.ack_rec &&
    ready T w) = true then (status_uplink T w).2 else w) = w1
  rcases uplink T w1 with ⟨r, w2⟩
  simp only [Bool.and_eq_true, Bool.or_eq_true]
  split_ifs <;> first | rfl | (exfalso; tauto)

theorem after_status_frame (T : Target ρ) (now : Nat) (w : World ρ) :
    (after_status T now w).ping = w.ping ∧
    (after_status T now w).ping_requested = w.ping_requested ∧
    (after_status T now w).ack_rec = w.ack_rec ∧
    (after_status T now w).isJoined = w.isJoined := by
  unfold after_status
  obtain ⟨-, h1, h2, h3, h4⟩ := status_uplink_sent T w
  split_ifs
  · exact ⟨h2, h3, h1, h4⟩
  · exact ⟨rfl, rfl, rfl, rfl⟩

/-- Without a status uplink due, the first decision leaves the state alone. -/
theorem after_status_idle (T : Target ρ) (now : Nat) (w : World ρ)
    (h : ¬ (sub32 now w.last_status_ms > 30000 ∧ w.ack_rec = false ∧ ready T w = true)) :
    after_status T now w = w := by
  unfold after_status
  rw [if_neg]
  intro hc
  apply h
  simp only [Bool.and_eq_true, decide_eq_true_eq, Bool.not_eq_true'] at hc
  exact ⟨by simpa using hc.1.1, hc.1.2, hc.2⟩

theorem ping_uplink_ping (T : Target ρ) (w : World ρ) : (ping_uplink T w).ping = w.ping := by
  unfold ping_uplink
  exact (send_uplink_frame _ _ _ _ _ _).2.2.2.2.2.2.2.1

/-- The restart flag of `schedule`: the watchdog, or else the ping. -/
theorem schedule_restart (T : Target ρ) (now : Nat) (w : World ρ) :
    (schedule T now w).2 = true ↔
      (w.ack_req - w.ack_rx ≥ T.ACK_FAIL_THRESHOLD ∨
        (¬ w.ack_req - w.ack_rx ≥ T.ACK_FAIL_THRESHOLD ∧
          ping_due T now (after_status T now w) = true)) := by
  rw [schedule_eq]
  split_ifs <;> simp_all

/-- The callbacks of `ttn_loop` leave `ack_req` alone and raise `ack_rx` by the
number of `EV_ACK` events. -/
theorem lora_msg_callback_counters (T : Target ρ) (message : Event) (w : World ρ) :
    (lora_msg_callback T message w).ack_req = w.ack_req ∧
    (lora_msg_callback T message w).ack_rx =
      w.ack_rx + (if message = Event.EV_ACK then 1 else 0) := by
  constructor <;>
    cases message <;>
      simp only [lora_msg_callback, reduceCtorEq, if_true, if_false, or_false, or_true,
        or_self, add_zero] <;>
      split_ifs <;> rfl

theorem ttn_loop_counters (T : Target ρ) (inp : TickInput ρ) (w : World ρ) :
    (ttn_loop T inp w).ack_req = w.ack_req ∧
    (ttn_loop T inp w).ack_rx =
      w.ack_rx + ((inp.events.map Prod.snd).count Event.EV_ACK : Nat) := by
  unfold ttn_loop
  simp only
  generalize inp.events = es
  induction es generalizing w with
  | nil => simp
  | cons e es ih =>
    simp only [List.foldl_cons, List.map_cons]
    obtain ⟨h1, h2⟩ := ih (lora_msg_callback T e.2 { w with radio := e.1 })
    obtain ⟨g1, g2⟩ := lora_msg_callback_counters T e.2 { w with radio := e.1 }
    refine ⟨h1.trans g1, ?_⟩
    rw [h2, g2, List.count_cons]
    by_cases he : e.2 = Event.EV_ACK
    · simp [he]; ring
    · have he' : ¬ (e.2 == Event.EV_ACK) = true := by simpa using he
      simp [he]

theorem poll_counters (T : Target ρ) (inp : TickInput ρ) (w : World ρ) :
    (poll T inp w).2.ack_req = w.ack_req ∧
    (poll T inp w).2.ack_rx =
      w.ack_rx + ((inp.events.map Prod.snd).count Event.EV_ACK : Nat) := by
  have hn : ∀ (now : Nat) (v : World ρ),
      (note_fix now v).ack_req = v.ack_req ∧ (note_fix now v).ack_rx = v.ack_rx := by
    intro now v
    unfold note_fix
    simp only
    split_ifs <;> exact ⟨rfl, rfl⟩
  have hc : ∀ v : World ρ,
      (check_sensors inp v).ack_req = v.ack_req ∧ (check_sensors inp v).ack_rx = v.ack_rx := by
    intro v
    unfold check_sensors
    simp only
    split_ifs <;> exact ⟨rfl, rfl⟩
  unfold poll
  simp only [millis]
  rw [(hc _).1, (hc _).2, (ttn_loop_counters _ _ _).1, (ttn_loop_counters _ _ _).2,
    (hn _ _).1, (hn _ _).2]
  exact ⟨rfl, rfl⟩

/-- The watchdog branch of `schedule`: restart with nothing else done, taken
exactly when the deficit has reached the threshold. -/
theorem schedule_watchdog_iff (T : Target ρ) (now : Nat) (w : World ρ) :
    schedule T now w = (w, true) ↔ w.ack_req - w.ack_rx ≥ T.ACK_FAIL_THRESHOLD := by
  rw [schedule_eq]
  constructor
  · intro h
    by_contra hwd
    rw [if_neg hwd] at h
    split_ifs at h with hp hd
    · have h1 : (ping_uplink T (before_ping T (after_status T now w))).ping = w.ping :=
        congrArg World.ping (congrArg Prod.fst h)
      rw [ping_uplink_ping] at h1
      have h2 : (after_status T now w).ping = false := by
        unfold ping_due at hp
        simp only [Bool.and_eq_true, Bool.not_eq_true'] at hp
        exact hp.1.1.1
      rw [(after_status_frame T now w).1] at h2
      rw [h2] at h1
      exact absurd h1 (by simp [before_ping])
    · exact Bool.false_ne_true (congrArg Prod.snd h)
    · exact Bool.false_ne_true (congrArg Prod.snd h)
  · intro hwd
    rw [if_pos hwd]

/-- C14: a tick takes the watchdog restart (it ends in `ESP.restart()` with
nothing else done) if and only if `ack_req - ack_rx ≥ ACK_FAIL_THRESHOLD` in
signed arithmetic, in the state in which the tick decides, and then no frame is
submitted; any other restart of a tick is the one after a ping.  With
`ack_req = 10` and `ack_rx = 10 - T` the tick restarts, with
`ack_rx = 10 - T + 1` the watchdog does not.  The counters of the deciding state
are those before the tick when the radio reports no `EV_ACK` during it. -/
theorem ack_watchdog (T : Target ρ) (inp : TickInput ρ) (w : World ρ) :
    (loop T inp w = ((poll T inp w).2, true) ↔
      (poll T inp w).2.ack_req - (poll T inp w).2.ack_rx ≥ T.ACK_FAIL_THRESHOLD) ∧
    ((poll T inp w).2.ack_req - (poll T inp w).2.ack_rx ≥ T.ACK_FAIL_THRESHOLD →
      (loop T inp w).2 = true ∧ submitted w (loop T inp w).1 = []) ∧
    (¬ (poll T inp w).2.ack_req - (poll T inp w).2.ack_rx ≥ T.ACK_FAIL_THRESHOLD →
      (loop T inp w).2 = true →
      (poll T inp w).2.ping = false ∧ (loop T inp w).1.ping = true) ∧
    ((poll T inp w).2.ack_req = 10 → (poll T inp w).2.ack_rx = 10 - T.ACK_FAIL_THRESHOLD →
      loop T inp w = ((poll T inp w).2, true)) ∧
    ((poll T inp w).2.ack_req = 10 → (poll T inp w).2.ack_rx = 10 - T.ACK_FAIL_THRESHOLD + 1 →
      loop T inp w ≠ ((poll T inp w).2, true)) ∧
    ((inp.events.map Prod.snd).count Event.EV_ACK = 0 →
      (poll T inp w).2.ack_req = w.ack_req ∧ (poll T inp w).2.ack_rx = w.ack_rx) := by
  have hiff := schedule_watchdog_iff T (poll T inp w).1 (poll T inp w).2
  refine ⟨hiff, ?_, ?_, ?_, ?_, ?_⟩
  · intro hwd
    have h := hiff.mpr hwd
    have h' : loop T inp w = ((poll T inp w).2, true) := h
    rw [h']
    refine ⟨rfl, submitted_append _ _ [] ?_⟩
    simp [(poll_frame T inp w).1]
  · intro hwd hr
    have hs := schedule_eq T (poll T inp w).1 (poll T inp w).2
    have hr' : (schedule T (poll T inp w).1 (poll T inp w).2).2 = true := hr
    show _ ∧ (schedule T (poll T inp w).1 (poll T inp w).2).1.ping = true
    rw [hs] at hr' ⊢
    rw [if_neg hwd] at hr' ⊢
    split_ifs at hr' ⊢ with hp
    refine ⟨?_, ?_⟩
    · unfold ping_due at hp
      simp only [Bool.and_eq_true, Bool.not_eq_true'] at hp
      rw [← (after_status_frame T _ _).1]
      exact hp.1.1.1
    · rw [ping_uplink_ping]
      rfl
  · intro h1 h2
    apply hiff.mpr
    rw [h1, h2]
    omega
  · intro h1 h2 h
    have := hiff.mp h
    rw [h1, h2] at this
    omega
  · intro h0
    obtain ⟨h1, h2⟩ := poll_counters T inp w
    rw [h0] at h2
    exact ⟨h1, by simpa using h2⟩

/-- Witness of `ack_watchdog`: with 5 acknowledgments requested, none received
and threshold 5 the tick restarts and hands nothing to the radio. -/
theorem ack_watchdog_witness :
    (poll steadyRadio (quietInput true) { sampleWorld true sampleGps with ack_req := 5 }).2.ack_req -
        (poll steadyRadio (quietInput true)
          { sampleWorld true sampleGps with ack_req := 5 }).2.ack_rx ≥
      steadyRadio.ACK_FAIL_THRESHOLD ∧
    (loop steadyRadio (quietInput true) { sampleWorld true sampleGps with ack_req := 5 }).2 =
      true ∧
    submitted { sampleWorld true sampleGps with ack_req := 5 }
      (loop steadyRadio (quietInput true) { sampleWorld true sampleGps with ack_req := 5 }).1 =
      [] :=
  ⟨by decide,
    (ack_watchdog steadyRadio (quietInput true)
      { sampleWorld true sampleGps with ack_req := 5 }).2.1 (by decide)⟩

theorem ready_before_ping (T : Target ρ) (w : World ρ) :
    ready T (before_ping T w) =
      ready T { w with radio := T.ttn_set_sf w.radio T.LORAWAN_SF_PING } := rfl

/-- The tick of a requested ping: the deciding state has a ping requested, none
in flight, the radio ready, more than 10 s since the last uplink, the deficit
below the threshold and no status uplink due. -/
theorem schedule_ping (T : Target ρ) (now : Nat) (w : World ρ)
    (hreq : w.ping_requested = true) (hping : w.ping = false) (hready : ready T w = true)
    (htime : sub32 now w.last_send_ms > 10000)
    (hwd : ¬ w.ack_req - w.ack_rx ≥ T.ACK_FAIL_THRESHOLD)
    (hstatus : ¬ (sub32 now w.last_status_ms > 30000 ∧ w.ack_rec = false)) :
    schedule T now w = (ping_uplink T (before_ping T w), true) := by
  have hidle : after_status T now w = w :=
    after_status_idle T now w (fun h => hstatus ⟨h.1, h.2.1⟩)
  have hdue : ping_due T now w = true := by
    unfold ping_due
    simp [hreq, hping, hready, htime]
  rw [schedule_eq, if_neg hwd, hidle, if_pos hdue]

/-- C11 (amended): when a ping is requested, no ping is in flight, the radio is
ready, more than 10 s have passed since the last uplink
(`now - last_send_ms > 10 000`), the deficit is below the threshold and no
STATUS frame is due, the tick requests a device restart, and before it submits
an 8-byte frame on port 1 with no acknowledgment requested provided the radio
is still ready once the spreading factor of the ping is set (otherwise it
submits nothing).  A receive event whose payload starts with 0x01 requests the
ping, whatever the port. -/
theorem ping_schedule (T : Target ρ) (inp : TickInput ρ) (w : World ρ)
    (hreq : (poll T inp w).2.ping_requested = true) (hping : (poll T inp w).2.ping = false)
    (hready : ready T (poll T inp w).2 = true)
    (htime : sub32 (poll T inp w).1 (poll T inp w).2.last_send_ms > 10000)
    (hwd : ¬ (poll T inp w).2.ack_req - (poll T inp w).2.ack_rx ≥ T.ACK_FAIL_THRESHOLD)
    (hstatus : ¬ (sub32 (poll T inp w).1 (poll T inp w).2.last_status_ms > 30000 ∧
      (poll T inp w).2.ack_rec = false)) :
    (loop T inp w).2 = true ∧
    (ready T (before_ping T (poll T inp w).2) = true →
      ∃ tx, submitted w (loop T inp w).1 = [tx] ∧ tx.port = 1 ∧ tx.data.length = 8 ∧
        tx.confirmed = false) ∧
    (ready T (before_ping T (poll T inp w).2) = false → submitted w (loop T inp w).1 = []) ∧
    (∀ (message : Event) (v : World ρ) (port : Nat) (rest : List Nat) (beyond : Nat),
      message = Event.EV_RXCOMPLETE ∨ message = Event.EV_RESPONSE →
      T.ttn_response (lora_msg_callback T message v).radio = ⟨port, 1 :: rest, beyond⟩ →
      (lora_msg_callback T message v).ping_requested = true) := by
  have hl : loop T inp w = (ping_uplink T (before_ping T (poll T inp w).2), true) :=
    schedule_ping T _ _ hreq hping hready htime hwd hstatus
  have hs := (ping_uplink_sent T (before_ping T (poll T inp w).2)).1
  have hb : (before_ping T (poll T inp w).2).sent = w.sent := (poll_frame T inp w).1
  rw [hb] at hs
  rw [hl]
  refine ⟨rfl, ?_, ?_, ?_⟩
  · intro hr
    rw [if_pos hr] at hs
    exact ⟨_, submitted_append _ _ _ hs, rfl, frame_length _ _ (by norm_num), rfl⟩
  · intro hr
    rw [if_neg (by simp [hr])] at hs
    exact submitted_append _ _ _ hs
  · intro message v port rest beyond hm hresp
    rw [(lora_msg_callback_receive T message v hm).1, hresp]
    simp

/-- Witness of `ping_schedule`: 40 s after boot, acknowledged, with a ping
requested and an idle radio, the tick sends the PING frame and restarts. -/
theorem ping_schedule_witness :
    ((poll steadyRadio (quietInput true) { sampleWorld true sampleGps with ping_requested := true, ack_rec := true }).2.ping_requested = true ∧
      (poll steadyRadio (quietInput true) { sampleWorld true sampleGps with ping_requested := true, ack_rec := true }).2.ping = false ∧
      ready steadyRadio (poll steadyRadio (quietInput true) { sampleWorld true sampleGps with ping_requested := true, ack_rec := true }).2 = true ∧
      sub32 (poll steadyRadio (quietInput true) { sampleWorld true sampleGps with ping_requested := true, ack_rec := true }).1
        (poll steadyRadio (quietInput true) { sampleWorld true sampleGps with ping_requested := true, ack_rec := true }).2.last_send_ms > 10000 ∧
      ready steadyRadio (before_ping steadyRadio (poll steadyRadio (quietInput true) { sampleWorld true sampleGps with ping_requested := true, ack_rec := true }).2) =
        true) ∧
    (loop steadyRadio (quietInput true) { sampleWorld true sampleGps with ping_requested := true, ack_rec := true }).2 = true ∧
    ∃ tx, submitted { sampleWorld true sampleGps with ping_requested := true, ack_rec := true }
        (loop steadyRadio (quietInput true) { sampleWorld true sampleGps with ping_requested := true, ack_rec := true }).1 = [tx] ∧
      tx.port = 1 ∧ tx.data.length = 8 ∧ tx.confirmed = false :=
  ⟨⟨rfl, rfl, rfl, by decide, rfl⟩,
    (ping_schedule steadyRadio (quietInput true) { sampleWorld true sampleGps with ping_requested := true, ack_rec := true }
      rfl rfl rfl (by decide) (by decide) (by decide)).1,
    (ping_schedule steadyRadio (quietInput true) { sampleWorld true sampleGps with ping_requested := true, ack_rec := true }
      rfl rfl rfl (by decide) (by decide) (by decide)).2.1 rfl⟩

/-- C11 (as stated) fails in two ways.  Exactly 10 000 ms after the last
uplink, with a ping requested, none in flight, the radio ready, the deficit
below the threshold and no STATUS frame due, the tick submits nothing and does
not restart.  And with a radio that is busy once the spreading factor of the
ping is set, the tick 40 s after the last uplink restarts without having
submitted a frame. -/
theorem ping_not_at_ten_seconds :
    (sub32 (poll steadyRadio (quietInput true) { sampleWorld true sampleGps with
        clock := fun _ => 10000, ping_requested := true, ack_rec := true, transmitted := true }).1
        (poll steadyRadio (quietInput true) { sampleWorld true sampleGps with
        clock := fun _ => 10000, ping_requested := true, ack_rec := true, transmitted := true }).2.last_send_ms = 10000 ∧
      (poll steadyRadio (quietInput true) { sampleWorld true sampleGps with
        clock := fun _ => 10000, ping_requested := true, ack_rec := true, transmitted := true }).2.ping_requested = true ∧
      (poll steadyRadio (quietInput true) { sampleWorld true sampleGps with
        clock := fun _ => 10000, ping_requested := true, ack_rec := true, transmitted := true }).2.ping = false ∧
      ready steadyRadio (poll steadyRadio (quietInput true) { sampleWorld true sampleGps with
        clock := fun _ => 10000, ping_requested := true, ack_rec := true, transmitted := true }).2 = true ∧
      (loop steadyRadio (quietInput true) { sampleWorld true sampleGps with
        clock := fun _ => 10000, ping_requested := true, ack_rec := true, transmitted := true }).2 = false ∧
      submitted { sampleWorld true sampleGps with
        clock := fun _ => 10000, ping_requested := true, ack_rec := true, transmitted := true }
        (loop steadyRadio (quietInput true) { sampleWorld true sampleGps with
        clock := fun _ => 10000, ping_requested := true, ack_rec := true, transmitted := true }).1 = []) ∧
    (ready { steadyRadio with ttn_set_sf := fun _ _ => false } (poll { steadyRadio with ttn_set_sf := fun _ _ => false } (quietInput true) { sampleWorld true sampleGps with ping_requested := true, ack_rec := true }).2 = true ∧
      (loop { steadyRadio with ttn_set_sf := fun _ _ => false } (quietInput true) { sampleWorld true sampleGps with ping_requested := true, ack_rec := true }).2 = true ∧
      submitted { sampleWorld true sampleGps with ping_requested := true, ack_rec := true }
        (loop { steadyRadio with ttn_set_sf := fun _ _ => false } (quietInput true) { sampleWorld true sampleGps with ping_requested := true, ack_rec := true }).1 = []) := by
  refine ⟨⟨by decide, rfl, rfl, rfl, rfl, rfl⟩, rfl, rfl, rfl⟩

theorem record_uplink_frame (p : mapper_uplink_result × World ρ) :
    (record_uplink p).sent = p.2.sent ∧
    (record_uplink p).uplink_failed = decide (p.1 ≠ MAPPER_UPLINK_SUCCESS) ∧
    (p.1 = MAPPER_UPLINK_SUCCESS → (record_uplink p).transmitted = true) := by
  unfold record_uplink
  split_ifs with h
  · simp [h]
  · simp [h]

/-- The condition of the periodic uplink, read in the deciding state. -/
theorem periodic_due_iff (T : Target ρ) (now : Nat) (w : World ρ) :
    periodic_due T now (after_status T now w) = true ↔
      (w.ack_rec = true ∧ w.ping = false ∧ ready T w = true ∧
        (sub32 now w.last_send_ms > (w.tx_interval_s * 1000) % 2 ^ 32 ∨
          w.transmitted = false ∨ w.uplink_failed = true)) := by
  by_cases hack : w.ack_rec = true
  · have hidle : after_status T now w = w :=
      after_status_idle T now w (fun h => by rw [hack] at h; exact absurd h.2.1 (by decide))
    rw [hidle]
    unfold periodic_due
    simp only [Bool.and_eq_true, Bool.or_eq_true, Bool.not_eq_true', decide_eq_true_eq]
    constructor
    · rintro ⟨⟨⟨h1, h2⟩, h3⟩, h4⟩
      refine ⟨h2, h1, h3, ?_⟩
      rcases h4 with (h | h) | h
      · exact Or.inl h
      · exact Or.inr (Or.inl h.1)
      · exact Or.inr (Or.inr h.1)
    · rintro ⟨h2, h1, h3, h4⟩
      refine ⟨⟨⟨h1, h2⟩, h3⟩, ?_⟩
      rcases h4 with h | h | h
      · exact Or.inl (Or.inl h)
      · exact Or.inl (Or.inr ⟨h, h3⟩)
      · exact Or.inr ⟨h, h3⟩
  · have h1 : (after_status T now w).ack_rec = false := by
      rw [(after_status_frame T now w).2.2.1]; simpa using hack
    constructor
    · intro h
      unfold periodic_due at h
      rw [h1] at h
      simp at h
    · intro h
      exact absurd h.1 hack

/-- In a tick that does not restart, neither the watchdog nor the ping fired. -/
theorem schedule_no_restart (T : Target ρ) (now : Nat) (w : World ρ)
    (h : (schedule T now w).2 = false) :
    schedule T now w =
      if periodic_due T now (after_status T now w) = true then
        (record_uplink (uplink T (after_status T now w)), false)
      else (after_status T now w, false) := by
  have hr := schedule_restart T now w
  rw [h] at hr
  have hwd : ¬ w.ack_req - w.ack_rx ≥ T.ACK_FAIL_THRESHOLD := fun hc =>
    Bool.false_ne_true (hr.mpr (Or.inl hc))
  have hp : ¬ ping_due T now (after_status T now w) = true := fun hc =>
    Bool.false_ne_true (hr.mpr (Or.inr ⟨hwd, hc⟩))
  rw [schedule_eq, if_neg hwd, if_neg hp]

/-- C12: in a tick that does not end in a restart, the periodic uplink is
attempted (the condition of the third decision holds and `uplink()` is called
in the deciding state) if and only if an acknowledgment has been received, no
ping is in flight, the radio is ready, and `now - last_send_ms >
tx_interval_s * 1000` (32-bit arithmetic) or `transmitted` is false or
`uplink_failed` is true.  When attempted, the one frame submitted has 24 bytes
and goes to port 2 if the fix filter accepts the sample and to port 6 if it
rejects it; when not attempted the tick ends in the state the status decision
left.  In every tick, whether it returns or ends in a restart, no frame on
port 2 or 6 is sent while `ack_rec` is false. -/
theorem periodic_schedule (T : Target ρ) (inp : TickInput ρ) (w : World ρ) :
    ((loop T inp w).2 = false →
      (periodic_due T (poll T inp w).1 (after_status T (poll T inp w).1 (poll T inp w).2) = true ↔
        ((poll T inp w).2.ack_rec = true ∧ (poll T inp w).2.ping = false ∧
          ready T (poll T inp w).2 = true ∧
          (sub32 (poll T inp w).1 (poll T inp w).2.last_send_ms >
              ((poll T inp w).2.tx_interval_s * 1000) % 2 ^ 32 ∨
            (poll T inp w).2.transmitted = false ∨ (poll T inp w).2.uplink_failed = true))) ∧
      (periodic_due T (poll T inp w).1 (after_status T (poll T inp w).1 (poll T inp w).2) = true →
        (loop T inp w).1 = record_uplink (uplink T (poll T inp w).2) ∧
        ∃ tx, submitted w (loop T inp w).1 = [tx] ∧ tx.data.length = 24 ∧
          tx.port = if fixRejected (poll T inp w).2.gps = true then 6 else 2) ∧
      (periodic_due T (poll T inp w).1 (after_status T (poll T inp w).1 (poll T inp w).2) =
          false →
        (loop T inp w).1 = after_status T (poll T inp w).1 (poll T inp w).2)) ∧
    ((poll T inp w).2.ack_rec = false →
      ∀ tx ∈ submitted w (loop T inp w).1, tx.port ≠ 2 ∧ tx.port ≠ 6) := by
  refine ⟨fun hnr => ?_, ?_⟩
  · have hs : loop T inp w = _ := schedule_no_restart T (poll T inp w).1 (poll T inp w).2 hnr
    refine ⟨periodic_due_iff T _ _, ?_, ?_⟩
    · intro hd
      have hc := (periodic_due_iff T _ _).mp hd
      have hidle : after_status T (poll T inp w).1 (poll T inp w).2 = (poll T inp w).2 :=
        after_status_idle T _ _ (fun h => by rw [hc.1] at h; exact absurd h.2.1 (by decide))
      rw [if_pos hd, hidle] at hs
      rw [hs]
      refine ⟨rfl, ?_⟩
      obtain ⟨new, hn, hlen, hone, hform⟩ := uplink_sent T (poll T inp w).2
      have hsent : (record_uplink (uplink T (poll T inp w).2)).sent = w.sent ++ new := by
        rw [(record_uplink_frame _).1, hn, (poll_frame T inp w).1]
      rw [submitted_append _ _ _ hsent]
      have h1 := hone hc.2.2.1
      match new, h1, hform with
      | [tx], _, hform =>
        obtain ⟨-, hdata, -, hport⟩ := hform tx (by simp)
        refine ⟨tx, rfl, ?_, hport⟩
        rw [hdata]
        exact frame_length _ _ le_rfl
    · intro hd
      rw [if_neg (by simp [hd])] at hs
      rw [hs]
  · intro hack tx htx
    obtain ⟨s, r, h0, -, -, h3, -, h5, -⟩ := loop_sent T inp w
    rw [h0] at htx
    rcases List.mem_append.mp htx with h | h
    · rcases h3 with hs' | ⟨tx', hs', hp, -, -⟩
      · rw [hs'] at h; simp at h
      · rw [hs'] at h
        simp only [List.mem_singleton] at h
        subst h
        rw [hp]; decide
    · rcases h5 with hr | ⟨tx', hr, hp'⟩
      · rw [hr] at h; simp at h
      · rw [hr] at h
        simp only [List.mem_singleton] at h
        subst h
        rcases hp' with h1 | ⟨h1, -⟩
        · rw [h1]; decide
        · rw [hack] at h1; exact absurd h1 (by decide)

/-- A tick in which neither the watchdog nor the ping fires does not restart. -/
theorem loop_no_restart (T : Target ρ) (inp : TickInput ρ) (w : World ρ)
    (hwd : ¬ (poll T inp w).2.ack_req - (poll T inp w).2.ack_rx ≥ T.ACK_FAIL_THRESHOLD)
    (hp : ping_due T (poll T inp w).1 (after_status T (poll T inp w).1 (poll T inp w).2) =
      false) :
    (loop T inp w).2 = false := by
  rw [Bool.eq_false_iff]
  intro h
  rcases (schedule_restart T _ _).mp h with h1 | ⟨-, h1⟩
  · exact hwd h1
  · rw [hp] at h1
    exact Bool.false_ne_true h1

/-- Witness of `periodic_schedule`: 40 s after boot, acknowledged and with no
uplink sent yet, the tick sends the GPS frame of the sample fix; and in a tick
that ends in the restart after a ping, with `ack_rec` false, the frames handed
over (STATUS and PING) are on neither port 2 nor port 6. -/
theorem periodic_schedule_witness :
    ((loop steadyRadio (quietInput true) { sampleWorld true sampleGps with ack_rec := true }).2 = false ∧
      periodic_due steadyRadio (poll steadyRadio (quietInput true) { sampleWorld true sampleGps with ack_rec := true }).1
        (after_status steadyRadio (poll steadyRadio (quietInput true) { sampleWorld true sampleGps with ack_rec := true }).1
          (poll steadyRadio (quietInput true) { sampleWorld true sampleGps with ack_rec := true }).2) = true ∧
      ∃ tx, submitted { sampleWorld true sampleGps with ack_rec := true }
          (loop steadyRadio (quietInput true) { sampleWorld true sampleGps with ack_rec := true }).1 = [tx] ∧
        tx.data.length = 24 ∧
        tx.port = if fixRejected (poll steadyRadio (quietInput true) { sampleWorld true sampleGps with ack_rec := true }).2.gps = true
          then 6 else 2) ∧
    ((loop refusingRadio (quietInput ()) { sampleWorld () sampleGps with ping_requested := true }).2 = true ∧
      (poll refusingRadio (quietInput ()) { sampleWorld () sampleGps with ping_requested := true }).2.ack_rec = false ∧
      (submitted { sampleWorld () sampleGps with ping_requested := true }
        (loop refusingRadio (quietInput ()) { sampleWorld () sampleGps with ping_requested := true }).1).length = 2 ∧
      ∀ tx ∈ submitted { sampleWorld () sampleGps with ping_requested := true }
          (loop refusingRadio (quietInput ()) { sampleWorld () sampleGps with ping_requested := true }).1,
        tx.port ≠ 2 ∧ tx.port ≠ 6) :=
  have hnr : (loop steadyRadio (quietInput true) { sampleWorld true sampleGps with ack_rec := true }).2 = false :=
    loop_no_restart _ _ _ (by decide) rfl
  ⟨⟨hnr, rfl,
    (((periodic_schedule steadyRadio (quietInput true) { sampleWorld true sampleGps with ack_rec := true }).1 hnr).2.1 rfl).2⟩,
    ⟨rfl, rfl, rfl,
      (periodic_schedule refusingRadio (quietInput ()) { sampleWorld () sampleGps with ping_requested := true }).2 rfl⟩⟩

/-- The first half of a tick leaves `uplink_failed` and `transmitted` alone. -/
theorem poll_flags (T : Target ρ) (inp : TickInput ρ) (w : World ρ) :
    (poll T inp w).2.uplink_failed = w.uplink_failed ∧
    (poll T inp w).2.transmitted = w.transmitted := by
  have hcb : ∀ (m : Event) (v : World ρ),
      (lora_msg_callback T m v).uplink_failed = v.uplink_failed ∧
      (lora_msg_callback T m v).transmitted = v.transmitted := by
    intro m v
    constructor <;>
      cases m <;>
        simp only [lora_msg_callback, reduceCtorEq, if_true, if_false, or_false, or_true,
          or_self] <;>
        split_ifs <;> rfl
  have ht : ∀ v : World ρ,
      (ttn_loop T inp v).uplink_failed = v.uplink_failed ∧
      (ttn_loop T inp v).transmitted = v.transmitted := by
    intro v
    unfold ttn_loop
    simp only
    generalize inp.events = es
    induction es generalizing v with
    | nil => exact ⟨rfl, rfl⟩
    | cons e es ih =>
      simp only [List.foldl_cons]
      obtain ⟨h1, h2⟩ := ih (lora_msg_callback T e.2 { v with radio := e.1 })
      obtain ⟨g1, g2⟩ := hcb e.2 { v with radio := e.1 }
      exact ⟨h1.trans g1, h2.trans g2⟩
  have hn : ∀ (now : Nat) (v : World ρ),
      (note_fix now v).uplink_failed = v.uplink_failed ∧
      (note_fix now v).transmitted = v.transmitted := by
    intro now v
    unfold note_fix
    simp only
    split_ifs <;> exact ⟨rfl, rfl⟩
  have hc : ∀ v : World ρ,
      (check_sensors inp v).uplink_failed = v.uplink_failed ∧
      (check_sensors inp v).transmitted = v.transmitted := by
    intro v
    unfold check_sensors
    simp only
    split_ifs <;> exact ⟨rfl, rfl⟩
  unfold poll
  simp only [millis]
  rw [(hc _).1, (hc _).2, (ht _).1, (ht _).2, (hn _ _).1, (hn _ _).2]
  exact ⟨rfl, rfl⟩

/-- The tick of a periodic attempt: neither the watchdog nor the ping fires and
the periodic uplink is due. -/
theorem loop_attempt (T : Target ρ) (inp : TickInput ρ) (w : World ρ)
    (hwd : ¬ (poll T inp w).2.ack_req - (poll T inp w).2.ack_rx ≥ T.ACK_FAIL_THRESHOLD)
    (hp : ping_due T (poll T inp w).1 (after_status T (poll T inp w).1 (poll T inp w).2) = false)
    (hd : periodic_due T (poll T inp w).1 (after_status T (poll T inp w).1 (poll T inp w).2) = true) :
    loop T inp w = (record_uplink (uplink T (poll T inp w).2), false) := by
  have hc := (periodic_due_iff T _ _).mp hd
  have hidle : after_status T (poll T inp w).1 (poll T inp w).2 = (poll T inp w).2 :=
    after_status_idle T _ _ (fun h => by rw [hc.1] at h; exact absurd h.2.1 (by decide))
  show schedule T (poll T inp w).1 (poll T inp w).2 = _
  rw [schedule_eq, if_neg hwd, if_neg (by simp [hp]), if_pos hd, hidle]

/-- C18 (amended): a periodic uplink attempt that does not succeed leaves
`uplink_failed` true and its tick requests no restart; a successful attempt
sets `transmitted` to true and `uplink_failed` to false; and in the next tick
in which an acknowledgment has been received, no ping is in flight, the radio
is ready, and which does not end in a restart (neither the watchdog nor a
requested ping fires), the periodic uplink is attempted again, whatever time
has elapsed since `last_send_ms`. -/
theorem retry_after_failure (T : Target ρ) (inp : TickInput ρ) (w : World ρ) :
    (¬ (poll T inp w).2.ack_req - (poll T inp w).2.ack_rx ≥ T.ACK_FAIL_THRESHOLD →
      ping_due T (poll T inp w).1 (after_status T (poll T inp w).1 (poll T inp w).2) = false →
      periodic_due T (poll T inp w).1 (after_status T (poll T inp w).1 (poll T inp w).2) = true →
      (uplink T (poll T inp w).2).1 ≠ MAPPER_UPLINK_SUCCESS →
      (loop T inp w).2 = false ∧ (loop T inp w).1.uplink_failed = true) ∧
    (¬ (poll T inp w).2.ack_req - (poll T inp w).2.ack_rx ≥ T.ACK_FAIL_THRESHOLD →
      ping_due T (poll T inp w).1 (after_status T (poll T inp w).1 (poll T inp w).2) = false →
      periodic_due T (poll T inp w).1 (after_status T (poll T inp w).1 (poll T inp w).2) = true →
      (uplink T (poll T inp w).2).1 = MAPPER_UPLINK_SUCCESS →
      (loop T inp w).2 = false ∧ (loop T inp w).1.transmitted = true ∧
        (loop T inp w).1.uplink_failed = false) ∧
    (w.uplink_failed = true → (poll T inp w).2.ack_rec = true → (poll T inp w).2.ping = false →
      ready T (poll T inp w).2 = true → (loop T inp w).2 = false →
      periodic_due T (poll T inp w).1 (after_status T (poll T inp w).1 (poll T inp w).2) = true ∧
        (loop T inp w).1 = record_uplink (uplink T (poll T inp w).2)) := by
  refine ⟨?_, ?_, ?_⟩
  · intro hwd hp hd hres
    rw [loop_attempt T inp w hwd hp hd]
    refine ⟨rfl, ?_⟩
    rw [(record_uplink_frame _).2.1]
    simpa using hres
  · intro hwd hp hd hres
    rw [loop_attempt T inp w hwd hp hd]
    refine ⟨rfl, (record_uplink_frame _).2.2 hres, ?_⟩
    rw [(record_uplink_frame _).2.1]
    simp [hres]
  · intro hf hack hping hready hnr
    have hd : periodic_due T (poll T inp w).1 (after_status T (poll T inp w).1 (poll T inp w).2) = true := by
      rw [periodic_due_iff]
      refine ⟨hack, hping, hready, Or.inr (Or.inr ?_)⟩
      rw [(poll_flags T inp w).1]
      exact hf
    refine ⟨hd, ?_⟩
    have hs : loop T inp w = _ := schedule_no_restart T (poll T inp w).1 (poll T inp w).2 hnr
    have hc := (periodic_due_iff T _ _).mp hd
    have hidle : after_status T (poll T inp w).1 (poll T inp w).2 = (poll T inp w).2 :=
      after_status_idle T _ _ (fun h => by rw [hc.1] at h; exact absurd h.2.1 (by decide))
    rw [if_pos hd, hidle] at hs
    rw [hs]

/-- Witness of `retry_after_failure`: the radio refuses the GPSLOST frame of
the first tick, which leaves `uplink_failed` true without a restart; the next
quiet tick, still 40 s after boot and so within the interval of 60 s, attempts
the periodic uplink again. -/
theorem retry_after_failure_witness :
    ((uplink refusingDownlinkRadio (poll refusingDownlinkRadio { quietInput noDownlink with gps := noFixGps }
        { sampleWorld noDownlink noFixGps with ack_rec := true }).2).1 ≠ MAPPER_UPLINK_SUCCESS ∧
      (loop refusingDownlinkRadio { quietInput noDownlink with gps := noFixGps }
        { sampleWorld noDownlink noFixGps with ack_rec := true }).2 = false ∧
      (loop refusingDownlinkRadio { quietInput noDownlink with gps := noFixGps }
        { sampleWorld noDownlink noFixGps with ack_rec := true }).1.uplink_failed = true) ∧
    ((loop refusingDownlinkRadio { quietInput noDownlink with gps := noFixGps }
        { sampleWorld noDownlink noFixGps with ack_rec := true }).1.uplink_failed = true ∧
      (loop refusingDownlinkRadio { quietInput noDownlink with gps := noFixGps }
        (loop refusingDownlinkRadio { quietInput noDownlink with gps := noFixGps }
        { sampleWorld noDownlink noFixGps with ack_rec := true }).1).2 = false ∧
      periodic_due refusingDownlinkRadio (poll refusingDownlinkRadio { quietInput noDownlink with gps := noFixGps }
        (loop refusingDownlinkRadio { quietInput noDownlink with gps := noFixGps }
        { sampleWorld noDownlink noFixGps with ack_rec := true }).1).1
        (after_status refusingDownlinkRadio (poll refusingDownlinkRadio { quietInput noDownlink with gps := noFixGps }
        (loop refusingDownlinkRadio { quietInput noDownlink with gps := noFixGps }
        { sampleWorld noDownlink noFixGps with ack_rec := true }).1).1
          (poll refusingDownlinkRadio { quietInput noDownlink with gps := noFixGps }
        (loop refusingDownlinkRadio { quietInput noDownlink with gps := noFixGps }
        { sampleWorld noDownlink noFixGps with ack_rec := true }).1).2) = true) :=
  have hres : (uplink refusingDownlinkRadio (poll refusingDownlinkRadio { quietInput noDownlink with gps := noFixGps }
        { sampleWorld noDownlink noFixGps with ack_rec := true }).2).1 ≠ MAPPER_UPLINK_SUCCESS := by decide
  ⟨⟨hres,
      (retry_after_failure refusingDownlinkRadio { quietInput noDownlink with gps := noFixGps }
        { sampleWorld noDownlink noFixGps with ack_rec := true }).1 (by decide) rfl rfl hres⟩,
    ⟨rfl, rfl,
      ((retry_after_failure refusingDownlinkRadio { quietInput noDownlink with gps := noFixGps }
        (loop refusingDownlinkRadio { quietInput noDownlink with gps := noFixGps }
        { sampleWorld noDownlink noFixGps with ack_rec := true }).1).2.2 rfl rfl rfl rfl rfl).1⟩⟩

/-- C18 (as stated) fails when a ping request comes in after a failed
attempt.  First tick: acknowledged, no valid fix, the radio refuses the GPSLOST
frame; the attempt fails, `uplink_failed` is true, no restart.  Next tick: the
downlink `[0x01]` has arrived, an acknowledgment has been received, no ping is
in flight and the radio is ready; the tick hands the PING frame to the radio
and restarts, and no periodic uplink is attempted. -/
theorem retry_preempted_by_ping :
    ((loop refusingDownlinkRadio { quietInput noDownlink with gps := noFixGps }
        { sampleWorld noDownlink noFixGps with ack_rec := true }).2 = false ∧
      (loop refusingDownlinkRadio { quietInput noDownlink with gps := noFixGps }
        { sampleWorld noDownlink noFixGps with ack_rec := true }).1.uplink_failed = true) ∧
    ((poll refusingDownlinkRadio
        { quietInput noDownlink with
          gps := noFixGps, events := [(pingDownlink, Event.EV_RXCOMPLETE)] }
        (loop refusingDownlinkRadio { quietInput noDownlink with gps := noFixGps }
        { sampleWorld noDownlink noFixGps with ack_rec := true }).1).2.ack_rec = true ∧
      (poll refusingDownlinkRadio
        { quietInput noDownlink with
          gps := noFixGps, events := [(pingDownlink, Event.EV_RXCOMPLETE)] }
        (loop refusingDownlinkRadio { quietInput noDownlink with gps := noFixGps }
        { sampleWorld noDownlink noFixGps with ack_rec := true }).1).2.ping = false ∧
      ready refusingDownlinkRadio (poll refusingDownlinkRadio
        { quietInput noDownlink with
          gps := noFixGps, events := [(pingDownlink, Event.EV_RXCOMPLETE)] }
        (loop refusingDownlinkRadio { quietInput noDownlink with gps := noFixGps }
        { sampleWorld noDownlink noFixGps with ack_rec := true }).1).2 = true) ∧
    (loop refusingDownlinkRadio
        { quietInput noDownlink with
          gps := noFixGps, events := [(pingDownlink, Event.EV_RXCOMPLETE)] }
        (loop refusingDownlinkRadio { quietInput noDownlink with gps := noFixGps }
        { sampleWorld noDownlink noFixGps with ack_rec := true }).1).2 = true ∧
    (submitted (loop refusingDownlinkRadio { quietInput noDownlink with gps := noFixGps }
        { sampleWorld noDownlink noFixGps with ack_rec := true }).1
      (loop refusingDownlinkRadio
        { quietInput noDownlink with
          gps := noFixGps, events := [(pingDownlink, Event.EV_RXCOMPLETE)] }
        (loop refusingDownlinkRadio { quietInput noDownlink with gps := noFixGps }
        { sampleWorld noDownlink noFixGps with ack_rec := true }).1).1).map Tx.port = [1] := by
  refine ⟨⟨rfl, rfl⟩, ⟨rfl, rfl, rfl⟩, rfl, rfl⟩

end Decisions

/-! ## Acknowledgment counters -/

section Counters

variable {ρ : Type}

theorem build_full_packet_counters (T : Target ρ) (w : World ρ) :
    (build_full_packet T w).ack_req = w.ack_req ∧ (build_full_packet T w).ack_rx = w.ack_rx := by
  simp [build_full_packet, millis]

theorem send_uplink_counters (T : Target ρ) (w : World ρ) (length fport : Nat)
    (confirmed ping : Bool) :
    (send_uplink T w length fport confirmed ping).2.ack_rx = w.ack_rx ∧
    w.ack_req ≤ (send_uplink T w length fport confirmed ping).2.ack_req := by
  refine ⟨(send_uplink_frame _ _ _ _ _ _).2.2.2.2.2.1, ?_⟩
  rw [send_uplink_ack_req]
  split_ifs <;> omega

theorem status_uplink_counters (T : Target ρ) (w : World ρ) :
    (status_uplink T w).2.ack_rx = w.ack_rx ∧ w.ack_req ≤ (status_uplink T w).2.ack_req := by
  unfold status_uplink
  simp only [millis]
  exact send_uplink_counters T _ 8 FPORT_STATUS true false

theorem gpslost_uplink_counters (T : Target ρ) (w : World ρ) :
    (gpslost_uplink T w).2.ack_rx = w.ack_rx ∧ w.ack_req ≤ (gpslost_uplink T w).2.ack_req := by
  unfold gpslost_uplink
  simp only [millis]
  exact send_uplink_counters T _ 24 FPORT_GPSLOST _ false

theorem ping_uplink_counters (T : Target ρ) (w : World ρ) :
    (ping_uplink T w).ack_rx = w.ack_rx ∧ w.ack_req ≤ (ping_uplink T w).ack_req := by
  unfold ping_uplink
  exact send_uplink_counters T _ 8 FPORT_PING false true

theorem uplink_counters (T : Target ρ) (w : World ρ) :
    (uplink T w).2.ack_rx = w.ack_rx ∧ w.ack_req ≤ (uplink T w).2.ack_req := by
  by_cases hrej : fixRejected w.gps = true
  · rw [uplink_reject T w hrej]
    exact gpslost_uplink_counters T (millis w).2
  · have hrej' : fixRejected w.gps = false := by simpa using hrej
    rw [uplink_accept T w hrej', gps_uplink_accept T w hrej']
    obtain ⟨h1, h2⟩ := send_uplink_counters T
      { build_full_packet T (millis w).2 with
        last_send_lat := w.gps.lat, last_send_lon := w.gps.lng } 24 FPORT_GPS
      (want_ack T (build_full_packet T (millis w).2)) false
    obtain ⟨g1, g2⟩ := build_full_packet_counters T (millis w).2
    constructor
    · rw [h1]; exact g2
    · refine le_trans (le_of_eq ?_) h2
      exact g1.symm

theorem after_status_counters (T : Target ρ) (now : Nat) (w : World ρ) :
    (after_status T now w).ack_rx = w.ack_rx ∧ w.ack_req ≤ (after_status T now w).ack_req := by
  unfold after_status
  split_ifs
  · exact status_uplink_counters T w
  · exact ⟨rfl, le_refl _⟩

theorem record_uplink_counters (p : mapper_uplink_result × World ρ) :
    (record_uplink p).ack_rx = p.2.ack_rx ∧ (record_uplink p).ack_req = p.2.ack_req := by
  unfold record_uplink
  split_ifs <;> exact ⟨rfl, rfl⟩

/-- The deciding half of a tick never lowers `ack_req` and leaves `ack_rx`
alone. -/
theorem schedule_counters (T : Target ρ) (now : Nat) (w : World ρ) :
    (schedule T now w).1.ack_rx = w.ack_rx ∧ w.ack_req ≤ (schedule T now w).1.ack_req := by
  obtain ⟨a1, a2⟩ := after_status_counters T now w
  rw [schedule_eq]
  split_ifs
  · exact ⟨rfl, le_refl _⟩
  · obtain ⟨h1, h2⟩ := ping_uplink_counters T (before_ping T (after_status T now w))
    exact ⟨h1.trans a1, le_trans a2 h2⟩
  · obtain ⟨h1, h2⟩ := uplink_counters T (after_status T now w)
    obtain ⟨r1, r2⟩ := record_uplink_counters (uplink T (after_status T now w))
    exact ⟨(r1.trans h1).trans a1, le_trans a2 (le_trans h2 (le_of_eq r2.symm))⟩
  · exact ⟨a1, a2⟩

/-- `send_uplink` raises `ack_req` by one exactly when it hands a confirmed
frame to `ttn_send`. -/
theorem send_uplink_handed (T : Target ρ) (w : World ρ) (length fport : Nat)
    (confirmed ping : Bool) :
    (send_uplink T w length fport confirmed ping).2.ack_req -
        confirmed_handed (send_uplink T w length fport confirmed ping).2 =
      w.ack_req - confirmed_handed w := by
  rw [send_uplink_eq]
  unfold confirmed_handed
  by_cases hr : ready T w = true
  · rw [if_pos hr]
    cases confirmed <;> simp [List.countP_append, List.countP_cons, List.countP_nil]
  · rw [if_neg hr]

theorem build_full_packet_handed (T : Target ρ) (w : World ρ) :
    (build_full_packet T w).ack_req - confirmed_handed (build_full_packet T w) =
      w.ack_req - confirmed_handed w := by
  simp [build_full_packet, millis, confirmed_handed]

theorem status_uplink_handed (T : Target ρ) (w : World ρ) :
    (status_uplink T w).2.ack_req - confirmed_handed (status_uplink T w).2 =
      w.ack_req - confirmed_handed w := by
  unfold status_uplink
  simp only [millis]
  exact send_uplink_handed T _ 8 FPORT_STATUS true false

theorem gpslost_uplink_handed (T : Target ρ) (w : World ρ) :
    (gpslost_uplink T w).2.ack_req - confirmed_handed (gpslost_uplink T w).2 =
      w.ack_req - confirmed_handed w := by
  unfold gpslost_uplink
  simp only [millis]
  exact send_uplink_handed T _ 24 FPORT_GPSLOST _ false

theorem ping_uplink_handed (T : Target ρ) (w : World ρ) :
    (ping_uplink T w).ack_req - confirmed_handed (ping_uplink T w) =
      w.ack_req - confirmed_handed w := by
  unfold ping_uplink
  exact send_uplink_handed T _ 8 FPORT_PING false true

theorem uplink_handed (T : Target ρ) (w : World ρ) :
    (uplink T w).2.ack_req - confirmed_handed (uplink T w).2 =
      w.ack_req - confirmed_handed w := by
  by_cases hrej : fixRejected w.gps = true
  · rw [uplink_reject T w hrej]
    exact gpslost_uplink_handed T (millis w).2
  · have hrej' : fixRejected w.gps = false := by simpa using hrej
    rw [uplink_accept T w hrej', gps_uplink_accept T w hrej']
    have h1 := send_uplink_handed T
      { build_full_packet T (millis w).2 with
        last_send_lat := w.gps.lat, last_send_lon := w.gps.lng } 24 FPORT_GPS
      (want_ack T (build_full_packet T (millis w).2)) false
    have h2 := build_full_packet_handed T (millis w).2
    exact h1.trans h2

theorem after_status_handed (T : Target ρ) (now : Nat) (w : World ρ) :
    (after_status T now w).ack_req - confirmed_handed (after_status T now w) =
      w.ack_req - confirmed_handed w := by
  unfold after_status
  split_ifs
  · exact status_uplink_handed T w
  · rfl

theorem record_uplink_handed (p : mapper_uplink_result × World ρ) :
    (record_uplink p).ack_req - confirmed_handed (record_uplink p) =
      p.2.ack_req - confirmed_handed p.2 := by
  unfold record_uplink
  split_ifs <;> rfl

/-- The deciding half of a tick raises `ack_req` by the number of confirmed
frames it hands to `ttn_send`. -/
theorem schedule_handed (T : Target ρ) (now : Nat) (w : World ρ) :
    (schedule T now w).1.ack_req - confirmed_handed (schedule T now w).1 =
      w.ack_req - confirmed_handed w := by
  have a := after_status_handed T now w
  rw [schedule_eq]
  split_ifs
  · rfl
  · exact (ping_uplink_handed T (before_ping T (after_status T now w))).trans a
  · exact ((record_uplink_handed _).trans (uplink_handed T (after_status T now w))).trans a
  · exact a

/-- A tick raises `ack_req` by the number of confirmed frames it hands to
`ttn_send`, raises `ack_rx` by the number of `EV_ACK` events it is given, and
takes no frame back. -/
theorem loop_handed (T : Target ρ) (inp : TickInput ρ) (w : World ρ) :
    (loop T inp w).1.ack_req - confirmed_handed (loop T inp w).1 =
      w.ack_req - confirmed_handed w ∧
    (loop T inp w).1.ack_rx =
      w.ack_rx + ((inp.events.map Prod.snd).count Event.EV_ACK : Nat) ∧
    confirmed_handed w ≤ confirmed_handed (loop T inp w).1 := by
  obtain ⟨p1, p2⟩ := poll_counters T inp w
  have p3 := (poll_frame T inp w).1
  obtain ⟨s1, -⟩ := schedule_counters T (poll T inp w).1 (poll T inp w).2
  have s3 := schedule_handed T (poll T inp w).1 (poll T inp w).2
  refine ⟨?_, ?_, ?_⟩
  · show (schedule T (poll T inp w).1 (poll T inp w).2).1.ack_req -
      confirmed_handed (schedule T (poll T inp w).1 (poll T inp w).2).1 = _
    rw [s3, p1]
    unfold confirmed_handed
    rw [p3]
  · show (schedule T (poll T inp w).1 (poll T inp w).2).1.ack_rx = _
    rw [s1, p2]
  · obtain ⟨s, r, -, h0, -⟩ := loop_sent T inp w
    unfold confirmed_handed
    rw [h0, List.countP_append]
    exact Nat.le_add_right _ _

/-- Along events among which `EV_ACK` is reported at most once per confirmed
frame handed over, the reports stay within the frames. -/
theorem acks_for_frames_count (handed : Nat) (es : List Event) :
    ∀ acked : Nat, acks_for_frames handed acked es = true → acked ≤ handed →
      acked + es.count Event.EV_ACK ≤ handed := by
  induction es with
  | nil => intro acked _ h; simpa using h
  | cons e es ih =>
    intro acked hd hle
    unfold acks_for_frames at hd
    by_cases he : e = Event.EV_ACK
    · rw [if_pos he] at hd
      simp only [Bool.and_eq_true, decide_eq_true_eq] at hd
      have := ih (acked + 1) hd.2 (by omega)
      rw [he, List.count_cons_self]
      omega
    · rw [if_neg he] at hd
      have := ih acked hd hle
      rw [List.count_cons_of_ne (fun h => he h.symm)]
      exact this

/-- One step of such a run keeps the bookkeeping: `ack_req` is the number of
confirmed frames handed to `ttn_send`, `ack_rx` the number of `EV_ACK` reports,
and the reports do not exceed the frames. -/
theorem ackStep_invariant (T : Target ρ) (s s' : World ρ × Nat)
    (h : s.1.ack_req = confirmed_handed s.1 ∧ s.1.ack_rx = s.2 ∧ s.2 ≤ confirmed_handed s.1)
    (hs : AckStep T s s') :
    s'.1.ack_req = confirmed_handed s'.1 ∧ s'.1.ack_rx = s'.2 ∧
      s'.2 ≤ confirmed_handed s'.1 := by
  obtain ⟨hq, hx, hle⟩ := h
  cases hs with
  | tick inp w acked hd =>
    obtain ⟨l1, l2, l3⟩ := loop_handed T inp w
    have hc := acks_for_frames_count _ _ acked hd hle
    simp only at hq hx hle ⊢
    refine ⟨?_, ?_, ?_⟩
    · omega
    · rw [l2, hx]; push_cast; ring
    · omega
  | event r message w acked hd =>
    obtain ⟨c1, c2⟩ := lora_msg_callback_counters T message { w with radio := r }
    have c3 : confirmed_handed (lora_msg_callback T message { w with radio := r }) =
        confirmed_handed w := by
      unfold confirmed_handed
      rw [(lora_msg_callback_frame T message { w with radio := r }).1]
    simp only at hq hx hle ⊢
    rw [c1, c2, c3]
    refine ⟨hq, ?_, ?_⟩
    · show w.ack_rx + _ = _
      rw [hx]
      split_ifs <;> simp
    · split_ifs with hm
      · have := hd hm
        omega
      · omega

/-- C15 (amended): take a run of scheduler ticks and radio events from a state
with `ack_req = 0`, `ack_rx = 0` and nothing handed to the radio yet, in which
the radio reports `EV_ACK` at most once per confirmed frame handed to
`ttn_send` (at each report, fewer reports have been made than confirmed frames
handed over).  In every state of the run `ack_req` is the number of confirmed
frames handed to `ttn_send`, `ack_rx` is the number of `EV_ACK` reports, and
`ack_req ≥ ack_rx` holds. -/
theorem ack_counters_invariant (T : Target ρ) (w0 w : World ρ) (acked : Nat)
    (hreq : w0.ack_req = 0) (hrx : w0.ack_rx = 0) (hsent : w0.sent = [])
    (hr : Relation.ReflTransGen (AckStep T) (w0, 0) (w, acked)) :
    w.ack_req = confirmed_handed w ∧ w.ack_rx = acked ∧ w.ack_req ≥ w.ack_rx := by
  have key : ∀ s : World ρ × Nat, Relation.ReflTransGen (AckStep T) (w0, 0) s →
      s.1.ack_req = confirmed_handed s.1 ∧ s.1.ack_rx = s.2 ∧ s.2 ≤ confirmed_handed s.1 := by
    intro s hs
    induction hs with
    | refl => simp [confirmed_handed, hreq, hrx, hsent]
    | tail _ hstep ih => exact ackStep_invariant T _ _ ih hstep
  obtain ⟨k1, k2, k3⟩ := key (w, acked) hr
  simp only at k1 k2 k3
  refine ⟨k1, k2, ?_⟩
  rw [k1, k2]
  exact_mod_cast k3

/-- Witness of `ack_counters_invariant`: a tick sends a STATUS frame, which
raises `ack_req` to 1, and the radio then reports its acknowledgment. -/
theorem ack_counters_invariant_witness :
    ({ sampleWorld true sampleGps with ack_req := 0 }.ack_req = 0 ∧
      { sampleWorld true sampleGps with ack_req := 0 }.ack_rx = 0 ∧
      { sampleWorld true sampleGps with ack_req := 0 }.sent = [] ∧
      Relation.ReflTransGen (AckStep steadyRadio)
        ({ sampleWorld true sampleGps with ack_req := 0 }, 0)
        (lora_msg_callback steadyRadio Event.EV_ACK
          { (loop steadyRadio (quietInput true)
              { sampleWorld true sampleGps with ack_req := 0 }).1 with radio := true }, 1)) ∧
    confirmed_handed (loop steadyRadio (quietInput true)
      { sampleWorld true sampleGps with ack_req := 0 }).1 = 1 ∧
    (lora_msg_callback steadyRadio Event.EV_ACK
        { (loop steadyRadio (quietInput true) { sampleWorld true sampleGps with ack_req := 0 }).1 with
          radio := true }).ack_req = 1 ∧
    (lora_msg_callback steadyRadio Event.EV_ACK
        { (loop steadyRadio (quietInput true) { sampleWorld true sampleGps with ack_req := 0 }).1 with
          radio := true }).ack_rx = 1 ∧
    (lora_msg_callback steadyRadio Event.EV_ACK
        { (loop steadyRadio (quietInput true) { sampleWorld true sampleGps with ack_req := 0 }).1 with
          radio := true }).ack_req ≥
      (lora_msg_callback steadyRadio Event.EV_ACK
        { (loop steadyRadio (quietInput true) { sampleWorld true sampleGps with ack_req := 0 }).1 with
          radio := true }).ack_rx :=
  have hrun : Relation.ReflTransGen (AckStep steadyRadio)
      ({ sampleWorld true sampleGps with ack_req := 0 }, 0)
      (lora_msg_callback steadyRadio Event.EV_ACK
        { (loop steadyRadio (quietInput true)
            { sampleWorld true sampleGps with ack_req := 0 }).1 with radio := true }, 1) :=
    Relation.ReflTransGen.tail
      (Relation.ReflTransGen.single
        (AckStep.tick (quietInput true) { sampleWorld true sampleGps with ack_req := 0 } 0 rfl))
      (AckStep.event true Event.EV_ACK _ 0 (fun _ => by decide))
  ⟨⟨rfl, rfl, rfl, hrun⟩, by decide, rfl, rfl,
    (ack_counters_invariant steadyRadio _ _ 1 rfl rfl rfl hrun).2.2⟩

/-- C15 (as stated) fails with a radio that reports an acknowledgment nobody
asked for: one `EV_ACK` handed to the callback in the state at boot gives
`ack_rx = 1` with `ack_req = 0`. -/
theorem ack_counters_spurious_ack :
    (initialWorld steadyRadio true).ack_req = 0 ∧ (initialWorld steadyRadio true).ack_rx = 0 ∧
    Reachable steadyRadio (initialWorld steadyRadio true)
      (lora_msg_callback steadyRadio Event.EV_ACK
        { initialWorld steadyRadio true with radio := true }) ∧
    (lora_msg_callback steadyRadio Event.EV_ACK
      { initialWorld steadyRadio true with radio := true }).ack_req = 0 ∧
    (lora_msg_callback steadyRadio Event.EV_ACK
      { initialWorld steadyRadio true with radio := true }).ack_rx = 1 :=
  ⟨rfl, rfl, Relation.ReflTransGen.single (Step.event true Event.EV_ACK _), rfl, rfl⟩

end Counters

/-! ## The transmit buffer -/

section TransmitBuffer

variable {ρ : Type}

theorem frame_congr (b b' : Buffer) (n : Nat)
    (h : ∀ i : Fin 24, i.val < n → b i = b' i) : frame b n = frame b' n := by
  unfold frame
  apply List.ext_getElem
  · simp
  · intro i h1 h2
    simp only [List.length_take, List.length_ofFn, lt_min_iff] at h1
    simp only [List.getElem_take, List.getElem_ofFn]
    exact h ⟨i, h1.2⟩ h1.1

theorem sameButBuffer_iff (w w' : World ρ) :
    SameButBuffer w w' ↔ ∃ b', w' = with_buffer w b' :=
  ⟨fun h => ⟨w'.txBuffer, h.symm⟩, fun ⟨b', h⟩ => by rw [h]; rfl⟩

theorem sameButBuffer_sent (w w' : World ρ) (h : SameButBuffer w w') : w'.sent = w.sent := by
  obtain ⟨b', rfl⟩ := (sameButBuffer_iff w w').mp h
  rfl

/-- `send_uplink` on two states that differ in the buffer only, when the
frames to send agree: same result, and states that differ in the buffer only. -/
theorem send_uplink_same (T : Target ρ) (v v' : World ρ) (length fport : Nat)
    (confirmed ping : Bool) (h : SameButBuffer v v')
    (hf : frame v.txBuffer length = frame v'.txBuffer length) :
    (send_uplink T v length fport confirmed ping).1 =
        (send_uplink T v' length fport confirmed ping).1 ∧
      SameButBuffer (send_uplink T v length fport confirmed ping).2
        (send_uplink T v' length fport confirmed ping).2 := by
  obtain ⟨b', rfl⟩ := (sameButBuffer_iff v v').mp h
  have hf' : frame b' length = frame v.txBuffer length := hf.symm
  have hr : ready T (with_buffer v b') = ready T v := rfl
  rw [send_uplink_eq T v, send_uplink_eq T (with_buffer v b'), hr]
  simp only [with_buffer, hf']
  split_ifs <;> exact ⟨rfl, rfl⟩

/-- The 8 bytes of a STATUS or PING frame: coordinates in bytes 0-5, then
bytes 6 and 7.  None comes from the buffer as it was. -/
theorem short_frame_indep (oor : Nat → ℚ → Nat) (lat lon : ℚ) (v6 v7 : Nat) (b b' : Buffer) :
    frame (((pack_lat_lon oor lat lon b).write 6 v6).write 7 v7) 8 =
      frame (((pack_lat_lon oor lat lon b').write 6 v6).write 7 v7) 8 := by
  apply frame_congr
  intro i hi
  fin_cases i <;> first
    | exact absurd hi (by decide)
    | simp [pack_lat_lon, Buffer.write, Function.update_apply]

/-- The 24 bytes of a GPS or GPSLOST frame: coordinates in bytes 0-5, bytes
6-14, the sensor block in bytes 15-23.  None comes from the buffer as it was. -/
theorem long_frame_indep (oor : Nat → ℚ → Nat) (lat lon : ℚ)
    (v6 v7 v8 v9 v10 v11 v12 v13 v14 : Nat) (ba la : Bool) (t p h : ℚ) (uvs : Nat)
    (b b' : Buffer) (i : Fin 24) :
    pack_ltr390 la uvs (pack_bme280 oor ba t p h
        ((((((((((pack_lat_lon oor lat lon b).write 6 v6).write 7 v7).write 8 v8).write 9 v9).write
          10 v10).write 11 v11).write 12 v12).write 13 v13).write 14 v14)) i =
    pack_ltr390 la uvs (pack_bme280 oor ba t p h
        ((((((((((pack_lat_lon oor lat lon b').write 6 v6).write 7 v7).write 8 v8).write 9 v9).write
          10 v10).write 11 v11).write 12 v12).write 13 v13).write 14 v14)) i := by
  by_cases h15 : 15 ≤ i.val
  · exact sensor_block_indep _ _ _ _ _ _ _ _ _ i h15
  · rw [pack_ltr390_other _ _ _ _ (by omega), pack_bme280_other _ _ _ _ _ _ _ (by omega),
      pack_ltr390_other _ _ _ _ (by omega), pack_bme280_other _ _ _ _ _ _ _ (by omega)]
    fin_cases i <;> first
      | exact absurd (show 15 ≤ _ by decide) h15
      | simp [pack_lat_lon, Buffer.write, Function.update_apply]

theorem status_uplink_eq (T : Target ρ) (w : World ρ) :
    status_uplink T w =
      (decide ((send_uplink T (status_ready T w) 8 FPORT_STATUS true false).1 ≠
          MAPPER_UPLINK_SUCCESS),
        (send_uplink T (status_ready T w) 8 FPORT_STATUS true false).2) := rfl

theorem gpslost_uplink_eq (T : Target ρ) (w : World ρ) :
    gpslost_uplink T w =
      send_uplink T (gpslost_ready T w) 24 FPORT_GPSLOST (want_ack T w) false := rfl

theorem ping_uplink_eq (T : Target ρ) (w : World ρ) :
    ping_uplink T w = (send_uplink T (ping_ready T w) 8 FPORT_PING false true).2 := rfl

theorem gps_uplink_eq (T : Target ρ) (w : World ρ) (h : fixRejected w.gps = false) :
    gps_uplink T w =
      send_uplink T (gps_ready T w) 24 FPORT_GPS (want_ack T w) false :=
  gps_uplink_accept T w h

/-- Every byte of the 8 handed over by `status_uplink` is written by it. -/
theorem status_ready_indep (T : Target ρ) (w : World ρ) (b b' : Buffer) :
    frame (status_ready T (with_buffer w b)).txBuffer 8 =
      frame (status_ready T (with_buffer w b')).txBuffer 8 :=
  short_frame_indep _ _ _ _ _ b b'

/-- Every byte of the 8 handed over by `ping_uplink` is written by it. -/
theorem ping_ready_indep (T : Target ρ) (w : World ρ) (b b' : Buffer) :
    frame (ping_ready T (with_buffer w b)).txBuffer 8 =
      frame (ping_ready T (with_buffer w b')).txBuffer 8 := by
  unfold ping_ready with_buffer
  simp only
  split_ifs
  · exact short_frame_indep _ _ _ _ _ b b'
  · exact short_frame_indep _ _ _ _ _ b b'

/-- Every byte of the 24 handed over by `gpslost_uplink` is written by it. -/
theorem gpslost_ready_indep (T : Target ρ) (w : World ρ) (b b' : Buffer) (i : Fin 24) :
    (gpslost_ready T (with_buffer w b)).txBuffer i =
      (gpslost_ready T (with_buffer w b')).txBuffer i :=
  long_frame_indep _ _ _ _ _ _ _ _ _ _ _ _ _ _ _ _ _ _ b b' i

/-- Every byte of the 24 handed over by `gps_uplink` is written by
`build_full_packet`. -/
theorem gps_ready_indep (T : Target ρ) (w : World ρ) (b b' : Buffer) (i : Fin 24) :
    (gps_ready T (with_buffer w b)).txBuffer i =
      (gps_ready T (with_buffer w b')).txBuffer i :=
  long_frame_indep _ _ _ _ _ _ _ _ _ _ _ _ _ _ _ _ _ _ b b' i

theorem status_uplink_same (T : Target ρ) (w w' : World ρ) (h : SameButBuffer w w') :
    (status_uplink T w).1 = (status_uplink T w').1 ∧
      SameButBuffer (status_uplink T w).2 (status_uplink T w').2 := by
  obtain ⟨b', rfl⟩ := (sameButBuffer_iff w w').mp h
  have key := send_uplink_same T (status_ready T w) (status_ready T (with_buffer w b')) 8
    FPORT_STATUS true false rfl (status_ready_indep T w w.txBuffer b')
  rw [status_uplink_eq, status_uplink_eq]
  exact ⟨by simp only [key.1], key.2⟩

theorem gpslost_uplink_same (T : Target ρ) (w w' : World ρ) (h : SameButBuffer w w') :
    (gpslost_uplink T w).1 = (gpslost_uplink T w').1 ∧
      SameButBuffer (gpslost_uplink T w).2 (gpslost_uplink T w').2 := by
  obtain ⟨b', rfl⟩ := (sameButBuffer_iff w w').mp h
  rw [gpslost_uplink_eq, gpslost_uplink_eq]
  exact send_uplink_same T (gpslost_ready T w) (gpslost_ready T (with_buffer w b')) 24
    FPORT_GPSLOST _ false rfl
    (frame_congr _ _ _ (fun i _ => gpslost_ready_indep T w w.txBuffer b' i))

theorem ping_uplink_same (T : Target ρ) (w w' : World ρ) (h : SameButBuffer w w') :
    SameButBuffer (ping_uplink T w) (ping_uplink T w') := by
  obtain ⟨b', rfl⟩ := (sameButBuffer_iff w w').mp h
  rw [ping_uplink_eq, ping_uplink_eq]
  exact (send_uplink_same T (ping_ready T w) (ping_ready T (with_buffer w b')) 8
    FPORT_PING false true rfl (ping_ready_indep T w w.txBuffer b')).2

theorem uplink_same (T : Target ρ) (w w' : World ρ) (h : SameButBuffer w w') :
    (uplink T w).1 = (uplink T w').1 ∧ SameButBuffer (uplink T w).2 (uplink T w').2 := by
  obtain ⟨b', rfl⟩ := (sameButBuffer_iff w w').mp h
  by_cases hrej : fixRejected w.gps = true
  · have hrej' : fixRejected (with_buffer w b').gps = true := hrej
    rw [uplink_reject T w hrej, uplink_reject T _ hrej']
    exact gpslost_uplink_same T _ _ rfl
  · have hacc : fixRejected w.gps = false := by simpa using hrej
    have hacc' : fixRejected (with_buffer w b').gps = false := hacc
    rw [uplink_accept T w hacc, uplink_accept T _ hacc', gps_uplink_eq T w hacc,
      gps_uplink_eq T _ hacc']
    exact send_uplink_same T (gps_ready T w) (gps_ready T (with_buffer w b')) 24
      FPORT_GPS _ false rfl
      (frame_congr _ _ _ (fun i _ => gps_ready_indep T w w.txBuffer b' i))

theorem lora_msg_callback_buffer (T : Target ρ) (message : Event) (w : World ρ)
    (b : Buffer) :
    lora_msg_callback T message (with_buffer w b) =
      with_buffer (lora_msg_callback T message w) b := by
  cases message <;>
    simp only [lora_msg_callback, with_buffer, reduceCtorEq, if_true, if_false, or_false,
      or_true, or_self] <;>
    split_ifs <;> rfl

theorem ttn_loop_buffer (T : Target ρ) (inp : TickInput ρ) (w : World ρ) (b : Buffer) :
    ttn_loop T inp (with_buffer w b) = with_buffer (ttn_loop T inp w) b := by
  unfold ttn_loop
  simp only
  generalize inp.events = es
  induction es generalizing w with
  | nil => rfl
  | cons e es ih =>
    simp only [List.foldl_cons]
    have h1 : ({ with_buffer w b with radio := e.1 } : World ρ) =
        with_buffer { w with radio := e.1 } b := rfl
    rw [h1, lora_msg_callback_buffer]
    exact ih _

theorem note_fix_buffer (now : Nat) (w : World ρ) (b : Buffer) :
    note_fix now (with_buffer w b) = with_buffer (note_fix now w) b := by
  unfold note_fix
  simp only [with_buffer]
  split_ifs <;> rfl

theorem check_sensors_buffer (inp : TickInput ρ) (w : World ρ) (b : Buffer) :
    check_sensors inp (with_buffer w b) = with_buffer (check_sensors inp w) b := by
  unfold check_sensors
  simp only [with_buffer]
  split_ifs <;> rfl

/-- The first half of a tick neither reads nor writes the transmit buffer. -/
theorem poll_buffer (T : Target ρ) (inp : TickInput ρ) (w : World ρ) (b : Buffer) :
    poll T inp (with_buffer w b) = ((poll T inp w).1, with_buffer (poll T inp w).2 b) := by
  unfold poll
  simp only [millis]
  have h1 : ({ with_buffer w b with
        reads := (with_buffer w b).reads + 1, gps := inp.gps, sensors := inp.sensors,
        battVoltage := inp.battVoltage } : World ρ) =
      with_buffer { w with
        reads := w.reads + 1, gps := inp.gps, sensors := inp.sensors,
        battVoltage := inp.battVoltage } b := rfl
  have h2 : (with_buffer w b).clock (with_buffer w b).reads = w.clock w.reads := rfl
  rw [h2]
  refine Prod.ext rfl ?_
  show check_sensors inp (ttn_loop T inp (note_fix _ _)) = _
  rw [h1, note_fix_buffer, ttn_loop_buffer, check_sensors_buffer]

theorem after_status_same (T : Target ρ) (now : Nat) (w w' : World ρ)
    (h : SameButBuffer w w') :
    SameButBuffer (after_status T now w) (after_status T now w') := by
  obtain ⟨b', rfl⟩ := (sameButBuffer_iff w w').mp h
  unfold after_status
  have hc : (decide (sub32 now (with_buffer w b').last_status_ms > 30 * 1000) &&
      !(with_buffer w b').ack_rec && ready T (with_buffer w b')) =
      (decide (sub32 now w.last_status_ms > 30 * 1000) && !w.ack_rec && ready T w) := rfl
  rw [hc]
  split_ifs
  · exact (status_uplink_same T w (with_buffer w b') h).2
  · exact h

theorem record_uplink_same (p p' : mapper_uplink_result × World ρ) (h1 : p.1 = p'.1)
    (h2 : SameButBuffer p.2 p'.2) : SameButBuffer (record_uplink p) (record_uplink p') := by
  obtain ⟨r, v⟩ := p
  obtain ⟨r', v'⟩ := p'
  simp only at h1 h2
  subst h1
  obtain ⟨b', rfl⟩ := (sameButBuffer_iff v v').mp h2
  unfold record_uplink
  simp only
  split_ifs <;> rfl

theorem due_same (T : Target ρ) (now : Nat) (w w' : World ρ) (h : SameButBuffer w w') :
    ping_due T now w' = ping_due T now w ∧ periodic_due T now w' = periodic_due T now w ∧
      SameButBuffer (before_ping T w) (before_ping T w') := by
  obtain ⟨b', rfl⟩ := (sameButBuffer_iff w w').mp h
  exact ⟨rfl, rfl, rfl⟩

/-- The deciding half of a tick on two states that differ in the buffer only:
same restart flag, and states that differ in the buffer only. -/
theorem schedule_same (T : Target ρ) (now : Nat) (w w' : World ρ) (h : SameButBuffer w w') :
    (schedule T now w).2 = (schedule T now w').2 ∧
      SameButBuffer (schedule T now w).1 (schedule T now w').1 := by
  have ha := after_status_same T now w w' h
  obtain ⟨d1, d2, d3⟩ := due_same T now _ _ ha
  obtain ⟨b', rfl⟩ := (sameButBuffer_iff w w').mp h
  rw [schedule_eq T now w, schedule_eq T now (with_buffer w b')]
  by_cases hwd : w.ack_req - w.ack_rx ≥ T.ACK_FAIL_THRESHOLD
  · have hwd' : (with_buffer w b').ack_req - (with_buffer w b').ack_rx ≥
        T.ACK_FAIL_THRESHOLD := hwd
    rw [if_pos hwd, if_pos hwd']
    exact ⟨rfl, h⟩
  have hwd' : ¬ (with_buffer w b').ack_req - (with_buffer w b').ack_rx ≥
      T.ACK_FAIL_THRESHOLD := hwd
  rw [if_neg hwd, if_neg hwd', d1, d2]
  split_ifs
  · exact ⟨rfl, ping_uplink_same T _ _ d3⟩
  · obtain ⟨u1, u2⟩ := uplink_same T _ _ ha
    exact ⟨rfl, record_uplink_same _ _ u1 u2⟩
  · exact ⟨rfl, ha⟩

/-- One tick on two states that differ in the buffer only. -/
theorem loop_same (T : Target ρ) (inp : TickInput ρ) (w : World ρ) (b : Buffer) :
    (loop T inp w).2 = (loop T inp (with_buffer w b)).2 ∧
      SameButBuffer (loop T inp w).1 (loop T inp (with_buffer w b)).1 := by
  unfold loop
  rw [poll_buffer]
  exact schedule_same T _ _ _ rfl

/-- Per byte: none of the 8 bytes of a STATUS or PING frame comes from the
buffer as it was. -/
theorem short_bytes_indep (oor : Nat → ℚ → Nat) (lat lon : ℚ) (v6 v7 : Nat) (b b' : Buffer)
    (i : Fin 24) (hi : i.val < 8) :
    ((pack_lat_lon oor lat lon b).write 6 v6).write 7 v7 i =
      ((pack_lat_lon oor lat lon b').write 6 v6).write 7 v7 i := by
  fin_cases i <;> first
    | exact absurd hi (by decide)
    | simp [pack_lat_lon, Buffer.write, Function.update_apply]

theorem ping_ready_bytes (T : Target ρ) (w : World ρ) (b b' : Buffer) (i : Fin 24)
    (hi : i.val < 8) :
    (ping_ready T (with_buffer w b)).txBuffer i = (ping_ready T (with_buffer w b')).txBuffer i := by
  unfold ping_ready with_buffer
  simp only
  split_ifs
  · exact short_bytes_indep _ _ _ _ _ b b' i hi
  · exact short_bytes_indep _ _ _ _ _ b b' i hi

theorem submitted_same (v v' x x' : World ρ) (h0 : SameButBuffer v v')
    (h1 : SameButBuffer x x') : submitted v x = submitted v' x' := by
  unfold submitted
  rw [sameButBuffer_sent v v' h0, sameButBuffer_sent x x' h1]

theorem gps_uplink_same (T : Target ρ) (w w' : World ρ) (h : SameButBuffer w w') :
    (gps_uplink T w).1 = (gps_uplink T w').1 ∧
      SameButBuffer (gps_uplink T w).2 (gps_uplink T w').2 := by
  obtain ⟨b', rfl⟩ := (sameButBuffer_iff w w').mp h
  by_cases hrej : fixRejected w.gps = true
  · have hrej' : fixRejected (with_buffer w b').gps = true := hrej
    rw [gps_uplink_reject T w hrej, gps_uplink_reject T _ hrej']
    exact ⟨rfl, rfl⟩
  · have hacc : fixRejected w.gps = false := by simpa using hrej
    have hacc' : fixRejected (with_buffer w b').gps = false := hacc
    rw [gps_uplink_eq T w hacc, gps_uplink_eq T _ hacc']
    exact send_uplink_same T (gps_ready T w) (gps_ready T (with_buffer w b')) 24
      FPORT_GPS _ false rfl
      (frame_congr _ _ _ (fun i _ => gps_ready_indep T w w.txBuffer b' i))

/-- C20: every byte of every frame handed to the radio is written while the
frame is built: each of the 24 bytes of the buffer `build_full_packet` and
`gpslost_uplink` hand over, and each of the first 8 bytes of the buffer
`status_uplink` and `ping_uplink` hand over, has the same value whatever the
buffer held before, and these buffers are what the radio is given.  Hence for
any two initial contents `b` and `b'` of the transmit buffer and the same state
and inputs, the frames handed to the radio by each uplink function, and by a
whole tick, are identical. -/
theorem transmit_buffer_overwritten (T : Target ρ) (inp : TickInput ρ) (w : World ρ)
    (b b' : Buffer) :
    (∀ i : Fin 24, (build_full_packet T (with_buffer w b)).txBuffer i =
      (build_full_packet T (with_buffer w b')).txBuffer i) ∧
    (∀ i : Fin 24, (gpslost_ready T (with_buffer w b)).txBuffer i =
      (gpslost_ready T (with_buffer w b')).txBuffer i) ∧
    (∀ i : Fin 24, i.val < 8 → (status_ready T (with_buffer w b)).txBuffer i =
      (status_ready T (with_buffer w b')).txBuffer i) ∧
    (∀ i : Fin 24, i.val < 8 → (ping_ready T (with_buffer w b)).txBuffer i =
      (ping_ready T (with_buffer w b')).txBuffer i) ∧
    (∀ tx ∈ submitted w (gps_uplink T w).2,
      tx.data = frame (build_full_packet T (millis w).2).txBuffer 24 ∧ tx.data.length = 24) ∧
    (∀ tx ∈ submitted w (gpslost_uplink T w).2,
      tx.data = frame (gpslost_ready T w).txBuffer 24 ∧ tx.data.length = 24) ∧
    (∀ tx ∈ submitted w (status_uplink T w).2,
      tx.data = frame (status_ready T w).txBuffer 8 ∧ tx.data.length = 8) ∧
    (∀ tx ∈ submitted w (ping_uplink T w),
      tx.data = frame (ping_ready T w).txBuffer 8 ∧ tx.data.length = 8) ∧
    submitted (with_buffer w b) (gps_uplink T (with_buffer w b)).2 =
      submitted (with_buffer w b') (gps_uplink T (with_buffer w b')).2 ∧
    submitted (with_buffer w b) (gpslost_uplink T (with_buffer w b)).2 =
      submitted (with_buffer w b') (gpslost_uplink T (with_buffer w b')).2 ∧
    submitted (with_buffer w b) (status_uplink T (with_buffer w b)).2 =
      submitted (with_buffer w b') (status_uplink T (with_buffer w b')).2 ∧
    submitted (with_buffer w b) (ping_uplink T (with_buffer w b)) =
      submitted (with_buffer w b') (ping_uplink T (with_buffer w b')) ∧
    submitted (with_buffer w b) (loop T inp (with_buffer w b)).1 =
      submitted (with_buffer w b') (loop T inp (with_buffer w b')).1 := by
  have h0 : SameButBuffer (with_buffer w b) (with_buffer w b') := rfl
  refine ⟨?_, ?_, ?_, ?_, ?_, ?_, ?_, ?_, ?_, ?_, ?_, ?_, ?_⟩
  · intro i
    exact long_frame_indep _ _ _ _ _ _ _ _ _ _ _ _ _ _ _ _ _ _ b b' i
  · intro i
    exact gpslost_ready_indep T w b b' i
  · intro i hi
    exact short_bytes_indep _ _ _ _ _ b b' i hi
  · intro i hi
    exact ping_ready_bytes T w b b' i hi
  · intro tx htx
    rw [submitted_append _ _ _ (gps_uplink_sent T w)] at htx
    split_ifs at htx with hc
    · simp only [List.mem_singleton] at htx
      subst htx
      refine ⟨?_, frame_length _ _ le_rfl⟩
      show frame (gps_uplink T w).2.txBuffer 24 = _
      rw [gps_uplink_buffer T w hc.1]
    · simp at htx
  · intro tx htx
    rw [submitted_append _ _ _ (gpslost_uplink_sent T w)] at htx
    split_ifs at htx
    · simp only [List.mem_singleton] at htx
      subst htx
      refine ⟨?_, frame_length _ _ le_rfl⟩
      show frame (gpslost_uplink T w).2.txBuffer 24 = _
      rw [gpslost_uplink_eq, (send_uplink_frame _ _ _ _ _ _).2.1]
    · simp at htx
  · intro tx htx
    rw [submitted_append _ _ _ (status_uplink_sent T w).1] at htx
    split_ifs at htx
    · simp only [List.mem_singleton] at htx
      subst htx
      refine ⟨?_, frame_length _ _ (by norm_num)⟩
      show frame (status_uplink T w).2.txBuffer 8 = _
      rw [status_uplink_eq, (send_uplink_frame _ _ _ _ _ _).2.1]
    · simp at htx
  · intro tx htx
    rw [submitted_append _ _ _ (ping_uplink_sent T w).1] at htx
    split_ifs at htx
    · simp only [List.mem_singleton] at htx
      subst htx
      refine ⟨?_, frame_length _ _ (by norm_num)⟩
      show frame (ping_uplink T w).txBuffer 8 = _
      rw [ping_uplink_eq, (send_uplink_frame _ _ _ _ _ _).2.1]
    · simp at htx
  · exact submitted_same _ _ _ _ h0 (gps_uplink_same T _ _ h0).2
  · exact submitted_same _ _ _ _ h0 (gpslost_uplink_same T _ _ h0).2
  · exact submitted_same _ _ _ _ h0 (status_uplink_same T _ _ h0).2
  · exact submitted_same _ _ _ _ h0 (ping_uplink_same T _ _ h0)
  · exact submitted_same _ _ _ _ h0 (loop_same T inp (with_buffer w b) b').2

end TransmitBuffer

end BalloonTracker
